import Mathlib

/-!
# Synaptics GStreamer plugins: inference stage, mailbox and overlay renderer

A shallow embedding of `ext/synap/gstsynapinfer.cpp`, `ext/synap/synapmeta.cpp`,
`ext/synap/gstsynapoverlay.cpp` and `ext/synap/gstsynapoverlayrender.cpp`.

Conventions of the embedding:

* an element instance (`GstSynapInfer`, `GstSynapOverlay`) is a record that is passed in
  and returned by every function that mutates it;
* `gint` values are `Int`; where the code multiplies two of them the product is wrapped
  to 32 bits (`wrap32`), division is C division (truncation towards zero);
* `gfloat`/`gdouble` values are exact extended rationals with a NaN (`gfloat`), compared
  as IEEE-754 compares them;
* a raw pointer is an address (`gpointer`), `0` is `NULL`;
* what the external collaborators (SyNAP network, cairo, GStreamer buffer mapping) answer
  for one call is an explicit input record;
* calls with an effect outside the element (deleting a payload, a cairo drawing call) are
  returned as a list, in program order.
-/

namespace Synap

/-! ## Basic types -/

/-- A raw pointer: an address, `0` is `NULL`. -/
abbrev gpointer := Nat

/-- The null pointer. -/
def NULL : gpointer := 0

/-- A floating point value (`gfloat`, `gdouble`): NaN, an infinity, or a finite value
held exactly. -/
inductive gfloat where
  | nan
  | ninf
  | fin (q : ℚ)
  | pinf
  deriving DecidableEq

namespace gfloat

/-- The C comparison `a > b`: false as soon as one side is NaN. -/
def gt : gfloat → gfloat → Bool
  | nan, _ => false
  | _, nan => false
  | pinf, pinf => false
  | pinf, _ => true
  | _, pinf => false
  | ninf, _ => false
  | fin _, ninf => true
  | fin a, fin b => decide (b < a)

/-- The C comparison `a <= b`: false as soon as one side is NaN. -/
def le : gfloat → gfloat → Bool
  | nan, _ => false
  | _, nan => false
  | _, pinf => true
  | pinf, _ => false
  | ninf, _ => true
  | fin _, ninf => false
  | fin a, fin b => decide (a ≤ b)

/-- The C comparison `a == b`: false as soon as one side is NaN. -/
def ceq : gfloat → gfloat → Bool
  | nan, _ => false
  | _, nan => false
  | pinf, pinf => true
  | ninf, ninf => true
  | fin a, fin b => decide (a = b)
  | _, _ => false

end gfloat

/-- Wrap an integer to the range of a 32 bit `gint`. -/
def wrap32 (x : Int) : Int := (x + 2 ^ 31) % 2 ^ 32 - 2 ^ 31

/-- `G_MAXINT`. -/
def G_MAXINT : Int := 2 ^ 31 - 1

/-- `GstSynapPostProcessingMode` of `synapmeta.h`. -/
inductive GstSynapPostProcessingMode where
  | GST_SYNAP_POSTPROCESSING_MODE_NONE
  | GST_SYNAP_POSTPROCESSING_MODE_CLASSIFIER
  | GST_SYNAP_POSTPROCESSING_MODE_DETECTOR
  deriving DecidableEq, Repr

/-- `GstSynapOutputMode` of `gstsynapinfer.h`. -/
inductive GstSynapOutputMode where
  | GST_SYNAP_OUTPUT_MODE_NONE
  | GST_SYNAP_OUTPUT_MODE_OVERLAY
  | GST_SYNAP_OUTPUT_MODE_JSON
  deriving DecidableEq, Repr

/-- The flow returns the two elements use. `GST_BASE_TRANSFORM_FLOW_DROPPED` tells the
base class not to push the buffer downstream. -/
inductive GstFlowReturn where
  | GST_FLOW_OK
  | GST_FLOW_ERROR
  | GST_BASE_TRANSFORM_FLOW_DROPPED
  deriving DecidableEq, Repr

open GstSynapPostProcessingMode GstSynapOutputMode GstFlowReturn

/-- The video formats the renderer distinguishes; `OTHER` stands for every other
`GstVideoFormat`. -/
inductive GstVideoFormat where
  | GST_VIDEO_FORMAT_ARGB
  | GST_VIDEO_FORMAT_BGRA
  | GST_VIDEO_FORMAT_xRGB
  | GST_VIDEO_FORMAT_BGRx
  | GST_VIDEO_FORMAT_RGB16
  | OTHER (id : Nat)
  deriving DecidableEq, Repr

/-- The part of `GstVideoInfo` the elements read: negotiated format, width and height. -/
structure GstVideoInfo where
  format : GstVideoFormat
  width : Int
  height : Int
  deriving DecidableEq

/-- A zero-filled `GstVideoInfo` (`GST_VIDEO_FORMAT_UNKNOWN` is 0). -/
def GstVideoInfo.zero : GstVideoInfo := { format := .OTHER 0, width := 0, height := 0 }

/-! ## Payloads (SyNAP result objects) -/

/-- One entry of `Classifier::Result::items`. -/
structure ClassifierItem where
  class_index : Int
  confidence : gfloat
  deriving DecidableEq

/-- `Classifier::Result`. -/
structure ClassifierResult where
  success : Bool
  items : List ClassifierItem
  deriving DecidableEq

/-- `Dim2d`: a pair of integer coordinates. -/
structure Dim2d where
  x : Int
  y : Int
  deriving DecidableEq

/-- `Rect`: origin and size. -/
structure Rect where
  origin : Dim2d
  size : Dim2d
  deriving DecidableEq

/-- `Landmark`: integer position and a visibility. -/
structure Landmark where
  x : Int
  y : Int
  z : Int
  visibility : gfloat
  deriving DecidableEq

/-- One entry of `Detector::Result::items`. -/
structure DetectorItem where
  class_index : Int
  confidence : gfloat
  bounding_box : Rect
  landmarks : List Landmark
  deriving DecidableEq

/-- `Detector::Result`. -/
structure DetectorResult where
  success : Bool
  items : List DetectorItem
  deriving DecidableEq

/-- A payload as the inference stage allocates it. -/
inductive SynapResult where
  | classifier (r : ClassifierResult)
  | detector (r : DetectorResult)
  deriving DecidableEq

/-! ## Side metadata (`synapmeta.h`, `synapmeta.cpp`) -/

/-- `GstSynapMeta`: the Envelope attached to a buffer. -/
structure GstSynapMeta where
  postproc_mode : GstSynapPostProcessingMode
  data : gpointer
  width : Int
  height : Int
  confthreshold : gfloat
  deriving DecidableEq

/-- The custom meta `GstSynapStrMeta`: `result` is the payload that `to_json_str`
serialised into the structure field `"result"`, `none` when the field was not set. -/
structure GstSynapStrMeta where
  result : Option SynapResult
  deriving DecidableEq

/-- A buffer, as far as the two elements look at it: the `GstSynapMeta` items and the
`GstSynapStrMeta` items attached to it, oldest first. -/
structure GstBuffer where
  synap_metas : List GstSynapMeta
  str_metas : List GstSynapStrMeta
  deriving DecidableEq

/-- A buffer with no metadata. -/
def GstBuffer.plain : GstBuffer := { synap_metas := [], str_metas := [] }

/-- `gst_buffer_add_synap_meta`: add a meta item to the buffer and fill its five fields. -/
def gst_buffer_add_synap_meta (buffer : GstBuffer) (data : gpointer)
    (postproc_mode : GstSynapPostProcessingMode) (width height : Int)
    (confthreshold : gfloat) : GstBuffer × GstSynapMeta :=
  let meta : GstSynapMeta :=
    { postproc_mode := postproc_mode, data := data, width := width, height := height,
      confthreshold := confthreshold }
  ({ buffer with synap_metas := buffer.synap_metas ++ [meta] }, meta)

/-- `gst_buffer_get_synap_meta`: the first `GstSynapMeta` of the buffer, `NULL` if none. -/
def gst_buffer_get_synap_meta (b : GstBuffer) : Option GstSynapMeta :=
  b.synap_metas.head?

/-! ## Inference stage (`gstsynapinfer.cpp`) -/

/-- `GST_SYNAP_DEFAULT_INFERENCE_CLASSIFIER`. -/
def GST_SYNAP_DEFAULT_INFERENCE_CLASSIFIER : Int := 2
/-- `GST_SYNAP_DEFAULT_THRESHOLD_CLASSIFIER`. -/
def GST_SYNAP_DEFAULT_THRESHOLD_CLASSIFIER : gfloat := .fin 11
/-- `GST_SYNAP_DEFAULT_INFERENCE_DETECTOR`. -/
def GST_SYNAP_DEFAULT_INFERENCE_DETECTOR : Int := 5
/-- `GST_SYNAP_DEFAULT_THRESHOLD_DETECTOR`. -/
def GST_SYNAP_DEFAULT_THRESHOLD_DETECTOR : gfloat := .fin (1 / 2)

/-- The instance record `_GstSynapInfer` (the handles of the SyNAP objects are left out:
what those objects answer is an input of each call). -/
structure GstSynapInfer where
  videoinfo : GstVideoInfo
  model : Option String
  mode : Option String
  output : Option String
  confthreshold : gfloat
  numinference : Int
  frame_interval : Int
  frame_counter : Int
  postproc_mode : GstSynapPostProcessingMode
  outputmode : GstSynapOutputMode
  deriving DecidableEq

/-- `gst_synap_infer_init`, applied to the zero-filled instance GObject allocates:
`frame_counter` is not assigned by the function and keeps its zero. -/
def gst_synap_infer_init : GstSynapInfer :=
  { videoinfo := GstVideoInfo.zero
    model := none
    mode := none
    postproc_mode := GST_SYNAP_POSTPROCESSING_MODE_NONE
    frame_interval := 0
    frame_counter := 0
    numinference := -1
    confthreshold := .fin (-1)
    output := none
    outputmode := GST_SYNAP_OUTPUT_MODE_OVERLAY }

/-- A property write: the property id with the `GValue` it carries. -/
inductive InferProperty where
  | PROP_MODEL (value : Option String)
  | PROP_MODE (value : Option String)
  | PROP_OUTPUT (value : Option String)
  | PROP_CONFIDENCE_THRESHOLD (value : gfloat)
  | PROP_NUM_INFERENCE (value : Int)
  | PROP_FRAME_INTERVAL (value : Int)
  deriving DecidableEq

/-- `gst_synap_infer_set_property`. -/
def gst_synap_infer_set_property (synapinfer : GstSynapInfer) :
    InferProperty → GstSynapInfer
  | .PROP_MODEL value =>
    match value with
    | some v => { synapinfer with model := some v }
    | none => synapinfer
  | .PROP_MODE value =>
    match value with
    | some v => { synapinfer with mode := some v }
    | none => synapinfer
  | .PROP_OUTPUT value =>
    match value with
    | some v => { synapinfer with output := some v }
    | none => synapinfer
  | .PROP_CONFIDENCE_THRESHOLD value => { synapinfer with confthreshold := value }
  | .PROP_NUM_INFERENCE value => { synapinfer with numinference := value }
  | .PROP_FRAME_INTERVAL value =>
    { synapinfer with frame_interval := value, frame_counter := value }

/-- `gst_synap_infer_set_caps`: `info` is what `gst_video_info_from_caps` parsed, `none`
when it failed. -/
def gst_synap_infer_set_caps (synapinfer : GstSynapInfer) (info : Option GstVideoInfo) :
    GstSynapInfer × Bool :=
  match info with
  | some i => ({ synapinfer with videoinfo := i }, true)
  | none => (synapinfer, false)

/-- What the collaborators of the inference stage answer for one frame. -/
structure InferEnv where
  /-- `map.data != NULL` after `gst_buffer_map`. -/
  raw_ok : Bool
  /-- `image.empty ()`. -/
  image_empty : Bool
  /-- Result of `preprocessor->assign`. -/
  assign_ok : Bool
  /-- Result of `network->predict`. -/
  predict_ok : Bool
  /-- Address returned by `new (...::Result)`. -/
  result : gpointer
  /-- Value of `classifier->process (outputs)`. -/
  classifier_out : ClassifierResult
  /-- Value of `detector->process (outputs, rect)`. -/
  detector_out : DetectorResult
  /-- `gst_buffer_add_custom_meta` returned a meta. -/
  custom_meta_ok : Bool
  /-- `gst_custom_meta_get_structure` returned a structure. -/
  structure_ok : Bool
  deriving DecidableEq

/-- Calls of the inference stage into its collaborators. -/
inductive InferCall where
  | assign
  | predict
  | classifier_process
  | detector_process
  | delete_classifier_result (p : gpointer)
  | delete_detector_result (p : gpointer)
  deriving DecidableEq

/-- The JSON branch shared by both post-processing functions: add the custom meta and,
if it and its structure exist, set the field `"result"`. -/
def add_str_meta (env : InferEnv) (buf : GstBuffer) (r : SynapResult) : GstBuffer :=
  if env.custom_meta_ok then
    { buf with str_metas := buf.str_metas ++
        [{ result := if env.structure_ok then some r else none }] }
  else buf

/-- `gst_synap_infer_postproc_classifier`. -/
def gst_synap_infer_postproc_classifier (synapinfer : GstSynapInfer) (env : InferEnv)
    (buf : GstBuffer) : GstBuffer × List InferCall × Bool :=
  if env.result = NULL then (buf, [], false)
  else if !env.classifier_out.success then (buf, [.classifier_process], false)
  else if synapinfer.outputmode = GST_SYNAP_OUTPUT_MODE_OVERLAY then
    ((gst_buffer_add_synap_meta buf env.result synapinfer.postproc_mode
        synapinfer.videoinfo.width synapinfer.videoinfo.height
        synapinfer.confthreshold).1,
      [.classifier_process], true)
  else if synapinfer.outputmode = GST_SYNAP_OUTPUT_MODE_JSON then
    (add_str_meta env buf (.classifier env.classifier_out),
      [.classifier_process, .delete_classifier_result env.result], true)
  else
    (buf, [.classifier_process, .delete_classifier_result env.result], true)

/-- `gst_synap_infer_postproc_detector`. -/
def gst_synap_infer_postproc_detector (synapinfer : GstSynapInfer) (env : InferEnv)
    (buf : GstBuffer) : GstBuffer × List InferCall × Bool :=
  if env.result = NULL then (buf, [], false)
  else if !env.detector_out.success then (buf, [.detector_process], false)
  else if synapinfer.outputmode = GST_SYNAP_OUTPUT_MODE_OVERLAY then
    ((gst_buffer_add_synap_meta buf env.result synapinfer.postproc_mode
        synapinfer.videoinfo.width synapinfer.videoinfo.height
        synapinfer.confthreshold).1,
      [.detector_process], true)
  else if synapinfer.outputmode = GST_SYNAP_OUTPUT_MODE_JSON then
    (add_str_meta env buf (.detector env.detector_out),
      [.detector_process, .delete_detector_result env.result], true)
  else
    (buf, [.detector_process, .delete_detector_result env.result], true)

/-- Result of one call of `gst_synap_infer_transform_ip`. -/
structure InferStep where
  synapinfer : GstSynapInfer
  buf : GstBuffer
  calls : List InferCall
  ret : GstFlowReturn
  deriving DecidableEq

/-- `gst_synap_infer_transform_ip`: the decimation step, then map, assign, predict and
post-process. -/
def gst_synap_infer_transform_ip (synapinfer : GstSynapInfer) (env : InferEnv)
    (buf : GstBuffer) : InferStep :=
  if synapinfer.frame_counter > 0 then
    { synapinfer := { synapinfer with frame_counter := synapinfer.frame_counter - 1 }
      buf := buf, calls := [], ret := GST_BASE_TRANSFORM_FLOW_DROPPED }
  else
    let synapinfer :=
      if synapinfer.frame_counter = 0 then
        { synapinfer with frame_counter := synapinfer.frame_interval }
      else synapinfer
    if !env.raw_ok then
      { synapinfer := synapinfer, buf := buf, calls := [], ret := GST_FLOW_ERROR }
    else if env.image_empty then
      { synapinfer := synapinfer, buf := buf, calls := [], ret := GST_FLOW_ERROR }
    else if !env.assign_ok then
      { synapinfer := synapinfer, buf := buf, calls := [.assign], ret := GST_FLOW_ERROR }
    else if !env.predict_ok then
      { synapinfer := synapinfer, buf := buf, calls := [.assign, .predict],
        ret := GST_FLOW_ERROR }
    else if synapinfer.postproc_mode = GST_SYNAP_POSTPROCESSING_MODE_CLASSIFIER then
      let r := gst_synap_infer_postproc_classifier synapinfer env buf
      { synapinfer := synapinfer, buf := r.1, calls := [.assign, .predict] ++ r.2.1,
        ret := if r.2.2 then GST_FLOW_OK else GST_FLOW_ERROR }
    else if synapinfer.postproc_mode = GST_SYNAP_POSTPROCESSING_MODE_DETECTOR then
      let r := gst_synap_infer_postproc_detector synapinfer env buf
      { synapinfer := synapinfer, buf := r.1, calls := [.assign, .predict] ++ r.2.1,
        ret := if r.2.2 then GST_FLOW_OK else GST_FLOW_ERROR }
    else
      { synapinfer := synapinfer, buf := buf, calls := [.assign, .predict],
        ret := GST_FLOW_ERROR }

/-- The frame proceeds past the decimation step of `gst_synap_infer_transform_ip` (it is
not answered with `GST_BASE_TRANSFORM_FLOW_DROPPED`). -/
def proceeds (r : InferStep) : Bool :=
  decide (r.ret ≠ GST_BASE_TRANSFORM_FLOW_DROPPED)

/-- Run `gst_synap_infer_transform_ip` on consecutive frames, one `InferEnv` and one
incoming buffer per frame; the results are listed in frame order. -/
def run_frames (synapinfer : GstSynapInfer) :
    List (InferEnv × GstBuffer) → GstSynapInfer × List InferStep
  | [] => (synapinfer, [])
  | (env, buf) :: rest =>
    let r := gst_synap_infer_transform_ip synapinfer env buf
    let t := run_frames r.synapinfer rest
    (t.1, r :: t.2)

/-- Number of frames of a run that proceed to inference. -/
def count_proceeding (rs : List InferStep) : Nat :=
  (rs.filter proceeds).length

/-! ## Overlay stage: the mailbox (`gstsynapoverlay.cpp`) -/

/-- The instance record `_GstSynapOverlay`. `data_lock` tells whether the mutex is held;
`overlaydata`, `mode`, `width`, `height`, `confthreshold` are the mailbox. -/
structure GstSynapOverlay where
  data_lock : Bool
  label : Option String
  videoinfo : GstVideoInfo
  mode : GstSynapPostProcessingMode
  overlaydata : gpointer
  width : Int
  height : Int
  confthreshold : gfloat
  labelinfo : gpointer
  deriving DecidableEq

/-- `gst_synap_overlay_init`, applied to the zero-filled instance GObject allocates: the
function initialises the mutex and assigns `overlaydata` and `label`; the other fields
keep their zero (`GST_SYNAP_POSTPROCESSING_MODE_NONE` is 0). -/
def gst_synap_overlay_init : GstSynapOverlay :=
  { data_lock := false
    label := none
    videoinfo := GstVideoInfo.zero
    mode := GST_SYNAP_POSTPROCESSING_MODE_NONE
    overlaydata := NULL
    width := 0
    height := 0
    confthreshold := .fin 0
    labelinfo := NULL }

/-- `gst_synap_overlay_set_property` for `PROP_LABEL`. -/
def gst_synap_overlay_set_property (synapoverlay : GstSynapOverlay)
    (value : Option String) : GstSynapOverlay :=
  match value with
  | some v => { synapoverlay with label := some v }
  | none => synapoverlay

/-- `gst_synap_overlay_set_caps`: `info` is what `gst_video_info_from_caps` parsed, `none`
when it failed. -/
def gst_synap_overlay_set_caps (synapoverlay : GstSynapOverlay)
    (info : Option GstVideoInfo) : GstSynapOverlay × Bool :=
  match info with
  | some i => ({ synapoverlay with videoinfo := i }, true)
  | none => (synapoverlay, false)

/-- Calls of the overlay stage that release memory, and its error report. -/
inductive OverlayCall where
  | delete_classifier_result (p : gpointer)
  | delete_detector_result (p : gpointer)
  | error_invalid_mode
  | delete_labelinfo (p : gpointer)
  | g_free_label
  deriving DecidableEq

/-- `gst_synap_overlay_start`: `labelinfo` is the address of the new `LabelInfo`,
`init_ok` the result of `labelinfo->init (label)`. -/
def gst_synap_overlay_start (synapoverlay : GstSynapOverlay) (labelinfo : gpointer)
    (init_ok : Bool) : GstSynapOverlay × Bool :=
  match synapoverlay.label with
  | some _ =>
    let synapoverlay := { synapoverlay with labelinfo := labelinfo }
    if labelinfo = NULL then (synapoverlay, false)
    else if !init_ok then (synapoverlay, false)
    else (synapoverlay, true)
  | none => (synapoverlay, true)

/-- `gst_synap_overlay_stop`. -/
def gst_synap_overlay_stop (synapoverlay : GstSynapOverlay) :
    GstSynapOverlay × List OverlayCall × Bool :=
  if synapoverlay.labelinfo ≠ NULL then
    (synapoverlay, [.delete_labelinfo synapoverlay.labelinfo], true)
  else (synapoverlay, [], true)

/-- `gst_synap_overlay_finalize`: clears the mutex and frees `label`. -/
def gst_synap_overlay_finalize (_synapoverlay : GstSynapOverlay) : List OverlayCall :=
  [.g_free_label]

/-- The guard of `gst_synap_overlay_inference_sink_chain`:
`meta != NULL && meta->data != NULL`. -/
def carries_envelope (buffer : GstBuffer) : Bool :=
  match gst_buffer_get_synap_meta buffer with
  | some m => decide (m.data ≠ NULL)
  | none => false

/-- `gst_synap_overlay_inference_sink_chain`: the publish operation of the mailbox. -/
def gst_synap_overlay_inference_sink_chain (synapoverlay : GstSynapOverlay)
    (buffer : GstBuffer) : GstSynapOverlay × List OverlayCall × GstFlowReturn :=
  match gst_buffer_get_synap_meta buffer with
  | some m =>
    if m.data ≠ NULL then
      let locked := { synapoverlay with data_lock := true }
      let calls : List OverlayCall :=
        if locked.overlaydata ≠ NULL then
          if locked.mode = GST_SYNAP_POSTPROCESSING_MODE_CLASSIFIER then
            [.delete_classifier_result locked.overlaydata]
          else if locked.mode = GST_SYNAP_POSTPROCESSING_MODE_DETECTOR then
            [.delete_detector_result locked.overlaydata]
          else [.error_invalid_mode]
        else []
      ({ locked with
          overlaydata := m.data
          mode := m.postproc_mode
          width := m.width
          height := m.height
          confthreshold := m.confthreshold
          data_lock := false },
        calls, GST_FLOW_OK)
    else (synapoverlay, [], GST_FLOW_OK)
  | none => (synapoverlay, [], GST_FLOW_OK)

/-- The call disposes a payload. -/
def OverlayCall.is_disposal : OverlayCall → Bool
  | .delete_classifier_result _ => true
  | .delete_detector_result _ => true
  | _ => false

/-- The payload a call disposes, if it disposes one. -/
def OverlayCall.disposed : OverlayCall → Option gpointer
  | .delete_classifier_result p => some p
  | .delete_detector_result p => some p
  | _ => none

/-- Publish the buffers of a list one after the other; the calls are collected in order. -/
def publish_all (synapoverlay : GstSynapOverlay) :
    List GstBuffer → GstSynapOverlay × List OverlayCall
  | [] => (synapoverlay, [])
  | b :: rest =>
    let r := gst_synap_overlay_inference_sink_chain synapoverlay b
    let t := publish_all r.1 rest
    (t.1, r.2.1 ++ t.2)

/-- Teardown of the overlay stage: `gst_synap_overlay_stop`, then
`gst_synap_overlay_finalize`. -/
def overlay_teardown (synapoverlay : GstSynapOverlay) : List OverlayCall :=
  let r := gst_synap_overlay_stop synapoverlay
  r.2.1 ++ gst_synap_overlay_finalize r.1

/-- The buffer the inference stage hands over for an Envelope: a fresh buffer with the
meta `gst_buffer_add_synap_meta` recorded. -/
def envelope_buffer (m : GstSynapMeta) : GstBuffer :=
  (gst_buffer_add_synap_meta GstBuffer.plain m.data m.postproc_mode m.width m.height
    m.confthreshold).1

/-! ## Overlay stage: the renderer (`gstsynapoverlayrender.cpp`) -/

/-- `GST_SYNAP_POSE_SIZE`. -/
def GST_SYNAP_POSE_SIZE : Nat := 17

/-- `GST_SYNAP_POSE_VISIBILITY_THRESHOLD`, the literal `0.3`. As a `double` the literal is
a little below 3/10, and no `float` lies between the two, so on the `float` visibilities
of the code the comparison with either value gives the same result. -/
def GST_SYNAP_POSE_VISIBILITY_THRESHOLD : gfloat := .fin (3 / 10)

/-- The cairo surface formats the renderer selects. -/
inductive cairo_format_t where
  | CAIRO_FORMAT_ARGB32
  | CAIRO_FORMAT_RGB24
  | CAIRO_FORMAT_RGB16_565
  deriving DecidableEq, Repr

/-- The cairo calls of the renderer, with the arguments that vary. Coordinates are the
integer values the code converts to `gdouble`. `text_path_label i` is
`cairo_text_path (cr, labelinfo->label (i).c_str ())`; `arc x y r` is the full circle
`cairo_arc (cr, x, y, r, 0, 2 * M_PI)`. -/
inductive CairoCall where
  | image_surface_create_for_data (format : cairo_format_t) (width height : Int)
  | create
  | select_font_face_sans_bold
  | set_font_size (size : ℚ)
  | move_to (x y : Int)
  | line_to (x y : Int)
  | text_path_label (class_index : Int)
  | set_source_rgb (r g b : ℚ)
  | set_line_width (w : ℚ)
  | fill_preserve
  | fill
  | stroke
  | arc (x y : Int) (radius : Int)
  | rectangle (x y width height : Int)
  | destroy
  | surface_destroy
  deriving DecidableEq

/-- What the collaborators of the renderer answer for one display frame: whether the
frame maps, whether cairo creates the surface and the context, and what the memory at an
address reads as when it is taken for a `Classifier::Result` or a `Detector::Result`. -/
structure RenderEnv where
  frame_map_ok : Bool
  surface_ok : Bool
  cr_ok : Bool
  classifier_at : gpointer → ClassifierResult
  detector_at : gpointer → DetectorResult

/-- Result of a drawing routine: the instance (its lock flag), the cairo calls made and
the `gboolean` returned. -/
structure RenderStep where
  synapoverlay : GstSynapOverlay
  calls : List CairoCall
  ret : Bool
  deriving DecidableEq

/-- The rescaling expression `coord * frameDim / modelDim` on `gint` operands. -/
def rescale (coord frameDim modelDim : Int) : Int :=
  wrap32 (Int.tdiv (wrap32 (coord * frameDim)) modelDim)

/-- The calls that draw the label of class `class_index` at the current point, as
`gst_synap_overlay_render_classification` makes them. -/
def classification_text (class_index : Int) : List CairoCall :=
  [.select_font_face_sans_bold, .set_font_size 35, .move_to 10 35,
   .text_path_label class_index, .set_source_rgb 1 1 1, .fill_preserve,
   .set_source_rgb 1 1 1, .set_line_width (3 / 10), .stroke, .fill_preserve]

/-- `gst_synap_overlay_render_classification`. `none` is undefined behaviour: `items[0]`
of an empty vector, or a `NULL` `labelinfo` dereferenced. -/
def gst_synap_overlay_render_classification (synapoverlay : GstSynapOverlay)
    (env : RenderEnv) (format : cairo_format_t) : Option RenderStep :=
  let surface : CairoCall := .image_surface_create_for_data format
    synapoverlay.videoinfo.width synapoverlay.videoinfo.height
  if !env.frame_map_ok then
    some { synapoverlay := synapoverlay, calls := [], ret := false }
  else if !env.surface_ok then
    some { synapoverlay := synapoverlay, calls := [surface], ret := false }
  else if !env.cr_ok then
    some { synapoverlay := synapoverlay, calls := [surface, .create, .surface_destroy],
           ret := false }
  else
    let locked := { synapoverlay with data_lock := true }
    if locked.overlaydata = NULL then
      some { synapoverlay := locked, calls := [surface, .create], ret := false }
    else
      match (env.classifier_at locked.overlaydata).items.head? with
      | none => none
      | some top =>
        let text : Option (List CairoCall) :=
          if top.confidence.gt locked.confthreshold then
            if locked.label ≠ none then
              if locked.labelinfo = NULL then none
              else some (classification_text top.class_index)
            else some []
          else some []
        text.map fun t =>
          { synapoverlay := { locked with data_lock := false }
            calls := [surface, .create] ++ t ++ [.destroy, .surface_destroy]
            ret := true }

/-- `gst_synap_overlay_render_poseline` for a frame of size `frame`: the calls made.
`none` is undefined behaviour: a landmark index out of range. -/
def gst_synap_overlay_render_poseline (synapoverlay : GstSynapOverlay)
    (frame : GstVideoInfo) (landmarks : List Landmark) (start end_ : Nat) :
    Option (List CairoCall) :=
  match landmarks[start]? with
  | none => none
  | some ls =>
    if ls.visibility.gt GST_SYNAP_POSE_VISIBILITY_THRESHOLD then
      match landmarks[end_]? with
      | none => none
      | some le =>
        if le.visibility.gt GST_SYNAP_POSE_VISIBILITY_THRESHOLD then
          some [.move_to (rescale ls.x frame.width synapoverlay.width)
                  (rescale ls.y frame.height synapoverlay.height),
                .line_to (rescale le.x frame.width synapoverlay.width)
                  (rescale le.y frame.height synapoverlay.height),
                .stroke]
        else some []
    else some []

/-- The eighteen `(start, end)` pairs of the calls of `gst_synap_overlay_render_poseline`
in `gst_synap_overlay_render_detection`, in the order of the calls. -/
def pose_edges : List (Nat × Nat) :=
  [(0, 1), (1, 3), (3, 5), (5, 7), (7, 9), (5, 11), (11, 13), (13, 15),
   (0, 2), (2, 4), (4, 6), (6, 8), (8, 10), (6, 12), (12, 14), (14, 16),
   (5, 6), (11, 12)]

/-- The calls of `gst_synap_overlay_render_poseline` for a list of pairs, in order. -/
def render_poselines (synapoverlay : GstSynapOverlay) (frame : GstVideoInfo)
    (landmarks : List Landmark) : List (Nat × Nat) → Option (List CairoCall)
  | [] => some []
  | (s, e) :: rest =>
    match gst_synap_overlay_render_poseline synapoverlay frame landmarks s e with
    | none => none
    | some a =>
      match render_poselines synapoverlay frame landmarks rest with
      | none => none
      | some b => some (a ++ b)

/-- One round of the dot loop: landmark `j`. -/
def render_dot (synapoverlay : GstSynapOverlay) (frame : GstVideoInfo)
    (landmarks : List Landmark) (j : Nat) : Option (List CairoCall) :=
  match landmarks[j]? with
  | none => none
  | some l =>
    if l.visibility.gt GST_SYNAP_POSE_VISIBILITY_THRESHOLD then
      some [.arc (rescale l.x frame.width synapoverlay.width)
              (rescale l.y frame.height synapoverlay.height) 3, .fill]
    else some []

/-- The dot loop over the indices of a list, in order. -/
def render_dots (synapoverlay : GstSynapOverlay) (frame : GstVideoInfo)
    (landmarks : List Landmark) : List Nat → Option (List CairoCall)
  | [] => some []
  | j :: rest =>
    match render_dot synapoverlay frame landmarks j with
    | none => none
    | some a =>
      match render_dots synapoverlay frame landmarks rest with
      | none => none
      | some b => some (a ++ b)

/-- The pose branch of the item loop of `gst_synap_overlay_render_detection`. -/
def render_pose (synapoverlay : GstSynapOverlay) (frame : GstVideoInfo)
    (landmarks : List Landmark) : Option (List CairoCall) :=
  match render_poselines synapoverlay frame landmarks pose_edges with
  | none => none
  | some lines =>
    match render_dots synapoverlay frame landmarks (List.range GST_SYNAP_POSE_SIZE) with
    | none => none
    | some dots =>
      some ([.set_source_rgb 1 1 0, .set_line_width (3 / 2)] ++ lines ++
        [.set_source_rgb 0 1 0] ++ dots)

/-- The rectangle `x, y, width, height` the box branch of
`gst_synap_overlay_render_detection` computes for a bounding box. -/
def box_geometry (synapoverlay : GstSynapOverlay) (frame : GstVideoInfo)
    (bounding_box : Rect) : Int × Int × Int × Int :=
  (rescale bounding_box.origin.x frame.width synapoverlay.width,
   rescale bounding_box.origin.y frame.height synapoverlay.height,
   rescale bounding_box.size.x frame.width synapoverlay.width,
   rescale bounding_box.size.y frame.height synapoverlay.height)

/-- The box branch of the item loop of `gst_synap_overlay_render_detection`. -/
def render_box (synapoverlay : GstSynapOverlay) (frame : GstVideoInfo)
    (item : DetectorItem) : Option (List CairoCall) :=
  let g := box_geometry synapoverlay frame item.bounding_box
  let x := g.1
  let y := g.2.1
  let width := g.2.2.1
  let height := g.2.2.2
  let box : List CairoCall :=
    [.rectangle x y width height, .set_source_rgb 1 0 0, .set_line_width (3 / 2),
     .stroke, .fill_preserve]
  if synapoverlay.label ≠ none then
    if synapoverlay.labelinfo = NULL then none
    else
      some (box ++
        [.move_to (x + 5) (y + 25), .text_path_label item.class_index,
         .set_source_rgb 1 0 0, .fill_preserve, .set_source_rgb 1 1 1,
         .set_line_width (3 / 10), .stroke, .fill_preserve])
  else some box

/-- One round of the item loop of `gst_synap_overlay_render_detection`. -/
def render_item (synapoverlay : GstSynapOverlay) (frame : GstVideoInfo)
    (item : DetectorItem) : Option (List CairoCall) :=
  if item.landmarks.length = GST_SYNAP_POSE_SIZE then
    render_pose synapoverlay frame item.landmarks
  else render_box synapoverlay frame item

/-- The item loop of `gst_synap_overlay_render_detection`. -/
def render_items (synapoverlay : GstSynapOverlay) (frame : GstVideoInfo) :
    List DetectorItem → Option (List CairoCall)
  | [] => some []
  | item :: rest =>
    match render_item synapoverlay frame item with
    | none => none
    | some a =>
      match render_items synapoverlay frame rest with
      | none => none
      | some b => some (a ++ b)

/-- `gst_synap_overlay_render_detection`. The mapped frame has the size of the overlay's
negotiated `videoinfo`. `none` is undefined behaviour. -/
def gst_synap_overlay_render_detection (synapoverlay : GstSynapOverlay)
    (env : RenderEnv) (format : cairo_format_t) : Option RenderStep :=
  let surface : CairoCall := .image_surface_create_for_data format
    synapoverlay.videoinfo.width synapoverlay.videoinfo.height
  if !env.frame_map_ok then
    some { synapoverlay := synapoverlay, calls := [], ret := false }
  else if !env.surface_ok then
    some { synapoverlay := synapoverlay, calls := [surface], ret := false }
  else if !env.cr_ok then
    some { synapoverlay := synapoverlay, calls := [surface, .create, .surface_destroy],
           ret := false }
  else
    let locked := { synapoverlay with data_lock := true }
    if locked.overlaydata = NULL then
      some { synapoverlay := locked, calls := [surface, .create], ret := false }
    else
      (render_items locked locked.videoinfo
          (env.detector_at locked.overlaydata).items).map fun t =>
        { synapoverlay := { locked with data_lock := false }
          calls := [surface, .create, .select_font_face_sans_bold, .set_font_size 20] ++
            t ++ [.destroy, .surface_destroy]
          ret := true }

/-- The format switch of `gst_synap_overlay_render`; `none` is the `default:` case. -/
def cairo_format_of : GstVideoFormat → Option cairo_format_t
  | .GST_VIDEO_FORMAT_ARGB => some .CAIRO_FORMAT_ARGB32
  | .GST_VIDEO_FORMAT_BGRA => some .CAIRO_FORMAT_ARGB32
  | .GST_VIDEO_FORMAT_xRGB => some .CAIRO_FORMAT_RGB24
  | .GST_VIDEO_FORMAT_BGRx => some .CAIRO_FORMAT_RGB24
  | .GST_VIDEO_FORMAT_RGB16 => some .CAIRO_FORMAT_RGB16_565
  | .OTHER _ => none

/-- `gst_synap_overlay_render`. -/
def gst_synap_overlay_render (synapoverlay : GstSynapOverlay) (env : RenderEnv) :
    Option RenderStep :=
  match cairo_format_of synapoverlay.videoinfo.format with
  | none => some { synapoverlay := synapoverlay, calls := [], ret := false }
  | some format =>
    if synapoverlay.mode = GST_SYNAP_POSTPROCESSING_MODE_CLASSIFIER then
      gst_synap_overlay_render_classification synapoverlay env format
    else if synapoverlay.mode = GST_SYNAP_POSTPROCESSING_MODE_DETECTOR then
      gst_synap_overlay_render_detection synapoverlay env format
    else some { synapoverlay := synapoverlay, calls := [], ret := true }

/-- Result of one call of `gst_synap_overlay_transform_ip`. -/
structure OverlayStep where
  synapoverlay : GstSynapOverlay
  calls : List CairoCall
  ret : GstFlowReturn
  deriving DecidableEq

/-- `gst_synap_overlay_transform_ip`: render when a payload is resident; the result of
the renderer is not looked at. -/
def gst_synap_overlay_transform_ip (synapoverlay : GstSynapOverlay) (env : RenderEnv) :
    Option OverlayStep :=
  if synapoverlay.overlaydata ≠ NULL then
    (gst_synap_overlay_render synapoverlay env).map fun r =>
      { synapoverlay := r.synapoverlay, calls := r.calls, ret := GST_FLOW_OK }
  else some { synapoverlay := synapoverlay, calls := [], ret := GST_FLOW_OK }

/-! ## The two elements in one pipeline -/

/-- One frame of the inference flow of the pipeline
`synapinfer ... ! overlay.inference_sink`: the base class pushes the buffer to the
overlay's inference pad when `gst_synap_infer_transform_ip` returned `GST_FLOW_OK`, and
pushes nothing otherwise. -/
def inference_flow_frame (synapinfer : GstSynapInfer) (synapoverlay : GstSynapOverlay)
    (env : InferEnv) (buf : GstBuffer) :
    InferStep × GstSynapOverlay × List OverlayCall :=
  let r := gst_synap_infer_transform_ip synapinfer env buf
  if r.ret = GST_FLOW_OK then
    let p := gst_synap_overlay_inference_sink_chain synapoverlay r.buf
    (r, p.1, p.2.1)
  else (r, synapoverlay, [])

/-- What one frame of the inference flow did: whether inference ran (`predict` was
called), whether a buffer carrying an Envelope was handed to the overlay stage, what
`gst_synap_infer_transform_ip` returned, and the payload resident in the mailbox once
the frame is done. -/
structure FrameReport where
  inference : Bool
  published : Bool
  ret : GstFlowReturn
  overlaydata : gpointer
  deriving DecidableEq, Repr

/-- Feed frames to the inference flow one after the other and report on each. -/
def inference_flow (synapinfer : GstSynapInfer) (synapoverlay : GstSynapOverlay) :
    List (InferEnv × GstBuffer) →
    GstSynapInfer × GstSynapOverlay × List FrameReport
  | [] => (synapinfer, synapoverlay, [])
  | (env, buf) :: rest =>
    let r := inference_flow_frame synapinfer synapoverlay env buf
    let t := inference_flow r.1.synapinfer r.2.1 rest
    (t.1, t.2.1,
      { inference := decide (InferCall.predict ∈ r.1.calls)
        published := decide (r.1.ret = GST_FLOW_OK) && carries_envelope r.1.buf
        ret := r.1.ret
        overlaydata := r.2.1.overlaydata } :: t.2.2)

/-! ## Start of the inference stage (`gstsynapinfer.cpp`) -/

/-- What the collaborators of `gst_synap_infer_start` answer: the addresses returned by
the four `new` expressions and the result of `network->load_model`. -/
structure StartEnv where
  /-- Address returned by `new Network ()`. -/
  network : gpointer
  /-- Address returned by `new Preprocessor ()`. -/
  preprocessor : gpointer
  /-- Result of `network->load_model (model, "")`. -/
  load_model_ok : Bool
  /-- Address returned by `new Classifier (numinference)`. -/
  classifier : gpointer
  /-- Address returned by `new Detector (...)`. -/
  detector : gpointer
  deriving DecidableEq

/-- The block "Validate parameters" of `gst_synap_infer_start` after the test of `model`:
the strings `mode` and `output` select `postproc_mode` and `outputmode`; a string that
is neither of the two known values leaves the field as it is. -/
def gst_synap_infer_start_parameters (synapinfer : GstSynapInfer) : GstSynapInfer :=
  let synapinfer :=
    match synapinfer.mode with
    | some m =>
      if m = "classifier" then
        { synapinfer with postproc_mode := GST_SYNAP_POSTPROCESSING_MODE_CLASSIFIER }
      else if m = "detector" then
        { synapinfer with postproc_mode := GST_SYNAP_POSTPROCESSING_MODE_DETECTOR }
      else synapinfer
    | none => synapinfer
  match synapinfer.output with
  | some o =>
    if o = "overlay" then
      { synapinfer with outputmode := GST_SYNAP_OUTPUT_MODE_OVERLAY }
    else if o = "json" then
      { synapinfer with outputmode := GST_SYNAP_OUTPUT_MODE_JSON }
    else synapinfer
  | none => synapinfer

/-- `gst_synap_infer_start`. -/
def gst_synap_infer_start (synapinfer : GstSynapInfer) (env : StartEnv) :
    GstSynapInfer × Bool :=
  match synapinfer.model with
  | none => (synapinfer, false)
  | some _ =>
    let synapinfer := gst_synap_infer_start_parameters synapinfer
    if env.network = NULL then (synapinfer, false)
    else if env.preprocessor = NULL then (synapinfer, false)
    else if !env.load_model_ok then (synapinfer, false)
    else if synapinfer.postproc_mode = GST_SYNAP_POSTPROCESSING_MODE_CLASSIFIER then
      let synapinfer :=
        { synapinfer with
          numinference :=
            if synapinfer.numinference = -1 then GST_SYNAP_DEFAULT_INFERENCE_CLASSIFIER
            else synapinfer.numinference }
      let synapinfer :=
        { synapinfer with
          confthreshold :=
            if synapinfer.confthreshold.ceq (.fin (-1)) then
              GST_SYNAP_DEFAULT_THRESHOLD_CLASSIFIER
            else synapinfer.confthreshold }
      if env.classifier = NULL then (synapinfer, false) else (synapinfer, true)
    else if synapinfer.postproc_mode = GST_SYNAP_POSTPROCESSING_MODE_DETECTOR then
      let synapinfer :=
        { synapinfer with
          numinference :=
            if synapinfer.numinference = -1 then GST_SYNAP_DEFAULT_INFERENCE_DETECTOR
            else synapinfer.numinference }
      let synapinfer :=
        { synapinfer with
          confthreshold :=
            if synapinfer.confthreshold.ceq (.fin (-1)) then
              GST_SYNAP_DEFAULT_THRESHOLD_DETECTOR
            else synapinfer.confthreshold }
      if env.detector = NULL then (synapinfer, false) else (synapinfer, true)
    else (synapinfer, true)

/-- A sequence of property writes on the inference stage, oldest first. -/
def set_properties (synapinfer : GstSynapInfer) (props : List InferProperty) :
    GstSynapInfer :=
  props.foldl gst_synap_infer_set_property synapinfer

/-- Publication path (a) of a post-processing call that took the buffer `before` to
`after` and made `calls`: the Envelope `m` was attached as typed side metadata, nothing
else was attached, and the payload of `m` was not deleted. -/
def typed_path (before after : GstBuffer) (calls : List InferCall) (m : GstSynapMeta) :
    Bool :=
  decide (after.synap_metas = before.synap_metas ++ [m]) &&
  decide (after.str_metas = before.str_metas) &&
  !calls.contains (.delete_classifier_result m.data) &&
  !calls.contains (.delete_detector_result m.data)

/-- Publication path (b) of a post-processing call that took the buffer `before` to
`after` and made `calls`: the serialisation of the result `r` was attached as textual
metadata, nothing else was attached, and the payload at `p` was deleted. -/
def textual_path (before after : GstBuffer) (calls : List InferCall) (p : gpointer)
    (r : SynapResult) : Bool :=
  decide (after.synap_metas = before.synap_metas) &&
  decide (after.str_metas = before.str_metas ++ [{ result := some r }]) &&
  (calls.contains (.delete_classifier_result p) ||
   calls.contains (.delete_detector_result p))

/-! ## The display flow with a publish in between -/

/-- What `gst_synap_overlay_render` decides before it calls a drawing routine. -/
inductive RenderDispatch where
  /-- The `default:` case of the format switch: `return FALSE`. -/
  | no_cairo_format
  /-- Call `gst_synap_overlay_render_classification` with the format. -/
  | classification (format : cairo_format_t)
  /-- Call `gst_synap_overlay_render_detection` with the format. -/
  | detection (format : cairo_format_t)
  /-- Neither test of `mode` holds: `return ret` with `ret` still `TRUE`. -/
  | no_routine
  deriving DecidableEq

/-- The first part of `gst_synap_overlay_render`: the format switch and the two tests of
`synapoverlay->mode`. No `g_mutex_lock` precedes them. -/
def gst_synap_overlay_render_dispatch (synapoverlay : GstSynapOverlay) : RenderDispatch :=
  match cairo_format_of synapoverlay.videoinfo.format with
  | none => .no_cairo_format
  | some format =>
    if synapoverlay.mode = GST_SYNAP_POSTPROCESSING_MODE_CLASSIFIER then
      .classification format
    else if synapoverlay.mode = GST_SYNAP_POSTPROCESSING_MODE_DETECTOR then
      .detection format
    else .no_routine

/-- The second part of `gst_synap_overlay_render`: the call that was decided, on the
instance as it is when the call is made. -/
def gst_synap_overlay_render_call (synapoverlay : GstSynapOverlay) (env : RenderEnv) :
    RenderDispatch → Option RenderStep
  | .no_cairo_format => some { synapoverlay := synapoverlay, calls := [], ret := false }
  | .classification format => gst_synap_overlay_render_classification synapoverlay env format
  | .detection format => gst_synap_overlay_render_detection synapoverlay env format
  | .no_routine => some { synapoverlay := synapoverlay, calls := [], ret := true }

/-- One frame of the display flow (`gst_synap_overlay_transform_ip`) while the inference
flow, on its own streaming thread, runs `gst_synap_overlay_inference_sink_chain` on the
buffers `published` after the display thread has tested `overlaydata` and `mode` and
before the drawing routine reaches its `g_mutex_lock`: the mutex is free at that point,
so the publishes go through. The result is the step of the display flow together with
the calls of the publishes. -/
def overlay_flow_interleaved (synapoverlay : GstSynapOverlay) (env : RenderEnv)
    (published : List GstBuffer) : Option OverlayStep × List OverlayCall :=
  if synapoverlay.overlaydata ≠ NULL then
    let dispatch := gst_synap_overlay_render_dispatch synapoverlay
    let p := publish_all synapoverlay published
    ((gst_synap_overlay_render_call p.1 env dispatch).map fun r =>
        { synapoverlay := r.synapoverlay, calls := r.calls, ret := GST_FLOW_OK },
      p.2)
  else
    let p := publish_all synapoverlay published
    (some { synapoverlay := p.1, calls := [], ret := GST_FLOW_OK }, p.2)

/-! ## The operations of the overlay stage in sequence -/

/-- One operation on the overlay stage, with what its collaborators answer: a write of
the `label` property, a caps negotiation, `start`, `stop`, a buffer arriving on the
inference pad, a display frame. -/
inductive OverlayOp where
  | set_property (value : Option String)
  | set_caps (info : Option GstVideoInfo)
  | start (labelinfo : gpointer) (init_ok : Bool)
  | stop
  | publish (buffer : GstBuffer)
  | transform (env : RenderEnv)

/-- The instance after one operation, run to its return on one thread; `none` when the
operation has undefined behaviour. -/
def overlay_step (synapoverlay : GstSynapOverlay) : OverlayOp → Option GstSynapOverlay
  | .set_property value => some (gst_synap_overlay_set_property synapoverlay value)
  | .set_caps info => some (gst_synap_overlay_set_caps synapoverlay info).1
  | .start labelinfo init_ok =>
    some (gst_synap_overlay_start synapoverlay labelinfo init_ok).1
  | .stop => some (gst_synap_overlay_stop synapoverlay).1
  | .publish buffer => some (gst_synap_overlay_inference_sink_chain synapoverlay buffer).1
  | .transform env =>
    (gst_synap_overlay_transform_ip synapoverlay env).map fun r => r.synapoverlay

/-- The instance after a sequence of operations, each run to its return before the next
begins. -/
def overlay_run (synapoverlay : GstSynapOverlay) : List OverlayOp → Option GstSynapOverlay
  | [] => some synapoverlay
  | op :: rest =>
    match overlay_step synapoverlay op with
    | none => none
    | some next => overlay_run next rest

/-! ## Sample inputs -/

/-- A frame on which every collaborator of the inference stage succeeds; the payload is
allocated at address `result`. -/
def InferEnv.sample (result : gpointer) : InferEnv :=
  { raw_ok := true, image_empty := false, assign_ok := true, predict_ok := true,
    result := result,
    classifier_out := { success := true, items := [{ class_index := 7, confidence := .fin 12 }] },
    detector_out := { success := true, items := [] },
    custom_meta_ok := true, structure_ok := true }

/-- A start on which every allocation and the model load succeed. -/
def StartEnv.sample : StartEnv :=
  { network := 1, preprocessor := 2, load_model_ok := true, classifier := 3, detector := 4 }

/-- A classifier stage as `gst_synap_infer_start` leaves it after the properties `model`,
`mode` = `"classifier"` and `frameinterval` = 3 were written on a new instance. -/
def GstSynapInfer.sample_classifier : GstSynapInfer :=
  (gst_synap_infer_start
    (set_properties gst_synap_infer_init
      [.PROP_MODEL (some "model.synap"), .PROP_MODE (some "classifier"),
       .PROP_FRAME_INTERVAL 3]) StartEnv.sample).1

/-- A display frame on which mapping and cairo succeed; every payload address reads as a
one-entry classification, respectively as an empty detection. -/
def RenderEnv.sample : RenderEnv :=
  { frame_map_ok := true, surface_ok := true, cr_ok := true,
    classifier_at := fun _ =>
      { success := true, items := [{ class_index := 7, confidence := .fin 12 }] },
    detector_at := fun _ => { success := true, items := [] } }

/-- The payloads a list of calls disposes, in order. -/
def disposed_payloads (calls : List OverlayCall) : List gpointer :=
  calls.filterMap OverlayCall.disposed

/-- A pose of 17 landmarks: visibility 0.4 at landmark 0, 0.2 at landmark 1 and 0.9 at
the other fifteen. -/
def Landmark.sample_pose : List Landmark :=
  { x := 10, y := 20, z := 0, visibility := .fin (2 / 5) } ::
  { x := 30, y := 40, z := 0, visibility := .fin (1 / 5) } ::
  List.replicate 15 { x := 50, y := 60, z := 0, visibility := .fin (9 / 10) }

/-- The call is a `cairo_arc`: a dot of the pose. -/
def CairoCall.is_arc : CairoCall → Bool
  | .arc _ _ _ => true
  | _ => false

/-- The call is a `cairo_text_path`: it draws a class label. -/
def CairoCall.is_text : CairoCall → Bool
  | .text_path_label _ => true
  | _ => false

/-- The landmark passes the visibility test of the pose renderer. -/
def Landmark.visible (l : Landmark) : Bool :=
  l.visibility.gt GST_SYNAP_POSE_VISIBILITY_THRESHOLD

/-- An overlay stage with a label file loaded, a 1920 x 1080 BGRA stream negotiated and
an Envelope of the given kind and threshold resident at address 1, from a 224 x 224
model. -/
def GstSynapOverlay.sample (mode : GstSynapPostProcessingMode) (confthreshold : gfloat) :
    GstSynapOverlay :=
  { data_lock := false
    label := some "labels.json"
    videoinfo := { format := .GST_VIDEO_FORMAT_BGRA, width := 1920, height := 1080 }
    mode := mode
    overlaydata := 1
    width := 224
    height := 224
    confthreshold := confthreshold
    labelinfo := 5 }

/-- A display frame on which mapping and cairo succeed and every payload address reads as
a classification whose top entry has class 7 and the given confidence, followed by an
entry of class 8. -/
def RenderEnv.sample_classification (confidence : gfloat) : RenderEnv :=
  { frame_map_ok := true, surface_ok := true, cr_ok := true,
    classifier_at := fun _ =>
      { success := true,
        items := [{ class_index := 7, confidence := confidence },
                  { class_index := 8, confidence := .fin 1 }] },
    detector_at := fun _ => { success := true, items := [] } }

/-- The call is a `cairo_rectangle`: the box of a detection. -/
def CairoCall.is_rectangle : CairoCall → Bool
  | .rectangle _ _ _ _ => true
  | _ => false

/-- The call is a `cairo_line_to`: a line of the pose. -/
def CairoCall.is_line_to : CairoCall → Bool
  | .line_to _ _ => true
  | _ => false

/-- A pose of 17 landmarks, all with visibility 0.9. -/
def Landmark.sample_visible_pose : List Landmark :=
  List.replicate 17 { x := 50, y := 60, z := 0, visibility := .fin (9 / 10) }

/-- A box-shaped detection: class 3, box at `(56, 28)` of size `112 x 84`, no landmark. -/
def DetectorItem.sample_box : DetectorItem :=
  { class_index := 3, confidence := .fin (9 / 10),
    bounding_box := { origin := { x := 56, y := 28 }, size := { x := 112, y := 84 } },
    landmarks := [] }

/-- A pose-shaped detection: the 17 landmarks of `Landmark.sample_pose`. -/
def DetectorItem.sample_pose : DetectorItem :=
  { class_index := 0, confidence := .fin (9 / 10),
    bounding_box := { origin := { x := 0, y := 0 }, size := { x := 0, y := 0 } },
    landmarks := Landmark.sample_pose }

/-- The condition under which a frame that passes the decimation step is answered with
`GST_FLOW_OK` by `gst_synap_infer_transform_ip`: the buffer maps, the image is not empty,
`assign` and `predict` succeed, the payload is allocated and the post-processing of the
active mode reports success. -/
def frame_succeeds (synapinfer : GstSynapInfer) (env : InferEnv) : Bool :=
  env.raw_ok && !env.image_empty && env.assign_ok && env.predict_ok &&
  decide (env.result ≠ NULL) &&
  (if synapinfer.postproc_mode = GST_SYNAP_POSTPROCESSING_MODE_CLASSIFIER then
     env.classifier_out.success
   else if synapinfer.postproc_mode = GST_SYNAP_POSTPROCESSING_MODE_DETECTOR then
     env.detector_out.success
   else false)

/-! ## Frame decimator -/

/-- One decimation step, frame skipped: with a positive counter the frame is answered
with `GST_BASE_TRANSFORM_FLOW_DROPPED`, the counter goes down by one and the interval
stays. -/
theorem transform_ip_skip (s : GstSynapInfer) (env : InferEnv) (buf : GstBuffer)
    (h : 0 < s.frame_counter) :
    proceeds (gst_synap_infer_transform_ip s env buf) = false ∧
    (gst_synap_infer_transform_ip s env buf).synapinfer.frame_counter
      = s.frame_counter - 1 ∧
    (gst_synap_infer_transform_ip s env buf).synapinfer.frame_interval
      = s.frame_interval := by
  simp [gst_synap_infer_transform_ip, proceeds, h]

/-- One decimation step, frame taken: with counter zero the frame is not dropped, the
counter is reloaded from the interval and the interval stays. -/
theorem transform_ip_take (s : GstSynapInfer) (env : InferEnv) (buf : GstBuffer)
    (h : s.frame_counter = 0) :
    proceeds (gst_synap_infer_transform_ip s env buf) = true ∧
    (gst_synap_infer_transform_ip s env buf).synapinfer.frame_counter
      = s.frame_interval ∧
    (gst_synap_infer_transform_ip s env buf).synapinfer.frame_interval
      = s.frame_interval := by
  simp only [gst_synap_infer_transform_ip, proceeds, h]
  simp only [lt_self_iff_false, if_false, if_true]
  split_ifs <;> simp

/-- Counting law of the decimator from any counter value `c ≤ k`. -/
theorem count_proceeding_from (k : ℕ) (frames : List (InferEnv × GstBuffer)) :
    ∀ (c : ℕ) (s : GstSynapInfer), c ≤ k → s.frame_counter = (c : Int) →
      s.frame_interval = (k : Int) →
      count_proceeding (run_frames s frames).2 = (frames.length + (k - c)) / (k + 1) := by
  induction frames with
  | nil =>
    intro c s hc _ _
    have h : (k - c) / (k + 1) = 0 := Nat.div_eq_of_lt (by omega)
    simp [run_frames, count_proceeding, h]
  | cons f rest ih =>
    intro c s hc hcnt hint
    obtain ⟨env, buf⟩ := f
    rcases Nat.eq_zero_or_pos c with h0 | hpos
    · subst h0
      have ht := transform_ip_take s env buf (by simpa using hcnt)
      have hrec := ih k (gst_synap_infer_transform_ip s env buf).synapinfer le_rfl
        (by rw [ht.2.1, hint]) (by rw [ht.2.2, hint])
      simp only [count_proceeding] at hrec ⊢
      simp only [run_frames, List.filter_cons, ht.1, if_true, List.length_cons, hrec]
      simp only [Nat.sub_self, Nat.add_zero, Nat.sub_zero]
      rw [show rest.length + 1 + k = rest.length + (k + 1) by omega,
        Nat.add_div_right _ (Nat.succ_pos k)]
    · have hs := transform_ip_skip s env buf (by rw [hcnt]; exact_mod_cast hpos)
      have hrec := ih (c - 1) (gst_synap_infer_transform_ip s env buf).synapinfer
        (by omega) (by rw [hs.2.1, hcnt]; omega) (by rw [hs.2.2, hint])
      simp only [count_proceeding] at hrec ⊢
      simp only [run_frames, List.filter_cons, hs.1, List.length_cons]
      simp only [Bool.false_eq_true, if_false]
      rw [hrec, show rest.length + (k - (c - 1)) = rest.length + 1 + (k - c) by omega]

/-- Position law of the decimator from any counter value `c ≤ k`: frame `i` (counted
from 0) proceeds exactly when `i + (k + 1 - c)` is a multiple of `k + 1`. -/
theorem proceeds_at_from (k : ℕ) (frames : List (InferEnv × GstBuffer)) :
    ∀ (c : ℕ) (s : GstSynapInfer) (i : ℕ) (r : InferStep), c ≤ k →
      s.frame_counter = (c : Int) → s.frame_interval = (k : Int) →
      (run_frames s frames).2[i]? = some r →
      (proceeds r = true ↔ (i + (k + 1 - c)) % (k + 1) = 0) := by
  induction frames with
  | nil =>
    intro c s i r _ _ _ hr
    simp [run_frames] at hr
  | cons f rest ih =>
    intro c s i r hc hcnt hint hr
    obtain ⟨env, buf⟩ := f
    rcases Nat.eq_zero_or_pos c with h0 | hpos
    · subst h0
      have ht := transform_ip_take s env buf (by simpa using hcnt)
      cases i with
      | zero =>
        simp only [run_frames, List.getElem?_cons_zero, Option.some.injEq] at hr
        subst hr
        simp [ht.1]
      | succ j =>
        simp only [run_frames, List.getElem?_cons_succ] at hr
        have hrec := ih k (gst_synap_infer_transform_ip s env buf).synapinfer j r le_rfl
          (by rw [ht.2.1, hint]) (by rw [ht.2.2, hint]) hr
        rw [hrec]
        have e1 : j + (k + 1 - k) = j + 1 := by omega
        have e2 : j + 1 + (k + 1 - 0) = (j + 1) + (k + 1) := by omega
        rw [e1, e2, Nat.add_mod_right]
    · have hs := transform_ip_skip s env buf (by rw [hcnt]; exact_mod_cast hpos)
      cases i with
      | zero =>
        simp only [run_frames, List.getElem?_cons_zero, Option.some.injEq] at hr
        subst hr
        simp only [hs.1, Bool.false_eq_true, false_iff, Nat.zero_add]
        rw [Nat.mod_eq_of_lt (by omega)]
        omega
      | succ j =>
        simp only [run_frames, List.getElem?_cons_succ] at hr
        have hrec := ih (c - 1) (gst_synap_infer_transform_ip s env buf).synapinfer j r
          (by omega) (by rw [hs.2.1, hcnt]; omega) (by rw [hs.2.2, hint]) hr
        rw [hrec]
        have e1 : j + (k + 1 - (c - 1)) = j + 1 + (k + 1 - c) := by omega
        rw [e1]

/-- A run over `n` frames reports on `n` frames. -/
theorem run_frames_length (frames : List (InferEnv × GstBuffer)) :
    ∀ s : GstSynapInfer, (run_frames s frames).2.length = frames.length := by
  induction frames with
  | nil => intro s; simp [run_frames]
  | cons f rest ih =>
    intro s
    obtain ⟨env, buf⟩ := f
    simp [run_frames, ih]

/-- With interval and counter both zero every frame proceeds and leaves the counter at
zero. -/
theorem run_frames_interval_zero (frames : List (InferEnv × GstBuffer)) :
    ∀ s : GstSynapInfer, s.frame_counter = 0 → s.frame_interval = 0 →
      (run_frames s frames).2.all
        (fun r => proceeds r && decide (r.synapinfer.frame_counter = 0)) = true := by
  induction frames with
  | nil => intro s _ _; simp [run_frames]
  | cons f rest ih =>
    intro s hc hi
    obtain ⟨env, buf⟩ := f
    have ht := transform_ip_take s env buf hc
    have hrec := ih (gst_synap_infer_transform_ip s env buf).synapinfer
      (by rw [ht.2.1, hi]) (by rw [ht.2.2, hi])
    simp only [run_frames, List.all_cons, hrec, ht.1, ht.2.1, hi]
    simp

/-! ## Claims on the frame decimator -/

/-- C1, counterexample to the count `ceil (N / (k + 1))`: with `frameinterval` 1 and one
frame, no frame proceeds to inference, while `ceil (1 / 2)` is 1. -/
theorem decimator_count_ceil_counterexample :
    count_proceeding
      (run_frames
        (gst_synap_infer_set_property gst_synap_infer_init (.PROP_FRAME_INTERVAL 1))
        [(InferEnv.sample 1, GstBuffer.plain)]).2 = 0 ∧
    Nat.ceil (((1 : ℕ) : ℚ) / ((1 : ℕ) + 1)) = 1 := by
  refine ⟨by decide, ?_⟩
  rw [Nat.ceil_eq_iff (by norm_num)]
  norm_num

/-- C1, amended: for every `frameinterval` `k ≥ 0` written through the property (on any
instance state) and every run of `N` consecutive frames, exactly `floor (N / (k + 1))`
frames proceed to inference; the others are answered with
`GST_BASE_TRANSFORM_FLOW_DROPPED`. -/
theorem decimator_count_floor (s : GstSynapInfer) (k : ℕ)
    (frames : List (InferEnv × GstBuffer)) :
    count_proceeding
      (run_frames (gst_synap_infer_set_property s (.PROP_FRAME_INTERVAL k)) frames).2
      = frames.length / (k + 1) := by
  have h := count_proceeding_from k frames k
    (gst_synap_infer_set_property s (.PROP_FRAME_INTERVAL k)) le_rfl rfl rfl
  simpa using h

/-- C2, counterexample to "the first frame is not skipped": with `frameinterval` 1 the
first frame delivered after the property write is answered with
`GST_BASE_TRANSFORM_FLOW_DROPPED`. -/
theorem decimator_first_frame_counterexample :
    (gst_synap_infer_transform_ip
      (gst_synap_infer_set_property gst_synap_infer_init (.PROP_FRAME_INTERVAL 1))
      (InferEnv.sample 1) GstBuffer.plain).ret = GST_BASE_TRANSFORM_FLOW_DROPPED ∧
    proceeds (gst_synap_infer_transform_ip
      (gst_synap_infer_set_property gst_synap_infer_init (.PROP_FRAME_INTERVAL 1))
      (InferEnv.sample 1) GstBuffer.plain) = false := by
  decide

/-- C2, amended: after `frameinterval` `k ≥ 0` is written, the first frame proceeds
exactly when `k = 0`; in general frame number `i + 1` of the run proceeds exactly when
`i + 1` is a multiple of `k + 1`, so the first `k` frames are skipped and frame `k + 1`
is the first to proceed. -/
theorem decimator_first_frame (s : GstSynapInfer) (k : ℕ) (env : InferEnv)
    (buf : GstBuffer) (frames : List (InferEnv × GstBuffer)) :
    (proceeds (gst_synap_infer_transform_ip
        (gst_synap_infer_set_property s (.PROP_FRAME_INTERVAL k)) env buf) = true
      ↔ k = 0) ∧
    ∀ i : ℕ,
      ((run_frames (gst_synap_infer_set_property s (.PROP_FRAME_INTERVAL k))
          frames).2[i]?).map proceeds
        = if i < frames.length then some (decide ((i + 1) % (k + 1) = 0)) else none := by
  constructor
  · have h := proceeds_at_from k [(env, buf)] k
      (gst_synap_infer_set_property s (.PROP_FRAME_INTERVAL k)) 0
      (gst_synap_infer_transform_ip
        (gst_synap_infer_set_property s (.PROP_FRAME_INTERVAL k)) env buf)
      le_rfl rfl rfl rfl
    rw [h]
    have e : 0 + (k + 1 - k) = 1 := by omega
    rw [e]
    rcases Nat.eq_zero_or_pos k with h0 | hpos
    · subst h0; simp
    · rw [Nat.mod_eq_of_lt (by omega)]; omega
  · intro i
    have hlen := run_frames_length frames
      (gst_synap_infer_set_property s (.PROP_FRAME_INTERVAL k))
    by_cases hi : i < frames.length
    · have hi2 : i < (run_frames
          (gst_synap_infer_set_property s (.PROP_FRAME_INTERVAL k)) frames).2.length := by
        rw [hlen]; exact hi
      rw [List.getElem?_eq_getElem hi2, if_pos hi]
      have h := proceeds_at_from k frames k
        (gst_synap_infer_set_property s (.PROP_FRAME_INTERVAL k)) i _ le_rfl rfl rfl
        (List.getElem?_eq_getElem hi2)
      have e : i + (k + 1 - k) = i + 1 := by omega
      rw [e] at h
      simp only [Option.map_some', Option.some.injEq]
      by_cases hm : (i + 1) % (k + 1) = 0
      · simp [hm, h.2 hm]
      · have : proceeds ((run_frames
            (gst_synap_infer_set_property s (.PROP_FRAME_INTERVAL k)) frames).2[i]) = false := by
          cases hp : proceeds ((run_frames
            (gst_synap_infer_set_property s (.PROP_FRAME_INTERVAL k)) frames).2[i])
          · rfl
          · exact absurd (h.1 hp) hm
        simp [hm, this]
    · rw [if_neg hi, List.getElem?_eq_none (by rw [hlen]; omega)]
      rfl

/-- C4: with `frameinterval` 0, whether left at the value `gst_synap_infer_init` gives it
or written through the property, every frame of every run proceeds to inference and the
counter is 0 after each frame; so all `N` frames of a run of `N` proceed. -/
theorem decimator_interval_zero (s : GstSynapInfer)
    (frames : List (InferEnv × GstBuffer)) :
    (run_frames gst_synap_infer_init frames).2.all
      (fun r => proceeds r && decide (r.synapinfer.frame_counter = 0)) = true ∧
    (run_frames (gst_synap_infer_set_property s (.PROP_FRAME_INTERVAL 0)) frames).2.all
      (fun r => proceeds r && decide (r.synapinfer.frame_counter = 0)) = true ∧
    count_proceeding (run_frames gst_synap_infer_init frames).2 = frames.length ∧
    count_proceeding
      (run_frames (gst_synap_infer_set_property s (.PROP_FRAME_INTERVAL 0)) frames).2
      = frames.length := by
  refine ⟨run_frames_interval_zero frames _ rfl rfl,
    run_frames_interval_zero frames _ rfl rfl, ?_, ?_⟩
  · have h := count_proceeding_from 0 frames 0 gst_synap_infer_init le_rfl rfl rfl
    simpa using h
  · have h := count_proceeding_from 0 frames 0
      (gst_synap_infer_set_property s (.PROP_FRAME_INTERVAL 0)) le_rfl rfl rfl
    simpa using h

/-! ## Claims on the inference flow from end to end -/

/-- One frame of the inference flow, frame skipped: nothing is inferred and nothing
reaches the overlay stage. -/
theorem inference_flow_frame_skip (s : GstSynapInfer) (ov : GstSynapOverlay)
    (env : InferEnv) (buf : GstBuffer) (h : 0 < s.frame_counter) :
    inference_flow_frame s ov env buf =
      ({ synapinfer := { s with frame_counter := s.frame_counter - 1 }, buf := buf,
         calls := [], ret := GST_BASE_TRANSFORM_FLOW_DROPPED }, ov, []) := by
  simp [inference_flow_frame, gst_synap_infer_transform_ip, h]

/-- One frame of the inference flow, frame taken and every step succeeding in overlay
output mode: inference runs, the Envelope is attached and the mailbox takes its five
values. -/
theorem inference_flow_frame_take (s : GstSynapInfer) (ov : GstSynapOverlay)
    (env : InferEnv) (h : s.frame_counter = 0)
    (hout : s.outputmode = GST_SYNAP_OUTPUT_MODE_OVERLAY)
    (hok : frame_succeeds s env = true) :
    (inference_flow_frame s ov env GstBuffer.plain).1.synapinfer
      = { s with frame_counter := s.frame_interval } ∧
    (inference_flow_frame s ov env GstBuffer.plain).1.ret = GST_FLOW_OK ∧
    InferCall.predict ∈ (inference_flow_frame s ov env GstBuffer.plain).1.calls ∧
    carries_envelope (inference_flow_frame s ov env GstBuffer.plain).1.buf = true ∧
    (inference_flow_frame s ov env GstBuffer.plain).2.1
      = { ov with overlaydata := env.result, mode := s.postproc_mode,
                  width := s.videoinfo.width, height := s.videoinfo.height,
                  confthreshold := s.confthreshold, data_lock := false } := by
  simp only [frame_succeeds, Bool.and_eq_true, Bool.not_eq_true', decide_eq_true_eq]
    at hok
  obtain ⟨⟨⟨⟨⟨h1, h2⟩, h3⟩, h4⟩, h5⟩, h6⟩ := hok
  by_cases hc : s.postproc_mode = GST_SYNAP_POSTPROCESSING_MODE_CLASSIFIER
  · simp only [hc, if_true] at h6
    simp [inference_flow_frame, gst_synap_infer_transform_ip, h, h1, h2, h3, h4, h5, h6,
      hc, hout, gst_synap_infer_postproc_classifier, gst_buffer_add_synap_meta,
      carries_envelope, gst_buffer_get_synap_meta, GstBuffer.plain,
      gst_synap_overlay_inference_sink_chain]
  · by_cases hd : s.postproc_mode = GST_SYNAP_POSTPROCESSING_MODE_DETECTOR
    · simp [hd] at h6
      simp [inference_flow_frame, gst_synap_infer_transform_ip, h, h1, h2, h3, h4, h5,
        h6, hd, hout, gst_synap_infer_postproc_detector, gst_buffer_add_synap_meta,
        carries_envelope, gst_buffer_get_synap_meta, GstBuffer.plain,
        gst_synap_overlay_inference_sink_chain]
    · simp [hc, hd] at h6

/-- The inference flow on a skipped frame: the counter goes down by one, the frame is
answered with `GST_BASE_TRANSFORM_FLOW_DROPPED`, no inference runs, nothing is handed to
the overlay stage and the mailbox stays as it is. -/
theorem inference_flow_cons_skip (s : GstSynapInfer) (ov : GstSynapOverlay)
    (env : InferEnv) (buf : GstBuffer) (rest : List (InferEnv × GstBuffer))
    (h : 0 < s.frame_counter) :
    inference_flow s ov ((env, buf) :: rest) =
      ((inference_flow { s with frame_counter := s.frame_counter - 1 } ov rest).1,
       (inference_flow { s with frame_counter := s.frame_counter - 1 } ov rest).2.1,
       { inference := false, published := false, ret := GST_BASE_TRANSFORM_FLOW_DROPPED,
         overlaydata := ov.overlaydata } ::
         (inference_flow { s with frame_counter := s.frame_counter - 1 } ov rest).2.2) := by
  simp only [inference_flow, inference_flow_frame_skip s ov env buf h]
  simp

/-- The inference flow on a frame that is taken and on which every step succeeds, in
overlay output mode: the counter is reloaded, inference runs, the frame is answered with
`GST_FLOW_OK` and the mailbox holds the five values of its Envelope. -/
theorem inference_flow_cons_take (s : GstSynapInfer) (ov : GstSynapOverlay)
    (env : InferEnv) (rest : List (InferEnv × GstBuffer)) (h : s.frame_counter = 0)
    (hout : s.outputmode = GST_SYNAP_OUTPUT_MODE_OVERLAY)
    (hok : frame_succeeds s env = true) :
    inference_flow s ov ((env, GstBuffer.plain) :: rest) =
      ((inference_flow { s with frame_counter := s.frame_interval }
          { ov with overlaydata := env.result, mode := s.postproc_mode,
                    width := s.videoinfo.width, height := s.videoinfo.height,
                    confthreshold := s.confthreshold, data_lock := false } rest).1,
       (inference_flow { s with frame_counter := s.frame_interval }
          { ov with overlaydata := env.result, mode := s.postproc_mode,
                    width := s.videoinfo.width, height := s.videoinfo.height,
                    confthreshold := s.confthreshold, data_lock := false } rest).2.1,
       { inference := true, published := true, ret := GST_FLOW_OK,
         overlaydata := env.result } ::
         (inference_flow { s with frame_counter := s.frame_interval }
            { ov with overlaydata := env.result, mode := s.postproc_mode,
                      width := s.videoinfo.width, height := s.videoinfo.height,
                      confthreshold := s.confthreshold, data_lock := false } rest).2.2) := by
  have ht := inference_flow_frame_take s ov env h hout hok
  simp only [inference_flow, ht.1, ht.2.1, ht.2.2.1, ht.2.2.2.1, ht.2.2.2.2]
  simp

/-- C3, counterexample to "inference on frames 1, 4, 7 and 10": a classifier stage
started with `frameinterval` 3 and fed 10 frames on which every step succeeds (payloads
at addresses 1 to 10), publishing into the empty mailbox, runs inference on frames 4 and
8 only; frames 1, 7 and 10 are answered with `GST_BASE_TRANSFORM_FLOW_DROPPED`, and the
mailbox takes 2 Envelopes, not 4: it is empty after frames 1 to 3, holds payload 4
after frames 4 to 7 and payload 8 after frames 8 to 10. -/
theorem decimation_end_to_end_counterexample :
    ((inference_flow
        (gst_synap_infer_start
          (set_properties gst_synap_infer_init
            [.PROP_MODEL (some "model.synap"), .PROP_MODE (some "classifier"),
             .PROP_FRAME_INTERVAL 3]) StartEnv.sample).1
        gst_synap_overlay_init
        ((List.range 10).map fun i => (InferEnv.sample (i + 1), GstBuffer.plain))).2.2.map
      fun r => (r.inference, r.published, r.ret, r.overlaydata))
      = [(false, false, GST_BASE_TRANSFORM_FLOW_DROPPED, 0),
         (false, false, GST_BASE_TRANSFORM_FLOW_DROPPED, 0),
         (false, false, GST_BASE_TRANSFORM_FLOW_DROPPED, 0),
         (true, true, GST_FLOW_OK, 4),
         (false, false, GST_BASE_TRANSFORM_FLOW_DROPPED, 4),
         (false, false, GST_BASE_TRANSFORM_FLOW_DROPPED, 4),
         (false, false, GST_BASE_TRANSFORM_FLOW_DROPPED, 4),
         (true, true, GST_FLOW_OK, 8),
         (false, false, GST_BASE_TRANSFORM_FLOW_DROPPED, 8),
         (false, false, GST_BASE_TRANSFORM_FLOW_DROPPED, 8)] := by
  decide

/-- C3, amended: with `frameinterval` 3 written through the property, overlay output mode
and 10 frames on which mapping, assignment, inference and post-processing all succeed,
inference is invoked on exactly frames 4 and 8 (2 invocations), these two frames are
answered with `GST_FLOW_OK` and the other 8 with `GST_BASE_TRANSFORM_FLOW_DROPPED`; the
mailbox is updated exactly twice: it keeps its former payload through frames 1 to 3,
holds the payload of frame 4 after frames 4 to 7 and the payload of frame 8 after frames
8 to 10, and at the end its five fields are those of the Envelope of frame 8, with the
lock free; the counter of the inference stage ends at 1. -/
theorem decimation_end_to_end (s : GstSynapInfer) (ov : GstSynapOverlay)
    (e1 e2 e3 e4 e5 e6 e7 e8 e9 e10 : InferEnv)
    (hout : s.outputmode = GST_SYNAP_OUTPUT_MODE_OVERLAY)
    (hok : ∀ e ∈ [e1, e2, e3, e4, e5, e6, e7, e8, e9, e10], frame_succeeds s e = true) :
    inference_flow (gst_synap_infer_set_property s (.PROP_FRAME_INTERVAL 3)) ov
        [(e1, GstBuffer.plain), (e2, GstBuffer.plain), (e3, GstBuffer.plain),
         (e4, GstBuffer.plain), (e5, GstBuffer.plain), (e6, GstBuffer.plain),
         (e7, GstBuffer.plain), (e8, GstBuffer.plain), (e9, GstBuffer.plain),
         (e10, GstBuffer.plain)]
      = ({ s with frame_interval := 3, frame_counter := 1 },
         { ov with overlaydata := e8.result, mode := s.postproc_mode,
                   width := s.videoinfo.width, height := s.videoinfo.height,
                   confthreshold := s.confthreshold, data_lock := false },
         [{ inference := false, published := false,
            ret := GST_BASE_TRANSFORM_FLOW_DROPPED, overlaydata := ov.overlaydata },
          { inference := false, published := false,
            ret := GST_BASE_TRANSFORM_FLOW_DROPPED, overlaydata := ov.overlaydata },
          { inference := false, published := false,
            ret := GST_BASE_TRANSFORM_FLOW_DROPPED, overlaydata := ov.overlaydata },
          { inference := true, published := true,
            ret := GST_FLOW_OK, overlaydata := e4.result },
          { inference := false, published := false,
            ret := GST_BASE_TRANSFORM_FLOW_DROPPED, overlaydata := e4.result },
          { inference := false, published := false,
            ret := GST_BASE_TRANSFORM_FLOW_DROPPED, overlaydata := e4.result },
          { inference := false, published := false,
            ret := GST_BASE_TRANSFORM_FLOW_DROPPED, overlaydata := e4.result },
          { inference := true, published := true,
            ret := GST_FLOW_OK, overlaydata := e8.result },
          { inference := false, published := false,
            ret := GST_BASE_TRANSFORM_FLOW_DROPPED, overlaydata := e8.result },
          { inference := false, published := false,
            ret := GST_BASE_TRANSFORM_FLOW_DROPPED, overlaydata := e8.result }]) := by
  have h4 : frame_succeeds s e4 = true := hok e4 (by simp)
  have h8 : frame_succeeds s e8 = true := hok e8 (by simp)
  have hs : ∀ (c c2 : Int) (o : GstSynapOverlay) (e : InferEnv)
      (rest : List (InferEnv × GstBuffer)), c2 = c - 1 → 0 < c →
      inference_flow { s with frame_interval := 3, frame_counter := c } o
          ((e, GstBuffer.plain) :: rest) =
        ((inference_flow { s with frame_interval := 3, frame_counter := c2 } o rest).1,
         (inference_flow { s with frame_interval := 3, frame_counter := c2 } o rest).2.1,
         { inference := false, published := false,
           ret := GST_BASE_TRANSFORM_FLOW_DROPPED, overlaydata := o.overlaydata } ::
           (inference_flow { s with frame_interval := 3, frame_counter := c2 } o rest).2.2) := by
    intro c c2 o e rest hc2 hc
    rw [hc2]
    exact inference_flow_cons_skip _ o e GstBuffer.plain rest hc
  have ht : ∀ (o : GstSynapOverlay) (e : InferEnv) (rest : List (InferEnv × GstBuffer)),
      frame_succeeds s e = true →
      inference_flow { s with frame_interval := 3, frame_counter := 0 } o
          ((e, GstBuffer.plain) :: rest) =
        ((inference_flow { s with frame_interval := 3, frame_counter := 3 }
            { o with overlaydata := e.result, mode := s.postproc_mode,
                     width := s.videoinfo.width, height := s.videoinfo.height,
                     confthreshold := s.confthreshold, data_lock := false } rest).1,
         (inference_flow { s with frame_interval := 3, frame_counter := 3 }
            { o with overlaydata := e.result, mode := s.postproc_mode,
                     width := s.videoinfo.width, height := s.videoinfo.height,
                     confthreshold := s.confthreshold, data_lock := false } rest).2.1,
         { inference := true, published := true, ret := GST_FLOW_OK,
           overlaydata := e.result } ::
           (inference_flow { s with frame_interval := 3, frame_counter := 3 }
              { o with overlaydata := e.result, mode := s.postproc_mode,
                       width := s.videoinfo.width, height := s.videoinfo.height,
                       confthreshold := s.confthreshold, data_lock := false } rest).2.2) := by
    intro o e rest he
    exact inference_flow_cons_take _ o e rest rfl hout he
  show inference_flow { s with frame_interval := 3, frame_counter := 3 } ov _ = _
  rw [hs 3 2 _ _ _ (by norm_num) (by norm_num), hs 2 1 _ _ _ (by norm_num) (by norm_num),
    hs 1 0 _ _ _ (by norm_num) (by norm_num), ht _ _ _ h4,
    hs 3 2 _ _ _ (by norm_num) (by norm_num), hs 2 1 _ _ _ (by norm_num) (by norm_num),
    hs 1 0 _ _ _ (by norm_num) (by norm_num), ht _ _ _ h8,
    hs 3 2 _ _ _ (by norm_num) (by norm_num), hs 2 1 _ _ _ (by norm_num) (by norm_num)]
  rfl

/-- C3, amended, at a concrete run: the classifier stage started with `frameinterval` 3,
ten succeeding frames with payloads at addresses 1 to 10, publishing into the empty
mailbox. -/
theorem decimation_end_to_end_witness :
    GstSynapInfer.sample_classifier.outputmode = GST_SYNAP_OUTPUT_MODE_OVERLAY ∧
    (∀ e ∈ [InferEnv.sample 1, InferEnv.sample 2, InferEnv.sample 3, InferEnv.sample 4,
            InferEnv.sample 5, InferEnv.sample 6, InferEnv.sample 7, InferEnv.sample 8,
            InferEnv.sample 9, InferEnv.sample 10],
      frame_succeeds GstSynapInfer.sample_classifier e = true) ∧
    (inference_flow
        (gst_synap_infer_set_property GstSynapInfer.sample_classifier
          (.PROP_FRAME_INTERVAL 3)) gst_synap_overlay_init
        [(InferEnv.sample 1, GstBuffer.plain), (InferEnv.sample 2, GstBuffer.plain),
         (InferEnv.sample 3, GstBuffer.plain), (InferEnv.sample 4, GstBuffer.plain),
         (InferEnv.sample 5, GstBuffer.plain), (InferEnv.sample 6, GstBuffer.plain),
         (InferEnv.sample 7, GstBuffer.plain), (InferEnv.sample 8, GstBuffer.plain),
         (InferEnv.sample 9, GstBuffer.plain), (InferEnv.sample 10, GstBuffer.plain)]).2.1
      = { gst_synap_overlay_init with
          overlaydata := 8, mode := GST_SYNAP_POSTPROCESSING_MODE_CLASSIFIER,
          width := 0, height := 0, confthreshold := .fin 11 } ∧
    ((inference_flow
        (gst_synap_infer_set_property GstSynapInfer.sample_classifier
          (.PROP_FRAME_INTERVAL 3)) gst_synap_overlay_init
        [(InferEnv.sample 1, GstBuffer.plain), (InferEnv.sample 2, GstBuffer.plain),
         (InferEnv.sample 3, GstBuffer.plain), (InferEnv.sample 4, GstBuffer.plain),
         (InferEnv.sample 5, GstBuffer.plain), (InferEnv.sample 6, GstBuffer.plain),
         (InferEnv.sample 7, GstBuffer.plain), (InferEnv.sample 8, GstBuffer.plain),
         (InferEnv.sample 9, GstBuffer.plain), (InferEnv.sample 10, GstBuffer.plain)]).2.2.map
      fun r => r.overlaydata) = [0, 0, 0, 4, 4, 4, 4, 8, 8, 8] :=
  ⟨by decide, by decide,
    congrArg (fun t => t.2.1)
      (decimation_end_to_end GstSynapInfer.sample_classifier gst_synap_overlay_init
        (InferEnv.sample 1) (InferEnv.sample 2) (InferEnv.sample 3) (InferEnv.sample 4)
        (InferEnv.sample 5) (InferEnv.sample 6) (InferEnv.sample 7) (InferEnv.sample 8)
        (InferEnv.sample 9) (InferEnv.sample 10) (by decide) (by decide)),
    congrArg (fun t => t.2.2.map fun r => r.overlaydata)
      (decimation_end_to_end GstSynapInfer.sample_classifier gst_synap_overlay_init
        (InferEnv.sample 1) (InferEnv.sample 2) (InferEnv.sample 3) (InferEnv.sample 4)
        (InferEnv.sample 5) (InferEnv.sample 6) (InferEnv.sample 7) (InferEnv.sample 8)
        (InferEnv.sample 9) (InferEnv.sample 10) (by decide) (by decide))⟩

/-! ## Claims on the mailbox -/

/-- Publishing a fresh buffer that carries one Envelope with a payload: the five mailbox
fields become the five recorded values, the lock is released and the other fields
stay. -/
theorem sink_chain_envelope (ov : GstSynapOverlay) (m : GstSynapMeta)
    (h : m.data ≠ NULL) :
    (gst_synap_overlay_inference_sink_chain ov (envelope_buffer m)).1 =
      { ov with overlaydata := m.data, mode := m.postproc_mode, width := m.width,
                height := m.height, confthreshold := m.confthreshold,
                data_lock := false } := by
  simp [gst_synap_overlay_inference_sink_chain, envelope_buffer, gst_buffer_add_synap_meta,
    gst_buffer_get_synap_meta, GstBuffer.plain, h]

/-- C5: latest wins. Whatever was published before (any instance state, any earlier
buffers), after `gst_synap_overlay_inference_sink_chain` takes the buffer on which
`gst_buffer_add_synap_meta` recorded a non-null payload with a kind, a model width and
height and a threshold, the mailbox fields `mode`, `overlaydata`, `width`, `height` and
`confthreshold` are exactly those five recorded values. -/
theorem mailbox_latest_wins (ov : GstSynapOverlay) (earlier : List GstBuffer)
    (data : gpointer) (postproc_mode : GstSynapPostProcessingMode) (width height : Int)
    (confthreshold : gfloat) (hdata : data ≠ NULL) :
    (gst_synap_overlay_inference_sink_chain (publish_all ov earlier).1
        (gst_buffer_add_synap_meta GstBuffer.plain data postproc_mode width height
          confthreshold).1).1.mode = postproc_mode ∧
    (gst_synap_overlay_inference_sink_chain (publish_all ov earlier).1
        (gst_buffer_add_synap_meta GstBuffer.plain data postproc_mode width height
          confthreshold).1).1.overlaydata = data ∧
    (gst_synap_overlay_inference_sink_chain (publish_all ov earlier).1
        (gst_buffer_add_synap_meta GstBuffer.plain data postproc_mode width height
          confthreshold).1).1.width = width ∧
    (gst_synap_overlay_inference_sink_chain (publish_all ov earlier).1
        (gst_buffer_add_synap_meta GstBuffer.plain data postproc_mode width height
          confthreshold).1).1.height = height ∧
    (gst_synap_overlay_inference_sink_chain (publish_all ov earlier).1
        (gst_buffer_add_synap_meta GstBuffer.plain data postproc_mode width height
          confthreshold).1).1.confthreshold = confthreshold := by
  have h := sink_chain_envelope (publish_all ov earlier).1
    { postproc_mode := postproc_mode, data := data, width := width, height := height,
      confthreshold := confthreshold } hdata
  simp only [envelope_buffer] at h
  rw [h]
  exact ⟨rfl, rfl, rfl, rfl, rfl⟩

/-- C5 at a concrete run: a detector Envelope published after a classifier Envelope. -/
theorem mailbox_latest_wins_witness :
    (2 : gpointer) ≠ NULL ∧
    (gst_synap_overlay_inference_sink_chain
        (publish_all gst_synap_overlay_init
          [envelope_buffer { postproc_mode := GST_SYNAP_POSTPROCESSING_MODE_CLASSIFIER,
                             data := 1, width := 224, height := 224,
                             confthreshold := .fin 11 }]).1
        (gst_buffer_add_synap_meta GstBuffer.plain 2
          GST_SYNAP_POSTPROCESSING_MODE_DETECTOR 640 480 (.fin (1 / 2))).1).1.mode
      = GST_SYNAP_POSTPROCESSING_MODE_DETECTOR ∧
    (gst_synap_overlay_inference_sink_chain
        (publish_all gst_synap_overlay_init
          [envelope_buffer { postproc_mode := GST_SYNAP_POSTPROCESSING_MODE_CLASSIFIER,
                             data := 1, width := 224, height := 224,
                             confthreshold := .fin 11 }]).1
        (gst_buffer_add_synap_meta GstBuffer.plain 2
          GST_SYNAP_POSTPROCESSING_MODE_DETECTOR 640 480 (.fin (1 / 2))).1).1.overlaydata
      = 2 ∧
    (gst_synap_overlay_inference_sink_chain
        (publish_all gst_synap_overlay_init
          [envelope_buffer { postproc_mode := GST_SYNAP_POSTPROCESSING_MODE_CLASSIFIER,
                             data := 1, width := 224, height := 224,
                             confthreshold := .fin 11 }]).1
        (gst_buffer_add_synap_meta GstBuffer.plain 2
          GST_SYNAP_POSTPROCESSING_MODE_DETECTOR 640 480 (.fin (1 / 2))).1).1.width
      = 640 ∧
    (gst_synap_overlay_inference_sink_chain
        (publish_all gst_synap_overlay_init
          [envelope_buffer { postproc_mode := GST_SYNAP_POSTPROCESSING_MODE_CLASSIFIER,
                             data := 1, width := 224, height := 224,
                             confthreshold := .fin 11 }]).1
        (gst_buffer_add_synap_meta GstBuffer.plain 2
          GST_SYNAP_POSTPROCESSING_MODE_DETECTOR 640 480 (.fin (1 / 2))).1).1.height
      = 480 ∧
    (gst_synap_overlay_inference_sink_chain
        (publish_all gst_synap_overlay_init
          [envelope_buffer { postproc_mode := GST_SYNAP_POSTPROCESSING_MODE_CLASSIFIER,
                             data := 1, width := 224, height := 224,
                             confthreshold := .fin 11 }]).1
        (gst_buffer_add_synap_meta GstBuffer.plain 2
          GST_SYNAP_POSTPROCESSING_MODE_DETECTOR 640 480 (.fin (1 / 2))).1).1.confthreshold
      = .fin (1 / 2) :=
  ⟨by decide,
    mailbox_latest_wins gst_synap_overlay_init
      [envelope_buffer { postproc_mode := GST_SYNAP_POSTPROCESSING_MODE_CLASSIFIER,
                         data := 1, width := 224, height := 224,
                         confthreshold := .fin 11 }]
      2 GST_SYNAP_POSTPROCESSING_MODE_DETECTOR 640 480 (.fin (1 / 2)) (by decide)⟩

/-- The teardown of the overlay stage disposes no payload. -/
theorem overlay_teardown_disposes_nothing (ov : GstSynapOverlay) :
    disposed_payloads (overlay_teardown ov) = [] := by
  unfold overlay_teardown gst_synap_overlay_stop gst_synap_overlay_finalize
    disposed_payloads
  by_cases h : ov.labelinfo ≠ NULL <;> simp [h, OverlayCall.disposed]

/-- The payloads disposed while a non-empty list of Envelopes is published: the payload
that was resident before, then every published payload but the last. -/
theorem publish_all_disposed (ms : List GstSynapMeta) :
    ∀ ov : GstSynapOverlay,
      (ov.overlaydata ≠ NULL →
        ov.mode = GST_SYNAP_POSTPROCESSING_MODE_CLASSIFIER ∨
        ov.mode = GST_SYNAP_POSTPROCESSING_MODE_DETECTOR) →
      (∀ m ∈ ms, m.data ≠ NULL ∧
        (m.postproc_mode = GST_SYNAP_POSTPROCESSING_MODE_CLASSIFIER ∨
         m.postproc_mode = GST_SYNAP_POSTPROCESSING_MODE_DETECTOR)) →
      ms ≠ [] →
      disposed_payloads (publish_all ov (ms.map envelope_buffer)).2
        = (if ov.overlaydata ≠ NULL then [ov.overlaydata] else []) ++
          ms.dropLast.map (fun m => m.data) ∧
      (publish_all ov (ms.map envelope_buffer)).1.overlaydata
        = (ms.map fun m => m.data).getLast?.getD NULL := by
  induction ms with
  | nil => intro ov _ _ h; exact absurd rfl h
  | cons m rest ih =>
    intro ov hinv hall _
    have hm := hall m (List.mem_cons_self _ _)
    have hrest : ∀ x ∈ rest, x.data ≠ NULL ∧
        (x.postproc_mode = GST_SYNAP_POSTPROCESSING_MODE_CLASSIFIER ∨
         x.postproc_mode = GST_SYNAP_POSTPROCESSING_MODE_DETECTOR) :=
      fun x hx => hall x (List.mem_cons_of_mem _ hx)
    have hstate := sink_chain_envelope ov m hm.1
    have hcalls : disposed_payloads
        (gst_synap_overlay_inference_sink_chain ov (envelope_buffer m)).2.1
        = if ov.overlaydata ≠ NULL then [ov.overlaydata] else [] := by
      by_cases hnull : ov.overlaydata ≠ NULL
      · rcases hinv hnull with hc | hd
        · simp [gst_synap_overlay_inference_sink_chain, envelope_buffer,
            gst_buffer_add_synap_meta, gst_buffer_get_synap_meta, GstBuffer.plain, hm.1,
            hnull, hc, disposed_payloads, OverlayCall.disposed]
        · simp [gst_synap_overlay_inference_sink_chain, envelope_buffer,
            gst_buffer_add_synap_meta, gst_buffer_get_synap_meta, GstBuffer.plain, hm.1,
            hnull, hd, disposed_payloads, OverlayCall.disposed]
      · simp [gst_synap_overlay_inference_sink_chain, envelope_buffer,
          gst_buffer_add_synap_meta, gst_buffer_get_synap_meta, GstBuffer.plain, hm.1,
          hnull, disposed_payloads]
    cases rest with
    | nil =>
      simp only [List.map_cons, List.map_nil, publish_all, List.append_nil,
        List.dropLast_single, hcalls, hstate]
      simp
    | cons m2 rest2 =>
      have hrec := ih (gst_synap_overlay_inference_sink_chain ov (envelope_buffer m)).1
        (by rw [hstate]; intro _; exact hm.2) hrest (List.cons_ne_nil _ _)
      rw [hstate] at hrec
      simp only [List.map_cons, publish_all, disposed_payloads, List.filterMap_append]
        at hrec hcalls ⊢
      rw [hstate]
      refine ⟨?_, ?_⟩
      · rw [hcalls, hrec.1]
        simp [hm.1]
      · rw [hrec.2]
        simp

/-- C6: disposal accounting as the code has it. From the empty mailbox, `N ≥ 1` publishes
of Envelopes with distinct non-null payloads followed by teardown (`stop`, then
`finalize`) dispose every payload but the last, each once: `N - 1` disposals, and the
payload published last is never disposed. The claim asks for `N`. -/
theorem mailbox_disposal_accounting (ms : List GstSynapMeta) (hne : ms ≠ [])
    (hall : ∀ m ∈ ms, m.data ≠ NULL ∧
      (m.postproc_mode = GST_SYNAP_POSTPROCESSING_MODE_CLASSIFIER ∨
       m.postproc_mode = GST_SYNAP_POSTPROCESSING_MODE_DETECTOR))
    (hdistinct : (ms.map fun m => m.data).Nodup) :
    disposed_payloads
        ((publish_all gst_synap_overlay_init (ms.map envelope_buffer)).2 ++
          overlay_teardown (publish_all gst_synap_overlay_init (ms.map envelope_buffer)).1)
      = ms.dropLast.map (fun m => m.data) ∧
    (disposed_payloads
        ((publish_all gst_synap_overlay_init (ms.map envelope_buffer)).2 ++
          overlay_teardown
            (publish_all gst_synap_overlay_init (ms.map envelope_buffer)).1)).length
      = ms.length - 1 ∧
    (ms.getLast hne).data ∉
      disposed_payloads
        ((publish_all gst_synap_overlay_init (ms.map envelope_buffer)).2 ++
          overlay_teardown
            (publish_all gst_synap_overlay_init (ms.map envelope_buffer)).1) := by
  have h := (publish_all_disposed ms gst_synap_overlay_init
    (by intro h; exact absurd rfl h) hall hne).1
  have ht := overlay_teardown_disposes_nothing
    (publish_all gst_synap_overlay_init (ms.map envelope_buffer)).1
  have hd : disposed_payloads
        ((publish_all gst_synap_overlay_init (ms.map envelope_buffer)).2 ++
          overlay_teardown (publish_all gst_synap_overlay_init (ms.map envelope_buffer)).1)
      = ms.dropLast.map (fun m => m.data) := by
    simp only [disposed_payloads, List.filterMap_append] at h ht ⊢
    rw [h, ht]
    simp [gst_synap_overlay_init, NULL]
  rw [hd]
  refine ⟨rfl, by simp, ?_⟩
  intro hmem
  have hsplit : ms.map (fun m => m.data)
      = ms.dropLast.map (fun m => m.data) ++ [(ms.getLast hne).data] := by
    conv_lhs => rw [← List.dropLast_append_getLast hne]
    simp
  rw [hsplit] at hdistinct
  have := (List.nodup_append.1 hdistinct).2.2
  exact this hmem (List.mem_singleton_self _)

/-- C6 at the failing input: one classifier Envelope with payload address 1 published
into the empty mailbox, then teardown; no payload is disposed, payload 1 is leaked. -/
theorem mailbox_disposal_accounting_witness :
    ([({ postproc_mode := GST_SYNAP_POSTPROCESSING_MODE_CLASSIFIER, data := 1,
         width := 224, height := 224, confthreshold := .fin 11 } : GstSynapMeta)] ≠ []) ∧
    disposed_payloads
        ((publish_all gst_synap_overlay_init
            ([({ postproc_mode := GST_SYNAP_POSTPROCESSING_MODE_CLASSIFIER, data := 1,
                 width := 224, height := 224, confthreshold := .fin 11 } : GstSynapMeta)].map
              envelope_buffer)).2 ++
          overlay_teardown
            (publish_all gst_synap_overlay_init
              ([({ postproc_mode := GST_SYNAP_POSTPROCESSING_MODE_CLASSIFIER, data := 1,
                   width := 224, height := 224,
                   confthreshold := .fin 11 } : GstSynapMeta)].map envelope_buffer)).1)
      = [] :=
  ⟨by simp,
    (mailbox_disposal_accounting
      [{ postproc_mode := GST_SYNAP_POSTPROCESSING_MODE_CLASSIFIER, data := 1,
         width := 224, height := 224, confthreshold := .fin 11 }]
      (by simp) (by simp [NULL]) (by simp)).1⟩

/-- What `gst_synap_infer_postproc_classifier`, called in classifier mode, leaves on a
buffer that came without metadata: no `GstSynapMeta`, or one whose payload is non-null
and whose kind is classifier. -/
theorem postproc_classifier_envelope (s : GstSynapInfer) (env : InferEnv)
    (hc : s.postproc_mode = GST_SYNAP_POSTPROCESSING_MODE_CLASSIFIER) :
    gst_buffer_get_synap_meta (gst_synap_infer_postproc_classifier s env GstBuffer.plain).1
      = none ∨
    ∃ m, gst_buffer_get_synap_meta
        (gst_synap_infer_postproc_classifier s env GstBuffer.plain).1 = some m ∧
      m.data ≠ NULL ∧
      (m.postproc_mode = GST_SYNAP_POSTPROCESSING_MODE_CLASSIFIER ∨
       m.postproc_mode = GST_SYNAP_POSTPROCESSING_MODE_DETECTOR) := by
  unfold gst_synap_infer_postproc_classifier
  by_cases h1 : env.result = NULL
  · left; simp [h1, gst_buffer_get_synap_meta, GstBuffer.plain]
  · by_cases h2 : env.classifier_out.success = true
    · by_cases h3 : s.outputmode = GST_SYNAP_OUTPUT_MODE_OVERLAY
      · right
        simp [h1, h2, h3, hc, gst_buffer_add_synap_meta, gst_buffer_get_synap_meta,
          GstBuffer.plain]
      · left
        by_cases h4 : s.outputmode = GST_SYNAP_OUTPUT_MODE_JSON
        · by_cases h5 : env.custom_meta_ok = true <;>
            simp [h1, h2, h4, h5, add_str_meta, gst_buffer_get_synap_meta, GstBuffer.plain]
        · simp [h1, h2, h3, h4, gst_buffer_get_synap_meta, GstBuffer.plain]
    · left; simp [h1, h2, gst_buffer_get_synap_meta, GstBuffer.plain]

/-- What `gst_synap_infer_postproc_detector`, called in detector mode, leaves on a buffer
that came without metadata: no `GstSynapMeta`, or one whose payload is non-null and
whose kind is detector. -/
theorem postproc_detector_envelope (s : GstSynapInfer) (env : InferEnv)
    (hd : s.postproc_mode = GST_SYNAP_POSTPROCESSING_MODE_DETECTOR) :
    gst_buffer_get_synap_meta (gst_synap_infer_postproc_detector s env GstBuffer.plain).1
      = none ∨
    ∃ m, gst_buffer_get_synap_meta
        (gst_synap_infer_postproc_detector s env GstBuffer.plain).1 = some m ∧
      m.data ≠ NULL ∧
      (m.postproc_mode = GST_SYNAP_POSTPROCESSING_MODE_CLASSIFIER ∨
       m.postproc_mode = GST_SYNAP_POSTPROCESSING_MODE_DETECTOR) := by
  unfold gst_synap_infer_postproc_detector
  by_cases h1 : env.result = NULL
  · left; simp [h1, gst_buffer_get_synap_meta, GstBuffer.plain]
  · by_cases h2 : env.detector_out.success = true
    · by_cases h3 : s.outputmode = GST_SYNAP_OUTPUT_MODE_OVERLAY
      · right
        simp [h1, h2, h3, hd, gst_buffer_add_synap_meta, gst_buffer_get_synap_meta,
          GstBuffer.plain]
      · left
        by_cases h4 : s.outputmode = GST_SYNAP_OUTPUT_MODE_JSON
        · by_cases h5 : env.custom_meta_ok = true <;>
            simp [h1, h2, h4, h5, add_str_meta, gst_buffer_get_synap_meta, GstBuffer.plain]
        · simp [h1, h2, h3, h4, gst_buffer_get_synap_meta, GstBuffer.plain]
    · left; simp [h1, h2, gst_buffer_get_synap_meta, GstBuffer.plain]

/-- What `gst_synap_infer_transform_ip` leaves on a buffer that came without metadata:
no `GstSynapMeta`, or one whose payload is non-null and whose kind is classifier or
detector. -/
theorem transform_ip_envelope (inf : GstSynapInfer) (env : InferEnv) :
    gst_buffer_get_synap_meta (gst_synap_infer_transform_ip inf env GstBuffer.plain).buf
      = none ∨
    ∃ m, gst_buffer_get_synap_meta
        (gst_synap_infer_transform_ip inf env GstBuffer.plain).buf = some m ∧
      m.data ≠ NULL ∧
      (m.postproc_mode = GST_SYNAP_POSTPROCESSING_MODE_CLASSIFIER ∨
       m.postproc_mode = GST_SYNAP_POSTPROCESSING_MODE_DETECTOR) := by
  have hplain : gst_buffer_get_synap_meta GstBuffer.plain = none := rfl
  unfold gst_synap_infer_transform_ip
  by_cases h0 : inf.frame_counter > 0
  · left; simp only [h0, if_true]; exact hplain
  · simp only [h0, if_false]
    generalize hs : (if inf.frame_counter = 0 then
      { inf with frame_counter := inf.frame_interval } else inf) = s
    by_cases h1 : env.raw_ok = true
    · by_cases h2 : env.image_empty = true
      · left; simp only [h1, h2, Bool.not_true, Bool.false_eq_true, if_false, if_true]
        exact hplain
      · by_cases h3 : env.assign_ok = true
        · by_cases h4 : env.predict_ok = true
          · by_cases hc : s.postproc_mode = GST_SYNAP_POSTPROCESSING_MODE_CLASSIFIER
            · simp only [h1, h2, h3, h4, hc, Bool.not_true, Bool.false_eq_true, if_false,
                if_true]
              exact postproc_classifier_envelope s env hc
            · by_cases hd : s.postproc_mode = GST_SYNAP_POSTPROCESSING_MODE_DETECTOR
              · simp only [h1, h2, h3, h4, hd, Bool.not_true, Bool.false_eq_true,
                  if_false, if_true]
                simp only [show ¬ (GST_SYNAP_POSTPROCESSING_MODE_DETECTOR
                  = GST_SYNAP_POSTPROCESSING_MODE_CLASSIFIER) by decide, if_false]
                exact postproc_detector_envelope s env hd
              · left
                simp only [h1, h2, h3, h4, hc, hd, Bool.not_true, Bool.false_eq_true,
                  if_false]
                exact hplain
          · left
            simp only [h1, h2, h3, h4, Bool.not_true, Bool.false_eq_true, if_false,
              Bool.not_eq_true, Bool.not_false, if_true]
            simp [h4, gst_buffer_get_synap_meta, GstBuffer.plain]
        · left
          simp [h1, h2, h3, gst_buffer_get_synap_meta, GstBuffer.plain]
    · left
      simp [h1, gst_buffer_get_synap_meta, GstBuffer.plain]

/-- The tag/payload invariant is kept by publishing buffers that come out of
`gst_synap_infer_transform_ip`. -/
theorem publish_all_invariant (frames : List (GstSynapInfer × InferEnv)) :
    ∀ ov : GstSynapOverlay,
      (ov.overlaydata ≠ NULL ↔ ov.mode ≠ GST_SYNAP_POSTPROCESSING_MODE_NONE) →
      ((publish_all ov (frames.map fun f =>
          (gst_synap_infer_transform_ip f.1 f.2 GstBuffer.plain).buf)).1.overlaydata ≠ NULL
        ↔ (publish_all ov (frames.map fun f =>
          (gst_synap_infer_transform_ip f.1 f.2 GstBuffer.plain).buf)).1.mode
            ≠ GST_SYNAP_POSTPROCESSING_MODE_NONE) := by
  induction frames with
  | nil => intro ov h; simpa [publish_all] using h
  | cons f rest ih =>
    intro ov h
    simp only [List.map_cons, publish_all]
    apply ih
    rcases transform_ip_envelope f.1 f.2 with hn | ⟨m, hm, hdata, hmode⟩
    · simp only [gst_synap_overlay_inference_sink_chain, hn]
      exact h
    · simp only [gst_synap_overlay_inference_sink_chain, hm, hdata, ne_eq,
        not_false_eq_true, if_true]
      rcases hmode with hc | hd
      · simp [hdata, hc]
      · simp [hdata, hd]

/-- C7: tag/payload invariant. In every mailbox state reached from
`gst_synap_overlay_init` by publishing buffers that `gst_synap_infer_transform_ip` (any
instance state, any answers of its collaborators) handed over, `overlaydata` is non-null
exactly when `mode` is not `GST_SYNAP_POSTPROCESSING_MODE_NONE`. -/
theorem mailbox_tag_payload_invariant (frames : List (GstSynapInfer × InferEnv)) :
    (publish_all gst_synap_overlay_init (frames.map fun f =>
        (gst_synap_infer_transform_ip f.1 f.2 GstBuffer.plain).buf)).1.overlaydata ≠ NULL
      ↔ (publish_all gst_synap_overlay_init (frames.map fun f =>
        (gst_synap_infer_transform_ip f.1 f.2 GstBuffer.plain).buf)).1.mode
          ≠ GST_SYNAP_POSTPROCESSING_MODE_NONE :=
  publish_all_invariant frames gst_synap_overlay_init
    (by simp [gst_synap_overlay_init, NULL])

/-! ## Claims on the renderer -/

/-- C8: mailbox underflow is not an error. For a display frame that arrives while
`overlaydata` is `NULL`, `gst_synap_overlay_transform_ip` makes no cairo call, returns
the instance (the mailbox and the lock with it) unchanged and answers `GST_FLOW_OK`,
whatever the collaborators would answer. -/
theorem overlay_underflow (ov : GstSynapOverlay) (env : RenderEnv)
    (h : ov.overlaydata = NULL) :
    gst_synap_overlay_transform_ip ov env
      = some { synapoverlay := ov, calls := [], ret := GST_FLOW_OK } := by
  simp [gst_synap_overlay_transform_ip, h]

/-- C8 at the state `gst_synap_overlay_init` leaves. -/
theorem overlay_underflow_witness :
    gst_synap_overlay_init.overlaydata = NULL ∧
    gst_synap_overlay_transform_ip gst_synap_overlay_init RenderEnv.sample
      = some { synapoverlay := gst_synap_overlay_init, calls := [], ret := GST_FLOW_OK } :=
  ⟨rfl, overlay_underflow gst_synap_overlay_init RenderEnv.sample rfl⟩

/-- A value in the range of `gint` is not changed by wrapping. -/
theorem wrap32_of_range (x : Int) (h0 : 0 ≤ x) (h1 : x ≤ G_MAXINT) : wrap32 x = x := by
  unfold wrap32
  unfold G_MAXINT at h1
  omega

/-- Rescaling the origin gives the origin. -/
theorem rescale_zero (frameDim modelDim : Int) : rescale 0 frameDim modelDim = 0 := by
  simp [rescale, wrap32]

/-- Rescaling the full model extent gives the full frame extent. -/
theorem rescale_full (frameDim modelDim : Int) (hm : 0 < modelDim) (hf : 0 < frameDim)
    (h : modelDim * frameDim ≤ G_MAXINT) : rescale modelDim frameDim modelDim = frameDim := by
  have hprod : 0 ≤ modelDim * frameDim := by positivity
  have hle : frameDim ≤ modelDim * frameDim := by nlinarith
  unfold rescale
  rw [wrap32_of_range _ hprod h, Int.mul_tdiv_cancel_left _ (ne_of_gt hm)]
  exact wrap32_of_range _ (le_of_lt hf) (le_trans hle h)

/-- C9: rescaling is exact at the boundary. With positive model and frame dimensions
whose products `modelW * frameW` and `modelH * frameH` are within the range of `gint`,
the box with origin `(0, 0)` and size `(modelW, modelH)` is rescaled by the
`coord * frameDim / modelDim` computation of `gst_synap_overlay_render_detection` to
exactly `(0, 0, frameW, frameH)`. -/
theorem rescale_exact_at_boundary (ov : GstSynapOverlay) (frame : GstVideoInfo)
    (hmw : 0 < ov.width) (hmh : 0 < ov.height)
    (hfw : 0 < frame.width) (hfh : 0 < frame.height)
    (hw : ov.width * frame.width ≤ G_MAXINT) (hh : ov.height * frame.height ≤ G_MAXINT) :
    box_geometry ov frame { origin := { x := 0, y := 0 },
                            size := { x := ov.width, y := ov.height } }
      = (0, 0, frame.width, frame.height) := by
  simp only [box_geometry, rescale_zero, rescale_full _ _ hmw hfw hw,
    rescale_full _ _ hmh hfh hh]

/-- C9 at a concrete input: a 224 x 224 model on a 1920 x 1080 frame. -/
theorem rescale_exact_at_boundary_witness :
    (0 : Int) < 224 ∧ (0 : Int) < 1920 ∧ (0 : Int) < 1080 ∧
    (224 : Int) * 1920 ≤ G_MAXINT ∧ (224 : Int) * 1080 ≤ G_MAXINT ∧
    box_geometry { gst_synap_overlay_init with width := 224, height := 224 }
        { format := .GST_VIDEO_FORMAT_BGRA, width := 1920, height := 1080 }
        { origin := { x := 0, y := 0 }, size := { x := 224, y := 224 } }
      = (0, 0, 1920, 1080) :=
  ⟨by decide, by decide, by decide, by decide, by decide,
    rescale_exact_at_boundary { gst_synap_overlay_init with width := 224, height := 224 }
      { format := .GST_VIDEO_FORMAT_BGRA, width := 1920, height := 1080 }
      (by decide) (by decide) (by decide) (by decide) (by decide) (by decide)⟩

/-- C10: pose edge visibility gate. For a detection with 17 landmarks and a skeleton
edge `(start, end)` of `gst_synap_overlay_render_detection`, both landmarks exist,
`gst_synap_overlay_render_poseline` is defined, and it draws the line (move, line,
stroke) if and only if both `landmarks[start].visibility` and
`landmarks[end].visibility` exceed 0.3; otherwise it makes no cairo call. -/
theorem poseline_visibility_gate (ov : GstSynapOverlay) (frame : GstVideoInfo)
    (landmarks : List Landmark) (start end_ : Nat)
    (hlen : landmarks.length = GST_SYNAP_POSE_SIZE)
    (hedge : (start, end_) ∈ pose_edges) :
    ∃ ls le calls, landmarks[start]? = some ls ∧ landmarks[end_]? = some le ∧
      gst_synap_overlay_render_poseline ov frame landmarks start end_ = some calls ∧
      (calls = [.move_to (rescale ls.x frame.width ov.width)
                  (rescale ls.y frame.height ov.height),
                .line_to (rescale le.x frame.width ov.width)
                  (rescale le.y frame.height ov.height),
                .stroke] ∨ calls = []) ∧
      (calls ≠ [] ↔
        (ls.visibility.gt GST_SYNAP_POSE_VISIBILITY_THRESHOLD = true ∧
         le.visibility.gt GST_SYNAP_POSE_VISIBILITY_THRESHOLD = true)) := by
  have hs : start < landmarks.length := by
    rw [hlen]; simp only [pose_edges, List.mem_cons, Prod.mk.injEq, List.mem_nil_iff,
      or_false] at hedge
    unfold GST_SYNAP_POSE_SIZE; omega
  have he : end_ < landmarks.length := by
    rw [hlen]; simp only [pose_edges, List.mem_cons, Prod.mk.injEq, List.mem_nil_iff,
      or_false] at hedge
    unfold GST_SYNAP_POSE_SIZE; omega
  have hcalls : gst_synap_overlay_render_poseline ov frame landmarks start end_
      = some (if landmarks[start].visibility.gt GST_SYNAP_POSE_VISIBILITY_THRESHOLD = true ∧
                 landmarks[end_].visibility.gt GST_SYNAP_POSE_VISIBILITY_THRESHOLD = true
              then [.move_to (rescale landmarks[start].x frame.width ov.width)
                      (rescale landmarks[start].y frame.height ov.height),
                    .line_to (rescale landmarks[end_].x frame.width ov.width)
                      (rescale landmarks[end_].y frame.height ov.height),
                    .stroke]
              else []) := by
    unfold gst_synap_overlay_render_poseline
    rw [List.getElem?_eq_getElem hs, List.getElem?_eq_getElem he]
    by_cases h1 : landmarks[start].visibility.gt GST_SYNAP_POSE_VISIBILITY_THRESHOLD = true
    · by_cases h2 : landmarks[end_].visibility.gt GST_SYNAP_POSE_VISIBILITY_THRESHOLD = true
      · simp [h1, h2]
      · simp [h1, h2]
    · simp [h1]
  refine ⟨landmarks[start], landmarks[end_], _, List.getElem?_eq_getElem hs,
    List.getElem?_eq_getElem he, hcalls, ?_, ?_⟩
  · split_ifs
    · exact Or.inl rfl
    · exact Or.inr rfl
  · split_ifs with h
    · simp [h]
    · simpa using h

/-- C10 at the example of the claim: visibilities 0.4 and 0.2 at landmarks 0 and 1, edge
`(0, 1)`; no line is drawn. -/
theorem poseline_visibility_gate_witness :
    Landmark.sample_pose.length = GST_SYNAP_POSE_SIZE ∧ (0, 1) ∈ pose_edges ∧
    gst_synap_overlay_render_poseline gst_synap_overlay_init GstVideoInfo.zero
      Landmark.sample_pose 0 1 = some [] ∧
    ∃ ls le calls, Landmark.sample_pose[0]? = some ls ∧
      Landmark.sample_pose[1]? = some le ∧
      gst_synap_overlay_render_poseline gst_synap_overlay_init GstVideoInfo.zero
        Landmark.sample_pose 0 1 = some calls ∧
      (calls = [.move_to (rescale ls.x GstVideoInfo.zero.width gst_synap_overlay_init.width)
                  (rescale ls.y GstVideoInfo.zero.height gst_synap_overlay_init.height),
                .line_to (rescale le.x GstVideoInfo.zero.width gst_synap_overlay_init.width)
                  (rescale le.y GstVideoInfo.zero.height gst_synap_overlay_init.height),
                .stroke] ∨ calls = []) ∧
      (calls ≠ [] ↔
        (ls.visibility.gt GST_SYNAP_POSE_VISIBILITY_THRESHOLD = true ∧
         le.visibility.gt GST_SYNAP_POSE_VISIBILITY_THRESHOLD = true)) :=
  ⟨by decide, by decide,
    by norm_num [gst_synap_overlay_render_poseline, Landmark.sample_pose, gfloat.gt,
      GST_SYNAP_POSE_VISIBILITY_THRESHOLD],
    poseline_visibility_gate gst_synap_overlay_init GstVideoInfo.zero Landmark.sample_pose
      0 1 (by decide) (by decide)⟩

/-- One round of the dot loop at an existing landmark: the dot (arc, fill) is drawn
exactly when the landmark's own visibility exceeds the threshold. -/
theorem render_dot_of_getElem (ov : GstSynapOverlay) (frame : GstVideoInfo)
    (landmarks : List Landmark) (j : Nat) (l : Landmark) (h : landmarks[j]? = some l) :
    render_dot ov frame landmarks j
      = some (if l.visible then
                [.arc (rescale l.x frame.width ov.width)
                   (rescale l.y frame.height ov.height) 3, .fill]
              else []) := by
  unfold render_dot Landmark.visible
  rw [h]
  by_cases hv : l.visibility.gt GST_SYNAP_POSE_VISIBILITY_THRESHOLD = true <;> simp [hv]

/-- The dot loop over the indices of a segment of the landmark list draws, landmark after
landmark, the dot of each visible landmark of the segment. -/
theorem render_dots_segment (ov : GstSynapOverlay) (frame : GstVideoInfo)
    (ls : List Landmark) :
    ∀ pre : List Landmark,
      render_dots ov frame (pre ++ ls) (List.range' pre.length ls.length)
        = some ((ls.map fun l =>
            if l.visible then
              [CairoCall.arc (rescale l.x frame.width ov.width)
                 (rescale l.y frame.height ov.height) 3, CairoCall.fill]
            else []).flatten) := by
  induction ls with
  | nil => intro pre; simp [render_dots]
  | cons l rest ih =>
    intro pre
    have hget : (pre ++ l :: rest)[pre.length]? = some l := by
      rw [List.getElem?_append_right (le_refl _)]
      simp
    have hrec := ih (pre ++ [l])
    simp only [List.append_assoc, List.singleton_append, List.length_append,
      List.length_singleton] at hrec
    simp only [List.length_cons, List.range'_succ, render_dots,
      render_dot_of_getElem ov frame _ _ l hget, hrec, List.map_cons, List.flatten_cons]

/-- The dots counted in the output of the dot loop are the visible landmarks. -/
theorem count_arcs_dots (ov : GstSynapOverlay) (frame : GstVideoInfo)
    (ls : List Landmark) :
    (((ls.map fun l =>
        if l.visible then
          [CairoCall.arc (rescale l.x frame.width ov.width)
             (rescale l.y frame.height ov.height) 3, CairoCall.fill]
        else []).flatten).filter CairoCall.is_arc).length
      = (ls.filter Landmark.visible).length := by
  induction ls with
  | nil => simp
  | cons l rest ih =>
    simp only [List.map_cons, List.flatten_cons, List.filter_append, List.length_append, ih]
    by_cases hv : l.visible = true
    · simp [hv, List.filter_cons, CairoCall.is_arc]
      omega
    · simp [hv, List.filter_cons]

/-- The pose lines over a list of index pairs within the landmark list are defined and
contain no dot. -/
theorem render_poselines_no_arc (ov : GstSynapOverlay) (frame : GstVideoInfo)
    (landmarks : List Landmark) (edges : List (Nat × Nat)) :
    (∀ p ∈ edges, p.1 < landmarks.length ∧ p.2 < landmarks.length) →
    ∃ lines, render_poselines ov frame landmarks edges = some lines ∧
      lines.filter CairoCall.is_arc = [] := by
  induction edges with
  | nil => intro _; exact ⟨[], rfl, rfl⟩
  | cons p rest ih =>
    intro h
    obtain ⟨s, e⟩ := p
    have hp := h (s, e) (List.mem_cons_self _ _)
    obtain ⟨lines, hl, hf⟩ := ih (fun q hq => h q (List.mem_cons_of_mem _ hq))
    simp only [render_poselines, hl, gst_synap_overlay_render_poseline,
      List.getElem?_eq_getElem hp.1, List.getElem?_eq_getElem hp.2]
    by_cases h1 : landmarks[s].visibility.gt GST_SYNAP_POSE_VISIBILITY_THRESHOLD = true
    · by_cases h2 : landmarks[e].visibility.gt GST_SYNAP_POSE_VISIBILITY_THRESHOLD = true
      · simp only [h1, h2, if_true]
        refine ⟨_, rfl, ?_⟩
        rw [List.filter_append, hf, List.append_nil]
        rfl
      · simp only [h1, h2, if_true, Bool.false_eq_true, if_false]
        exact ⟨_, rfl, by rw [List.nil_append]; exact hf⟩
    · simp only [h1, Bool.false_eq_true, if_false]
      exact ⟨_, rfl, by rw [List.nil_append]; exact hf⟩

/-- C11: pose dots are independent of edges. For a detection with 17 landmarks, the round
of the dot loop for landmark `j` draws the dot (arc, fill) exactly when landmark `j`
itself has visibility above 0.3, whatever the other landmarks are; the whole dot loop
draws the dots of the visible landmarks in order; and the number of dots in the output
of the pose branch (lines included) equals the number of landmarks with visibility
above 0.3. -/
theorem pose_dots_independent (ov : GstSynapOverlay) (frame : GstVideoInfo)
    (landmarks : List Landmark) (hlen : landmarks.length = GST_SYNAP_POSE_SIZE) :
    (∀ (j : Nat) (l : Landmark), landmarks[j]? = some l →
      render_dot ov frame landmarks j
        = some (if l.visibility.gt GST_SYNAP_POSE_VISIBILITY_THRESHOLD then
                  [.arc (rescale l.x frame.width ov.width)
                     (rescale l.y frame.height ov.height) 3, .fill]
                else [])) ∧
    render_dots ov frame landmarks (List.range GST_SYNAP_POSE_SIZE)
      = some ((landmarks.map fun l =>
          if l.visibility.gt GST_SYNAP_POSE_VISIBILITY_THRESHOLD then
            [CairoCall.arc (rescale l.x frame.width ov.width)
               (rescale l.y frame.height ov.height) 3, CairoCall.fill]
          else []).flatten) ∧
    ∃ calls, render_pose ov frame landmarks = some calls ∧
      (calls.filter CairoCall.is_arc).length
        = (landmarks.filter fun l =>
            l.visibility.gt GST_SYNAP_POSE_VISIBILITY_THRESHOLD).length := by
  have hdots := render_dots_segment ov frame landmarks []
  simp only [List.nil_append, List.length_nil, ← List.range_eq_range', hlen] at hdots
  refine ⟨fun j l h => render_dot_of_getElem ov frame landmarks j l h, hdots, ?_⟩
  obtain ⟨lines, hl, hf⟩ := render_poselines_no_arc ov frame landmarks pose_edges
    (by rw [hlen]; decide)
  have hpose : render_pose ov frame landmarks
      = some ([CairoCall.set_source_rgb 1 1 0, CairoCall.set_line_width (3 / 2)] ++ lines ++
          [CairoCall.set_source_rgb 0 1 0] ++
          (landmarks.map fun l =>
            if l.visible then
              [CairoCall.arc (rescale l.x frame.width ov.width)
                 (rescale l.y frame.height ov.height) 3, CairoCall.fill]
            else []).flatten) := by
    simp only [render_pose, hl, hdots]
  refine ⟨_, hpose, ?_⟩
  have hc := count_arcs_dots ov frame landmarks
  simp only [List.filter_append, hf, List.length_append, hc]
  simp [List.filter_cons, CairoCall.is_arc, Landmark.visible]
  rfl

/-- C11 at the example of the claim: visibilities 0.4 and 0.2 at landmarks 0 and 1 (0.9
at the others); a dot at landmark 0, none at landmark 1, sixteen dots in all. -/
theorem pose_dots_independent_witness :
    Landmark.sample_pose.length = GST_SYNAP_POSE_SIZE ∧
    render_dot (GstSynapOverlay.sample GST_SYNAP_POSTPROCESSING_MODE_DETECTOR (.fin (1 / 2)))
      { format := .GST_VIDEO_FORMAT_BGRA, width := 1920, height := 1080 }
      Landmark.sample_pose 0 = some [.arc 85 96 3, .fill] ∧
    render_dot (GstSynapOverlay.sample GST_SYNAP_POSTPROCESSING_MODE_DETECTOR (.fin (1 / 2)))
      { format := .GST_VIDEO_FORMAT_BGRA, width := 1920, height := 1080 }
      Landmark.sample_pose 1 = some [] ∧
    ∃ calls,
      render_pose (GstSynapOverlay.sample GST_SYNAP_POSTPROCESSING_MODE_DETECTOR (.fin (1 / 2)))
        { format := .GST_VIDEO_FORMAT_BGRA, width := 1920, height := 1080 }
        Landmark.sample_pose = some calls ∧
      (calls.filter CairoCall.is_arc).length
        = (Landmark.sample_pose.filter fun l =>
            l.visibility.gt GST_SYNAP_POSE_VISIBILITY_THRESHOLD).length :=
  ⟨by decide,
   by norm_num [render_dot, Landmark.sample_pose, gfloat.gt,
      GST_SYNAP_POSE_VISIBILITY_THRESHOLD, GstSynapOverlay.sample, rescale, wrap32,
      Int.tdiv],
   by norm_num [render_dot, Landmark.sample_pose, gfloat.gt,
      GST_SYNAP_POSE_VISIBILITY_THRESHOLD],
   (pose_dots_independent
      (GstSynapOverlay.sample GST_SYNAP_POSTPROCESSING_MODE_DETECTOR (.fin (1 / 2)))
      { format := .GST_VIDEO_FORMAT_BGRA, width := 1920, height := 1080 }
      Landmark.sample_pose (by decide)).2.2⟩

/-- A value that is less than or equal to another does not exceed it. -/
theorem gfloat.gt_false_of_le (a b : gfloat) (h : a.le b = true) : a.gt b = false := by
  cases a <;> cases b <;> simp_all [gfloat.le, gfloat.gt]

/-- C12: classifier threshold, negative side. When the classification read at the
resident payload has a non-empty item list whose top entry's confidence is less than or
equal to the mailbox threshold, `gst_synap_overlay_render_classification` is defined and
makes no `cairo_text_path` call, whatever the frame and cairo answer; when the frame
maps and cairo succeeds it only creates and destroys the surface and the context and
returns `TRUE`. -/
theorem classification_below_threshold (ov : GstSynapOverlay) (env : RenderEnv)
    (format : cairo_format_t) (top : ClassifierItem) (rest : List ClassifierItem)
    (hitems : (env.classifier_at ov.overlaydata).items = top :: rest)
    (hle : top.confidence.le ov.confthreshold = true) :
    (∃ r, gst_synap_overlay_render_classification ov env format = some r ∧
      r.calls.filter CairoCall.is_text = []) ∧
    (env.frame_map_ok = true → env.surface_ok = true → env.cr_ok = true →
      ov.overlaydata ≠ NULL →
      gst_synap_overlay_render_classification ov env format =
        some { synapoverlay := { ov with data_lock := false }
               calls := [.image_surface_create_for_data format ov.videoinfo.width
                           ov.videoinfo.height, .create, .destroy, .surface_destroy]
               ret := true }) := by
  have hgt := gfloat.gt_false_of_le _ _ hle
  unfold gst_synap_overlay_render_classification
  by_cases h1 : env.frame_map_ok = true
  · by_cases h2 : env.surface_ok = true
    · by_cases h3 : env.cr_ok = true
      · by_cases h4 : ov.overlaydata = NULL
        · simp [h1, h2, h3, h4, CairoCall.is_text, List.filter_cons]
        · simp [h1, h2, h3, h4, hitems, hgt, CairoCall.is_text, List.filter_cons]
      · simp [h1, h2, h3, CairoCall.is_text, List.filter_cons]
    · simp [h1, h2, CairoCall.is_text, List.filter_cons]
  · simp [h1]

/-- C12 at the example of the claim: threshold 11.0, top confidence 10.9. -/
theorem classification_below_threshold_witness :
    ((RenderEnv.sample_classification (.fin (109 / 10))).classifier_at
        (GstSynapOverlay.sample GST_SYNAP_POSTPROCESSING_MODE_CLASSIFIER (.fin 11)).overlaydata).items
      = { class_index := 7, confidence := .fin (109 / 10) } ::
        [{ class_index := 8, confidence := .fin 1 }] ∧
    gfloat.le (.fin (109 / 10))
      (GstSynapOverlay.sample GST_SYNAP_POSTPROCESSING_MODE_CLASSIFIER (.fin 11)).confthreshold
      = true ∧
    gst_synap_overlay_render_classification
        (GstSynapOverlay.sample GST_SYNAP_POSTPROCESSING_MODE_CLASSIFIER (.fin 11))
        (RenderEnv.sample_classification (.fin (109 / 10))) .CAIRO_FORMAT_ARGB32 =
      some { synapoverlay :=
               GstSynapOverlay.sample GST_SYNAP_POSTPROCESSING_MODE_CLASSIFIER (.fin 11)
             calls := [.image_surface_create_for_data .CAIRO_FORMAT_ARGB32 1920 1080,
                       .create, .destroy, .surface_destroy]
             ret := true } :=
  ⟨rfl, by norm_num [gfloat.le, GstSynapOverlay.sample],
    (classification_below_threshold
      (GstSynapOverlay.sample GST_SYNAP_POSTPROCESSING_MODE_CLASSIFIER (.fin 11))
      (RenderEnv.sample_classification (.fin (109 / 10))) .CAIRO_FORMAT_ARGB32
      { class_index := 7, confidence := .fin (109 / 10) }
      [{ class_index := 8, confidence := .fin 1 }] rfl
      (by norm_num [gfloat.le, GstSynapOverlay.sample])).2 rfl rfl rfl (by decide)⟩

/-- C13, counterexample: an overlay stage with no label file configured, threshold 11.0,
top confidence 11.1. The confidence exceeds the threshold and yet no label is drawn:
the surface and the context are created and destroyed, nothing else. -/
theorem classification_above_threshold_counterexample :
    gfloat.gt (.fin (111 / 10)) (.fin 11) = true ∧
    gst_synap_overlay_render_classification
        { GstSynapOverlay.sample GST_SYNAP_POSTPROCESSING_MODE_CLASSIFIER (.fin 11) with
          label := none, labelinfo := NULL }
        (RenderEnv.sample_classification (.fin (111 / 10))) .CAIRO_FORMAT_ARGB32 =
      some { synapoverlay :=
               { GstSynapOverlay.sample GST_SYNAP_POSTPROCESSING_MODE_CLASSIFIER (.fin 11) with
                 label := none, labelinfo := NULL }
             calls := [.image_surface_create_for_data .CAIRO_FORMAT_ARGB32 1920 1080,
                       .create, .destroy, .surface_destroy]
             ret := true } := by
  constructor
  · norm_num [gfloat.gt]
  · norm_num [gst_synap_overlay_render_classification, GstSynapOverlay.sample,
      RenderEnv.sample_classification, gfloat.gt, NULL]

/-- C13, amended: classifier threshold, positive side. When the frame maps, cairo
succeeds, the resident classification has a non-empty item list and its top entry's
confidence exceeds the mailbox threshold, `gst_synap_overlay_render_classification`
draws the label of the top entry's class as text at the anchor `(10, 35)`, and the label
of no other entry, provided a label file is configured (`label` is set and `labelinfo`
was created by `start`); when no label file is configured it draws no text at all. -/
theorem classification_above_threshold (ov : GstSynapOverlay) (env : RenderEnv)
    (format : cairo_format_t) (top : ClassifierItem) (rest : List ClassifierItem)
    (hmap : env.frame_map_ok = true) (hsurface : env.surface_ok = true)
    (hcr : env.cr_ok = true) (hdata : ov.overlaydata ≠ NULL)
    (hitems : (env.classifier_at ov.overlaydata).items = top :: rest)
    (hgt : top.confidence.gt ov.confthreshold = true)
    (hlabelinfo : ov.label ≠ none → ov.labelinfo ≠ NULL) :
    gst_synap_overlay_render_classification ov env format =
      some { synapoverlay := { ov with data_lock := false }
             calls :=
               [.image_surface_create_for_data format ov.videoinfo.width
                  ov.videoinfo.height, .create] ++
               (if ov.label ≠ none then
                  [.select_font_face_sans_bold, .set_font_size 35, .move_to 10 35,
                   .text_path_label top.class_index, .set_source_rgb 1 1 1,
                   .fill_preserve, .set_source_rgb 1 1 1, .set_line_width (3 / 10),
                   .stroke, .fill_preserve]
                else []) ++
               [.destroy, .surface_destroy]
             ret := true } := by
  unfold gst_synap_overlay_render_classification
  by_cases hl : ov.label = none
  · simp [hmap, hsurface, hcr, hdata, hitems, hgt, hl]
  · simp [hmap, hsurface, hcr, hdata, hitems, hgt, hl, hlabelinfo hl, classification_text]

/-- C13, amended, at the example of the claim with a label file configured: threshold
11.0, top confidence 11.1, top class 7; the label of class 7 is drawn at `(10, 35)`, the
second entry (class 8) is not drawn. -/
theorem classification_above_threshold_witness :
    gst_synap_overlay_render_classification
        (GstSynapOverlay.sample GST_SYNAP_POSTPROCESSING_MODE_CLASSIFIER (.fin 11))
        (RenderEnv.sample_classification (.fin (111 / 10))) .CAIRO_FORMAT_ARGB32 =
      some { synapoverlay :=
               GstSynapOverlay.sample GST_SYNAP_POSTPROCESSING_MODE_CLASSIFIER (.fin 11)
             calls :=
               [.image_surface_create_for_data .CAIRO_FORMAT_ARGB32 1920 1080, .create,
                .select_font_face_sans_bold, .set_font_size 35, .move_to 10 35,
                .text_path_label 7, .set_source_rgb 1 1 1,
                .fill_preserve, .set_source_rgb 1 1 1, .set_line_width (3 / 10),
                .stroke, .fill_preserve, .destroy, .surface_destroy]
             ret := true } :=
  classification_above_threshold
    (GstSynapOverlay.sample GST_SYNAP_POSTPROCESSING_MODE_CLASSIFIER (.fin 11))
    (RenderEnv.sample_classification (.fin (111 / 10))) .CAIRO_FORMAT_ARGB32
    { class_index := 7, confidence := .fin (111 / 10) }
    [{ class_index := 8, confidence := .fin 1 }] rfl rfl rfl (by decide) rfl
    (by norm_num [gfloat.gt, GstSynapOverlay.sample]) (by decide)

/-- C14: unsupported pixel format fails closed. For every negotiated format other than
ARGB, BGRA, xRGB, BGRx and RGB16, `gst_synap_overlay_render` returns `FALSE` with no
cairo call and the instance untouched, whatever the mailbox holds and whatever the
drawing routines would do; for the five formats the switch selects ARGB32, ARGB32,
RGB24, RGB24 and RGB16_565, `gst_synap_overlay_render` is exactly the dispatch on the
kind with that format, and these five are the only formats with a cairo format. -/
theorem render_format_switch (ov : GstSynapOverlay) (env : RenderEnv) :
    (∀ id : Nat,
      gst_synap_overlay_render
          { ov with videoinfo := { ov.videoinfo with format := .OTHER id } } env
        = some { synapoverlay :=
                   { ov with videoinfo := { ov.videoinfo with format := .OTHER id } }
                 calls := [], ret := false }) ∧
    (cairo_format_of .GST_VIDEO_FORMAT_ARGB = some .CAIRO_FORMAT_ARGB32 ∧
     cairo_format_of .GST_VIDEO_FORMAT_BGRA = some .CAIRO_FORMAT_ARGB32 ∧
     cairo_format_of .GST_VIDEO_FORMAT_xRGB = some .CAIRO_FORMAT_RGB24 ∧
     cairo_format_of .GST_VIDEO_FORMAT_BGRx = some .CAIRO_FORMAT_RGB24 ∧
     cairo_format_of .GST_VIDEO_FORMAT_RGB16 = some .CAIRO_FORMAT_RGB16_565) ∧
    (∀ format : cairo_format_t, cairo_format_of ov.videoinfo.format = some format →
      gst_synap_overlay_render ov env =
        if ov.mode = GST_SYNAP_POSTPROCESSING_MODE_CLASSIFIER then
          gst_synap_overlay_render_classification ov env format
        else if ov.mode = GST_SYNAP_POSTPROCESSING_MODE_DETECTOR then
          gst_synap_overlay_render_detection ov env format
        else some { synapoverlay := ov, calls := [], ret := true }) ∧
    (∀ f : GstVideoFormat, cairo_format_of f = none ↔
      f ∉ [GstVideoFormat.GST_VIDEO_FORMAT_ARGB, .GST_VIDEO_FORMAT_BGRA,
           .GST_VIDEO_FORMAT_xRGB, .GST_VIDEO_FORMAT_BGRx, .GST_VIDEO_FORMAT_RGB16]) := by
  refine ⟨fun id => ?_, ⟨rfl, rfl, rfl, rfl, rfl⟩, fun format h => ?_, fun f => ?_⟩
  · simp [gst_synap_overlay_render, cairo_format_of]
  · simp only [gst_synap_overlay_render, h]
  · cases f <;> simp [cairo_format_of]

/-! ## Claims on the start of the stages -/

/-- The two string tests of `gst_synap_infer_start` touch only `postproc_mode` and
`outputmode`; `outputmode` stays or becomes overlay or JSON. -/
theorem start_parameters_frame (s : GstSynapInfer) :
    (gst_synap_infer_start_parameters s).numinference = s.numinference ∧
    (gst_synap_infer_start_parameters s).confthreshold = s.confthreshold ∧
    (gst_synap_infer_start_parameters s).model = s.model ∧
    ((gst_synap_infer_start_parameters s).outputmode = s.outputmode ∨
     (gst_synap_infer_start_parameters s).outputmode = GST_SYNAP_OUTPUT_MODE_OVERLAY ∨
     (gst_synap_infer_start_parameters s).outputmode = GST_SYNAP_OUTPUT_MODE_JSON) := by
  unfold gst_synap_infer_start_parameters
  rcases hm : s.mode with _ | m <;> rcases ho : s.output with _ | o <;> simp only []
  · simp [ho]
  · simp only [ho]; split_ifs <;> simp
  · split_ifs <;> simp [ho]
  · split_ifs <;> simp only [ho] <;> split_ifs <;> simp

/-- C16: defaults never override configuration. A `numinference` `n ≥ 0` and a threshold
`t ≥ 0` written through the properties (the properties allow `[0, G_MAXINT]` and
`[0, G_MAXFLOAT]`) are found unchanged after `gst_synap_infer_start`, whatever mode the
start selects and whether it succeeds or not; and whenever the post-processing mode after
start is none, start has changed neither `numinference` nor the threshold, whatever they
were. -/
theorem start_keeps_configuration (s : GstSynapInfer) (env : StartEnv) (n : Int)
    (t : gfloat) (hn : 0 ≤ n) (ht : gfloat.le (.fin 0) t = true) :
    (gst_synap_infer_start (gst_synap_infer_set_property s (.PROP_NUM_INFERENCE n))
      env).1.numinference = n ∧
    (gst_synap_infer_start (gst_synap_infer_set_property s (.PROP_CONFIDENCE_THRESHOLD t))
      env).1.confthreshold = t ∧
    (gst_synap_infer_start
      (gst_synap_infer_set_property (gst_synap_infer_set_property s (.PROP_NUM_INFERENCE n))
        (.PROP_CONFIDENCE_THRESHOLD t)) env).1.numinference = n ∧
    (gst_synap_infer_start
      (gst_synap_infer_set_property (gst_synap_infer_set_property s (.PROP_NUM_INFERENCE n))
        (.PROP_CONFIDENCE_THRESHOLD t)) env).1.confthreshold = t ∧
    ((gst_synap_infer_start s env).1.postproc_mode = GST_SYNAP_POSTPROCESSING_MODE_NONE →
      (gst_synap_infer_start s env).1.numinference = s.numinference ∧
      (gst_synap_infer_start s env).1.confthreshold = s.confthreshold) := by
  have hne : n ≠ -1 := by omega
  have hceq : t.ceq (.fin (-1)) = false := by
    cases t <;> simp_all [gfloat.le, gfloat.ceq]
    intro h; rw [h] at ht; norm_num at ht
  have key : ∀ s' : GstSynapInfer,
      (s'.numinference ≠ -1 → (gst_synap_infer_start s' env).1.numinference
        = s'.numinference) ∧
      (s'.confthreshold.ceq (.fin (-1)) = false →
        (gst_synap_infer_start s' env).1.confthreshold = s'.confthreshold) ∧
      ((gst_synap_infer_start s' env).1.postproc_mode
          = GST_SYNAP_POSTPROCESSING_MODE_NONE →
        (gst_synap_infer_start s' env).1.numinference = s'.numinference ∧
        (gst_synap_infer_start s' env).1.confthreshold = s'.confthreshold) := by
    intro s'
    have hf := start_parameters_frame s'
    unfold gst_synap_infer_start
    cases s'.model with
    | none => simp
    | some model =>
      simp only []
      generalize gst_synap_infer_start_parameters s' = s2 at hf ⊢
      rw [← hf.1, ← hf.2.1]
      by_cases hc : s2.postproc_mode = GST_SYNAP_POSTPROCESSING_MODE_CLASSIFIER
      · split_ifs <;> simp_all
      · by_cases hd : s2.postproc_mode = GST_SYNAP_POSTPROCESSING_MODE_DETECTOR
        · split_ifs <;> simp_all
        · split_ifs <;> simp_all
  refine ⟨(key _).1 hne, (key _).2.1 hceq, (key _).1 hne, (key _).2.1 hceq, (key s).2.2⟩

/-- C16 at the lower end of both ranges: `numinference` 0 and threshold 0.0 written on a
new instance. -/
theorem start_keeps_configuration_witness :
    (0 : Int) ≤ 0 ∧ gfloat.le (.fin 0) (.fin 0) = true ∧
    (gst_synap_infer_start
      (gst_synap_infer_set_property
        (gst_synap_infer_set_property
          (set_properties gst_synap_infer_init
            [.PROP_MODEL (some "model.synap"), .PROP_MODE (some "classifier")])
          (.PROP_NUM_INFERENCE 0))
        (.PROP_CONFIDENCE_THRESHOLD (.fin 0))) StartEnv.sample).1.numinference = 0 ∧
    (gst_synap_infer_start
      (gst_synap_infer_set_property
        (gst_synap_infer_set_property
          (set_properties gst_synap_infer_init
            [.PROP_MODEL (some "model.synap"), .PROP_MODE (some "classifier")])
          (.PROP_NUM_INFERENCE 0))
        (.PROP_CONFIDENCE_THRESHOLD (.fin 0))) StartEnv.sample).1.confthreshold
      = .fin 0 :=
  ⟨le_refl _, by simp [gfloat.le],
    (start_keeps_configuration
      (set_properties gst_synap_infer_init
        [.PROP_MODEL (some "model.synap"), .PROP_MODE (some "classifier")])
      StartEnv.sample 0 (.fin 0) (le_refl _) (by simp [gfloat.le])).2.2.1,
    (start_keeps_configuration
      (set_properties gst_synap_infer_init
        [.PROP_MODEL (some "model.synap"), .PROP_MODE (some "classifier")])
      StartEnv.sample 0 (.fin 0) (le_refl _) (by simp [gfloat.le])).2.2.2.1⟩

/-! ## Claims on failures and publication of the inference stage -/

/-- C17: runtime inference failure. For a frame that is not skipped by the decimation
step, if `assign` fails, or `predict` fails, or the post-processing result of the active
mode (classifier or detector) has `success = false`, `gst_synap_infer_transform_ip`
returns `GST_FLOW_ERROR` and the buffer leaves as it came: no `GstSynapMeta` and no
`GstSynapStrMeta` is attached. -/
theorem transform_ip_failure (s : GstSynapInfer) (env : InferEnv) (buf : GstBuffer)
    (hframe : s.frame_counter ≤ 0)
    (hfail : env.assign_ok = false ∨ env.predict_ok = false ∨
      (s.postproc_mode = GST_SYNAP_POSTPROCESSING_MODE_CLASSIFIER ∧
        env.classifier_out.success = false) ∨
      (s.postproc_mode = GST_SYNAP_POSTPROCESSING_MODE_DETECTOR ∧
        env.detector_out.success = false)) :
    (gst_synap_infer_transform_ip s env buf).ret = GST_FLOW_ERROR ∧
    (gst_synap_infer_transform_ip s env buf).buf = buf := by
  have h0 : ¬ s.frame_counter > 0 := by omega
  unfold gst_synap_infer_transform_ip
  simp only [h0, if_false]
  generalize hs : (if s.frame_counter = 0 then
    { s with frame_counter := s.frame_interval } else s) = s2
  have hmode : s2.postproc_mode = s.postproc_mode := by
    rw [← hs]; split_ifs <;> rfl
  rw [← hmode] at hfail
  by_cases h1 : env.raw_ok = true
  · by_cases h2 : env.image_empty = true
    · simp [h1, h2]
    · by_cases h3 : env.assign_ok = true
      · by_cases h4 : env.predict_ok = true
        · rcases hfail with hf | hf | ⟨hc, hf⟩ | ⟨hd, hf⟩
          · simp [h3] at hf
          · simp [h4] at hf
          · by_cases hr : env.result = NULL <;>
              simp [h1, h2, h3, h4, hc, hf, hr, gst_synap_infer_postproc_classifier]
          · by_cases hr : env.result = NULL <;>
              simp [h1, h2, h3, h4, hd, hf, hr, gst_synap_infer_postproc_detector]
        · simp [h1, h2, h3, h4]
      · simp [h1, h2, h3]
  · simp [h1]

/-- C17 at a concrete frame: a classifier stage, counter at zero, `predict` failing. -/
theorem transform_ip_failure_witness :
    ({ GstSynapInfer.sample_classifier with frame_counter := 0 } : GstSynapInfer).frame_counter
      ≤ 0 ∧
    ({ InferEnv.sample 1 with predict_ok := false } : InferEnv).predict_ok = false ∧
    (gst_synap_infer_transform_ip { GstSynapInfer.sample_classifier with frame_counter := 0 }
      { InferEnv.sample 1 with predict_ok := false } GstBuffer.plain).ret
      = GST_FLOW_ERROR ∧
    (gst_synap_infer_transform_ip { GstSynapInfer.sample_classifier with frame_counter := 0 }
      { InferEnv.sample 1 with predict_ok := false } GstBuffer.plain).buf
      = GstBuffer.plain :=
  ⟨le_refl _, rfl,
    transform_ip_failure { GstSynapInfer.sample_classifier with frame_counter := 0 }
      { InferEnv.sample 1 with predict_ok := false } GstBuffer.plain (le_refl _)
      (Or.inr (Or.inl rfl))⟩

/-- After any property writes on a new instance and `gst_synap_infer_start`, the output
mode is overlay or JSON, and it is JSON exactly when the `output` string is `"json"`. -/
theorem start_outputmode (props : List InferProperty) (env : StartEnv) :
    ((gst_synap_infer_start (set_properties gst_synap_infer_init props) env).2 = true →
      ((gst_synap_infer_start (set_properties gst_synap_infer_init props) env).1.outputmode
          = GST_SYNAP_OUTPUT_MODE_JSON ↔
        (set_properties gst_synap_infer_init props).output = some "json") ∧
      ((gst_synap_infer_start (set_properties gst_synap_infer_init props) env).1.outputmode
          = GST_SYNAP_OUTPUT_MODE_OVERLAY ↔
        (set_properties gst_synap_infer_init props).output ≠ some "json")) := by
  have hinit : ∀ (ps : List InferProperty) (s : GstSynapInfer),
      s.outputmode = GST_SYNAP_OUTPUT_MODE_OVERLAY →
      (set_properties s ps).outputmode = GST_SYNAP_OUTPUT_MODE_OVERLAY := by
    intro ps
    induction ps with
    | nil => intro s h; exact h
    | cons p rest ih =>
      intro s h
      simp only [set_properties, List.foldl_cons] at ih ⊢
      apply ih
      cases p with
      | PROP_MODEL v => cases v <;> exact h
      | PROP_MODE v => cases v <;> exact h
      | PROP_OUTPUT v => cases v <;> exact h
      | PROP_CONFIDENCE_THRESHOLD v => exact h
      | PROP_NUM_INFERENCE v => exact h
      | PROP_FRAME_INTERVAL v => exact h
  have h0 := hinit props gst_synap_infer_init rfl
  generalize set_properties gst_synap_infer_init props = s at h0 ⊢
  intro hok
  have hpar : (gst_synap_infer_start s env).1.outputmode
      = (gst_synap_infer_start_parameters s).outputmode := by
    unfold gst_synap_infer_start at hok ⊢
    cases hmodel : s.model with
    | none => rw [hmodel] at hok; simp at hok
    | some model =>
      simp only []
      generalize gst_synap_infer_start_parameters s = s2
      split_ifs <;> rfl
  rw [hpar]
  unfold gst_synap_infer_start_parameters
  rcases hm : s.mode with _ | m <;> rcases ho : s.output with _ | o <;> simp only []
  · simp [ho, h0]
  · simp only [ho]; split_ifs with h1 h2 <;> simp_all
  · split_ifs <;> simp [ho, h0]
  · split_ifs <;> simp only [ho] <;> split_ifs <;> simp_all

/-- C18: exactly one publication path. On an instance configured by any property writes
(the `output` string unset, `"overlay"`, `"json"` or anything else) and started, for a
frame whose classifier or detector post-processing succeeds (the payload is allocated,
`success` is true, and GStreamer creates the custom meta registered by
`gst_synap_infer_init` with its structure), exactly one of the two paths is taken: (a)
the typed Envelope is attached by `gst_buffer_add_synap_meta` and not deleted, which
happens exactly when `output` is not `"json"`, or (b) the textual serialisation is
attached and the payload is deleted, which happens exactly when `output` is `"json"`. -/
theorem exactly_one_publication_path (props : List InferProperty) (senv : StartEnv)
    (env : InferEnv) (buf : GstBuffer)
    (hstart : (gst_synap_infer_start (set_properties gst_synap_infer_init props) senv).2
      = true)
    (hresult : env.result ≠ NULL)
    (hmeta : env.custom_meta_ok = true) (hstructure : env.structure_ok = true) :
    (env.classifier_out.success = true →
      (gst_synap_infer_postproc_classifier
        (gst_synap_infer_start (set_properties gst_synap_infer_init props) senv).1
        env buf).2.2 = true ∧
      typed_path buf
        (gst_synap_infer_postproc_classifier
          (gst_synap_infer_start (set_properties gst_synap_infer_init props) senv).1
          env buf).1
        (gst_synap_infer_postproc_classifier
          (gst_synap_infer_start (set_properties gst_synap_infer_init props) senv).1
          env buf).2.1
        { postproc_mode :=
            (gst_synap_infer_start (set_properties gst_synap_infer_init props)
              senv).1.postproc_mode
          data := env.result
          width :=
            (gst_synap_infer_start (set_properties gst_synap_infer_init props)
              senv).1.videoinfo.width
          height :=
            (gst_synap_infer_start (set_properties gst_synap_infer_init props)
              senv).1.videoinfo.height
          confthreshold :=
            (gst_synap_infer_start (set_properties gst_synap_infer_init props)
              senv).1.confthreshold }
        = decide ((set_properties gst_synap_infer_init props).output ≠ some "json") ∧
      textual_path buf
        (gst_synap_infer_postproc_classifier
          (gst_synap_infer_start (set_properties gst_synap_infer_init props) senv).1
          env buf).1
        (gst_synap_infer_postproc_classifier
          (gst_synap_infer_start (set_properties gst_synap_infer_init props) senv).1
          env buf).2.1
        env.result (.classifier env.classifier_out)
        = decide ((set_properties gst_synap_infer_init props).output = some "json")) ∧
    (env.detector_out.success = true →
      (gst_synap_infer_postproc_detector
        (gst_synap_infer_start (set_properties gst_synap_infer_init props) senv).1
        env buf).2.2 = true ∧
      typed_path buf
        (gst_synap_infer_postproc_detector
          (gst_synap_infer_start (set_properties gst_synap_infer_init props) senv).1
          env buf).1
        (gst_synap_infer_postproc_detector
          (gst_synap_infer_start (set_properties gst_synap_infer_init props) senv).1
          env buf).2.1
        { postproc_mode :=
            (gst_synap_infer_start (set_properties gst_synap_infer_init props)
              senv).1.postproc_mode
          data := env.result
          width :=
            (gst_synap_infer_start (set_properties gst_synap_infer_init props)
              senv).1.videoinfo.width
          height :=
            (gst_synap_infer_start (set_properties gst_synap_infer_init props)
              senv).1.videoinfo.height
          confthreshold :=
            (gst_synap_infer_start (set_properties gst_synap_infer_init props)
              senv).1.confthreshold }
        = decide ((set_properties gst_synap_infer_init props).output ≠ some "json") ∧
      textual_path buf
        (gst_synap_infer_postproc_detector
          (gst_synap_infer_start (set_properties gst_synap_infer_init props) senv).1
          env buf).1
        (gst_synap_infer_postproc_detector
          (gst_synap_infer_start (set_properties gst_synap_infer_init props) senv).1
          env buf).2.1
        env.result (.detector env.detector_out)
        = decide ((set_properties gst_synap_infer_init props).output = some "json")) := by
  have hmode := start_outputmode props senv hstart
  generalize (gst_synap_infer_start (set_properties gst_synap_infer_init props) senv).1 = s
    at hmode ⊢
  generalize (set_properties gst_synap_infer_init props).output = out at hmode ⊢
  by_cases hjson : out = some "json"
  · have hj : s.outputmode = GST_SYNAP_OUTPUT_MODE_JSON := hmode.1.2 hjson
    constructor
    · intro hs
      simp [gst_synap_infer_postproc_classifier, typed_path, textual_path, add_str_meta,
        gst_buffer_add_synap_meta, hresult, hmeta, hstructure, hs, hj, hjson]
    · intro hs
      simp [gst_synap_infer_postproc_detector, typed_path, textual_path, add_str_meta,
        gst_buffer_add_synap_meta, hresult, hmeta, hstructure, hs, hj, hjson]
  · have ho : s.outputmode = GST_SYNAP_OUTPUT_MODE_OVERLAY := hmode.2.2 hjson
    constructor
    · intro hs
      simp [gst_synap_infer_postproc_classifier, typed_path, textual_path, add_str_meta,
        gst_buffer_add_synap_meta, hresult, hs, ho, hjson]
    · intro hs
      simp [gst_synap_infer_postproc_detector, typed_path, textual_path, add_str_meta,
        gst_buffer_add_synap_meta, hresult, hs, ho, hjson]

/-- C18 at a concrete frame: a classifier stage started with `output` = `"json"`; the
textual path is taken, the typed path is not. -/
theorem exactly_one_publication_path_witness :
    (gst_synap_infer_start
      (set_properties gst_synap_infer_init
        [.PROP_MODEL (some "model.synap"), .PROP_MODE (some "classifier"),
         .PROP_OUTPUT (some "json")]) StartEnv.sample).2 = true ∧
    (InferEnv.sample 1).result ≠ NULL ∧
    (InferEnv.sample 1).custom_meta_ok = true ∧
    (InferEnv.sample 1).structure_ok = true ∧
    (InferEnv.sample 1).classifier_out.success = true ∧
    (gst_synap_infer_postproc_classifier
      (gst_synap_infer_start
        (set_properties gst_synap_infer_init
          [.PROP_MODEL (some "model.synap"), .PROP_MODE (some "classifier"),
           .PROP_OUTPUT (some "json")]) StartEnv.sample).1
      (InferEnv.sample 1) GstBuffer.plain).2.2 = true ∧
    textual_path GstBuffer.plain
      (gst_synap_infer_postproc_classifier
        (gst_synap_infer_start
          (set_properties gst_synap_infer_init
            [.PROP_MODEL (some "model.synap"), .PROP_MODE (some "classifier"),
             .PROP_OUTPUT (some "json")]) StartEnv.sample).1
        (InferEnv.sample 1) GstBuffer.plain).1
      (gst_synap_infer_postproc_classifier
        (gst_synap_infer_start
          (set_properties gst_synap_infer_init
            [.PROP_MODEL (some "model.synap"), .PROP_MODE (some "classifier"),
             .PROP_OUTPUT (some "json")]) StartEnv.sample).1
        (InferEnv.sample 1) GstBuffer.plain).2.1
      (InferEnv.sample 1).result (.classifier (InferEnv.sample 1).classifier_out)
      = true :=
  ⟨by decide, by decide, rfl, rfl, rfl,
    ((exactly_one_publication_path
      [.PROP_MODEL (some "model.synap"), .PROP_MODE (some "classifier"),
       .PROP_OUTPUT (some "json")] StartEnv.sample (InferEnv.sample 1) GstBuffer.plain
      (by decide) (by decide) rfl rfl).1 rfl).1,
    ((exactly_one_publication_path
      [.PROP_MODEL (some "model.synap"), .PROP_MODE (some "classifier"),
       .PROP_OUTPUT (some "json")] StartEnv.sample (InferEnv.sample 1) GstBuffer.plain
      (by decide) (by decide) rfl rfl).1 rfl).2.2⟩

/-- C19: configuration errors refuse start. `gst_synap_infer_start` returns `FALSE`
whenever no model path is configured and whenever the model fails to load, and
`gst_synap_overlay_start` returns `FALSE` whenever a label path is configured and the
label file cannot be initialised; in every other case, the `new` expressions yielding
objects, both return `TRUE`: the inference stage starts exactly when a model path is
configured and the model loads, the overlay stage exactly when no label path is
configured or the label file initialises. -/
theorem start_refuses_configuration_errors (s : GstSynapInfer) (env : StartEnv)
    (ov : GstSynapOverlay) (labelinfo : gpointer) (init_ok : Bool)
    (hnetwork : env.network ≠ NULL) (hpreprocessor : env.preprocessor ≠ NULL)
    (hclassifier : env.classifier ≠ NULL) (hdetector : env.detector ≠ NULL)
    (hlabelinfo : labelinfo ≠ NULL) :
    (s.model = none → (gst_synap_infer_start s env).2 = false) ∧
    (env.load_model_ok = false → (gst_synap_infer_start s env).2 = false) ∧
    ((gst_synap_infer_start s env).2 = true ↔
      (s.model ≠ none ∧ env.load_model_ok = true)) ∧
    (ov.label ≠ none → init_ok = false →
      (gst_synap_overlay_start ov labelinfo init_ok).2 = false) ∧
    ((gst_synap_overlay_start ov labelinfo init_ok).2 = true ↔
      (ov.label = none ∨ init_ok = true)) := by
  have hinfer : (gst_synap_infer_start s env).2 = true ↔
      (s.model ≠ none ∧ env.load_model_ok = true) := by
    unfold gst_synap_infer_start
    cases s.model with
    | none => simp
    | some model =>
      simp only []
      generalize gst_synap_infer_start_parameters s = s2
      by_cases hl : env.load_model_ok = true <;> split_ifs <;> simp_all
  have hoverlay : (gst_synap_overlay_start ov labelinfo init_ok).2 = true ↔
      (ov.label = none ∨ init_ok = true) := by
    unfold gst_synap_overlay_start
    cases ov.label with
    | none => simp
    | some l => cases init_ok <;> simp [hlabelinfo]
  refine ⟨?_, ?_, hinfer, ?_, hoverlay⟩
  · intro h
    cases hr : (gst_synap_infer_start s env).2
    · rfl
    · exact absurd h (hinfer.1 hr).1
  · intro h
    cases hr : (gst_synap_infer_start s env).2
    · rfl
    · rw [(hinfer.1 hr).2] at h; exact absurd h (by decide)
  · intro hl hi
    cases hr : (gst_synap_overlay_start ov labelinfo init_ok).2
    · rfl
    · rcases hoverlay.1 hr with h | h
      · exact absurd h hl
      · rw [h] at hi; exact absurd hi (by decide)

/-- C19 at a concrete configuration: a new inference stage without a model path is
refused, and an overlay stage whose label file fails to initialise is refused. -/
theorem start_refuses_configuration_errors_witness :
    StartEnv.sample.network ≠ NULL ∧ StartEnv.sample.preprocessor ≠ NULL ∧
    StartEnv.sample.classifier ≠ NULL ∧ StartEnv.sample.detector ≠ NULL ∧
    (5 : gpointer) ≠ NULL ∧
    (gst_synap_infer_start gst_synap_infer_init StartEnv.sample).2 = false ∧
    (gst_synap_overlay_start
      (gst_synap_overlay_set_property gst_synap_overlay_init (some "labels.json"))
      5 false).2 = false :=
  ⟨by decide, by decide, by decide, by decide, by decide,
    (start_refuses_configuration_errors gst_synap_infer_init StartEnv.sample
      (gst_synap_overlay_set_property gst_synap_overlay_init (some "labels.json")) 5 false
      (by decide) (by decide) (by decide) (by decide) (by decide)).1 rfl,
    (start_refuses_configuration_errors gst_synap_infer_init StartEnv.sample
      (gst_synap_overlay_set_property gst_synap_overlay_init (some "labels.json")) 5 false
      (by decide) (by decide) (by decide) (by decide) (by decide)).2.2.2.1
      (by decide) rfl⟩

/-! ## Claims on the lock -/

/-- Splitting `gst_synap_overlay_render` into its decision and its call changes
nothing: with no publish in between, the interleaved display flow is
`gst_synap_overlay_transform_ip`. -/
theorem overlay_flow_interleaved_nil (ov : GstSynapOverlay) (env : RenderEnv) :
    overlay_flow_interleaved ov env [] = (gst_synap_overlay_transform_ip ov env, []) := by
  unfold overlay_flow_interleaved gst_synap_overlay_transform_ip gst_synap_overlay_render
    gst_synap_overlay_render_dispatch
  by_cases h : ov.overlaydata = NULL
  · simp [h, publish_all]
  · simp only [h, ne_eq, not_false_eq_true, if_true, publish_all]
    cases cairo_format_of ov.videoinfo.format with
    | none => simp [gst_synap_overlay_render_call]
    | some format => simp only []; split_ifs <;> simp [gst_synap_overlay_render_call]

/-- C20: lock coverage as the code has it. The null check of
`gst_synap_overlay_transform_ip` and the kind dispatch of `gst_synap_overlay_render` are
made before any `g_mutex_lock`, so a publish can run between them and the locked part of
the drawing routine: when the mailbox holds a classifier Envelope and the inference
flow publishes an Envelope `m` at that point, the display flow runs the classification
routine (the kind of the earlier publication) on the mailbox of the later publication
(kind, payload, width, height and threshold of `m`), after the payload that passed the
null check was disposed. The claim asks that no interleaving allows this. -/
theorem overlay_flow_mixed_publication (ov : GstSynapOverlay) (env : RenderEnv)
    (m : GstSynapMeta) (format : cairo_format_t)
    (hformat : cairo_format_of ov.videoinfo.format = some format)
    (hmode : ov.mode = GST_SYNAP_POSTPROCESSING_MODE_CLASSIFIER)
    (hdata : ov.overlaydata ≠ NULL) (hm : m.data ≠ NULL) :
    overlay_flow_interleaved ov env [envelope_buffer m] =
      ((gst_synap_overlay_render_classification
          { ov with overlaydata := m.data, mode := m.postproc_mode, width := m.width,
                    height := m.height, confthreshold := m.confthreshold,
                    data_lock := false } env format).map
        (fun r => { synapoverlay := r.synapoverlay, calls := r.calls, ret := GST_FLOW_OK }),
       [.delete_classifier_result ov.overlaydata]) := by
  have hstate := sink_chain_envelope ov m hm
  have hcalls : (gst_synap_overlay_inference_sink_chain ov (envelope_buffer m)).2.1
      = [.delete_classifier_result ov.overlaydata] := by
    simp [gst_synap_overlay_inference_sink_chain, envelope_buffer,
      gst_buffer_add_synap_meta, gst_buffer_get_synap_meta, GstBuffer.plain, hm, hdata,
      hmode]
  simp only [overlay_flow_interleaved, hdata, ne_eq, not_false_eq_true, if_true,
    gst_synap_overlay_render_dispatch, hformat, hmode, publish_all, hstate, hcalls,
    List.append_nil, gst_synap_overlay_render_call]

/-- C20 at the failing interleaving: the mailbox holds a classifier Envelope (payload at
address 1, threshold 11.0); between the kind dispatch and the lock a detector Envelope
(payload at address 2, 640 x 480, threshold 0.5) is published. Payload 1 is deleted, and
the classification routine reads the detector payload at address 2 as a classification
and draws a label from it, against the detector threshold. -/
theorem overlay_flow_mixed_publication_witness :
    overlay_flow_interleaved
        (GstSynapOverlay.sample GST_SYNAP_POSTPROCESSING_MODE_CLASSIFIER (.fin 11))
        RenderEnv.sample
        [envelope_buffer { postproc_mode := GST_SYNAP_POSTPROCESSING_MODE_DETECTOR,
                           data := 2, width := 640, height := 480,
                           confthreshold := .fin (1 / 2) }] =
      (some { synapoverlay :=
                { GstSynapOverlay.sample GST_SYNAP_POSTPROCESSING_MODE_DETECTOR
                    (.fin (1 / 2)) with overlaydata := 2, width := 640, height := 480 }
              calls :=
                [.image_surface_create_for_data .CAIRO_FORMAT_ARGB32 1920 1080, .create,
                 .select_font_face_sans_bold, .set_font_size 35, .move_to 10 35,
                 .text_path_label 7, .set_source_rgb 1 1 1, .fill_preserve,
                 .set_source_rgb 1 1 1, .set_line_width (3 / 10), .stroke,
                 .fill_preserve, .destroy, .surface_destroy]
              ret := GST_FLOW_OK },
       [.delete_classifier_result 1]) := by
  rw [overlay_flow_mixed_publication
    (GstSynapOverlay.sample GST_SYNAP_POSTPROCESSING_MODE_CLASSIFIER (.fin 11))
    RenderEnv.sample
    { postproc_mode := GST_SYNAP_POSTPROCESSING_MODE_DETECTOR, data := 2, width := 640,
      height := 480, confthreshold := .fin (1 / 2) }
    .CAIRO_FORMAT_ARGB32 rfl rfl (by decide) (by decide)]
  norm_num [gst_synap_overlay_render_classification, GstSynapOverlay.sample,
    RenderEnv.sample, gfloat.gt, NULL, classification_text]
  exact ⟨_, rfl, rfl⟩

/-! ## Claims on the decimation step and the counter -/

/-- C21: decimator step. From a state with counter above zero, one call of
`gst_synap_infer_transform_ip` decrements the counter by exactly 1 and changes nothing
else, returns `GST_BASE_TRANSFORM_FLOW_DROPPED`, calls none of the collaborators (no
inference) and returns the buffer as it came (no Envelope); from a state with counter
zero, the call sets the counter to `frame_interval`, is not answered with
`GST_BASE_TRANSFORM_FLOW_DROPPED`, and runs `predict` whenever the buffer maps, the
image is not empty and `assign` succeeds. -/
theorem decimator_step (s : GstSynapInfer) (env : InferEnv) (buf : GstBuffer) :
    (0 < s.frame_counter →
      gst_synap_infer_transform_ip s env buf =
        { synapinfer := { s with frame_counter := s.frame_counter - 1 }, buf := buf,
          calls := [], ret := GST_BASE_TRANSFORM_FLOW_DROPPED }) ∧
    (s.frame_counter = 0 →
      (gst_synap_infer_transform_ip s env buf).synapinfer
        = { s with frame_counter := s.frame_interval } ∧
      (gst_synap_infer_transform_ip s env buf).ret ≠ GST_BASE_TRANSFORM_FLOW_DROPPED ∧
      (env.raw_ok = true → env.image_empty = false → env.assign_ok = true →
        InferCall.predict ∈ (gst_synap_infer_transform_ip s env buf).calls)) := by
  constructor
  · intro h
    simp [gst_synap_infer_transform_ip, h]
  · intro h
    unfold gst_synap_infer_transform_ip
    simp only [h, lt_self_iff_false, if_false, if_true]
    refine ⟨?_, ?_, ?_⟩
    · split_ifs <;> rfl
    · split_ifs <;> simp
    · intro h1 h2 h3
      simp only [h1, h2, h3, Bool.not_true, Bool.false_eq_true, if_false]
      split_ifs <;> simp

/-- Counter bound of the decimator from any counter value `c ≤ k`: after every frame of a
run the counter is between 0 and `k`. -/
theorem counter_bound_from (k : ℕ) (frames : List (InferEnv × GstBuffer)) :
    ∀ (c : ℕ) (s : GstSynapInfer), c ≤ k → s.frame_counter = (c : Int) →
      s.frame_interval = (k : Int) →
      ∀ r ∈ (run_frames s frames).2,
        0 ≤ r.synapinfer.frame_counter ∧ r.synapinfer.frame_counter ≤ (k : Int) := by
  induction frames with
  | nil => intro c s _ _ _ r hr; simp [run_frames] at hr
  | cons f rest ih =>
    intro c s hc hcnt hint r hr
    obtain ⟨env, buf⟩ := f
    simp only [run_frames, List.mem_cons] at hr
    rcases Nat.eq_zero_or_pos c with h0 | hpos
    · subst h0
      have ht := transform_ip_take s env buf (by simpa using hcnt)
      rcases hr with hr | hr
      · subst hr
        rw [ht.2.1, hint]
        exact ⟨Int.natCast_nonneg k, le_refl _⟩
      · exact ih k (gst_synap_infer_transform_ip s env buf).synapinfer le_rfl
          (by rw [ht.2.1, hint]) (by rw [ht.2.2, hint]) r hr
    · have hs := transform_ip_skip s env buf (by rw [hcnt]; exact_mod_cast hpos)
      rcases hr with hr | hr
      · subst hr
        rw [hs.2.1, hcnt]
        omega
      · exact ih (c - 1) (gst_synap_infer_transform_ip s env buf).synapinfer (by omega)
          (by rw [hs.2.1, hcnt]; omega) (by rw [hs.2.2, hint]) r hr

/-- C26: counter bound. After `frameinterval` `k ≥ 0` is written through the property,
the counter is `k`, and after every frame of every run it is within `0 ≤ counter ≤ k`;
and between two consecutive processed frames exactly `k` frames are skipped: when a
frame proceeds, the next `k` frames are dropped and the frame after them proceeds. -/
theorem decimator_counter_bound (s : GstSynapInfer) (k : ℕ)
    (frames : List (InferEnv × GstBuffer)) :
    (gst_synap_infer_set_property s (.PROP_FRAME_INTERVAL k)).frame_counter = (k : Int) ∧
    (∀ r ∈ (run_frames (gst_synap_infer_set_property s (.PROP_FRAME_INTERVAL k))
        frames).2,
      0 ≤ r.synapinfer.frame_counter ∧ r.synapinfer.frame_counter ≤ (k : Int)) ∧
    (∀ (i : ℕ) (r : InferStep),
      (run_frames (gst_synap_infer_set_property s (.PROP_FRAME_INTERVAL k))
        frames).2[i]? = some r →
      proceeds r = true →
      (∀ (d : ℕ) (r2 : InferStep), 1 ≤ d → d ≤ k →
        (run_frames (gst_synap_infer_set_property s (.PROP_FRAME_INTERVAL k))
          frames).2[i + d]? = some r2 →
        proceeds r2 = false) ∧
      (∀ r2 : InferStep,
        (run_frames (gst_synap_infer_set_property s (.PROP_FRAME_INTERVAL k))
          frames).2[i + k + 1]? = some r2 →
        proceeds r2 = true)) := by
  refine ⟨rfl,
    counter_bound_from k frames k
      (gst_synap_infer_set_property s (.PROP_FRAME_INTERVAL k)) le_rfl rfl rfl, ?_⟩
  intro i r hr hp
  have hpos := fun (j : ℕ) (x : InferStep) hx => proceeds_at_from k frames k
    (gst_synap_infer_set_property s (.PROP_FRAME_INTERVAL k)) j x le_rfl rfl rfl hx
  have hi : (i + 1) % (k + 1) = 0 := by
    have := (hpos i r hr).1 hp
    rwa [show i + (k + 1 - k) = i + 1 by omega] at this
  constructor
  · intro d r2 hd1 hdk hr2
    cases hp2 : proceeds r2
    · rfl
    · have := (hpos (i + d) r2 hr2).1 hp2
      rw [show i + d + (k + 1 - k) = (i + 1) + d by omega, Nat.add_mod, hi, Nat.zero_add,
        Nat.mod_mod, Nat.mod_eq_of_lt (by omega)] at this
      omega
  · intro r2 hr2
    apply (hpos (i + k + 1) r2 hr2).2
    rw [show i + k + 1 + (k + 1 - k) = (i + 1) + (k + 1) by omega, Nat.add_mod_right]
    exact hi

/-! ## Claims on the detection renderer -/

/-- Within the range of `gint` and with non-negative operands the rescaling expression is
the integer quotient `coord * frameDim / modelDim`. -/
theorem rescale_exact (coord frameDim modelDim : Int) (hc : 0 ≤ coord) (hf : 0 ≤ frameDim)
    (hm : 0 < modelDim) (h : coord * frameDim ≤ G_MAXINT) :
    rescale coord frameDim modelDim = coord * frameDim / modelDim := by
  have hprod : 0 ≤ coord * frameDim := mul_nonneg hc hf
  unfold rescale
  rw [wrap32_of_range _ hprod h, Int.tdiv_eq_ediv hprod (le_of_lt hm)]
  apply wrap32_of_range
  · exact Int.ediv_nonneg hprod (le_of_lt hm)
  · exact le_trans (Int.ediv_le_self _ hprod) h

/-- The box branch of the item loop, written out: the rectangle at the rescaled box, and
the label at its corner when a label file is loaded. -/
theorem render_box_calls (ov : GstSynapOverlay) (frame : GstVideoInfo) (item : DetectorItem)
    (hlabel : ov.label ≠ none → ov.labelinfo ≠ NULL) :
    render_box ov frame item = some
      (.rectangle (rescale item.bounding_box.origin.x frame.width ov.width)
          (rescale item.bounding_box.origin.y frame.height ov.height)
          (rescale item.bounding_box.size.x frame.width ov.width)
          (rescale item.bounding_box.size.y frame.height ov.height) ::
        ([.set_source_rgb 1 0 0, .set_line_width (3 / 2), .stroke, .fill_preserve] ++
          if ov.label ≠ none then
            [.move_to (rescale item.bounding_box.origin.x frame.width ov.width + 5)
               (rescale item.bounding_box.origin.y frame.height ov.height + 25),
             .text_path_label item.class_index, .set_source_rgb 1 0 0, .fill_preserve,
             .set_source_rgb 1 1 1, .set_line_width (3 / 10), .stroke, .fill_preserve]
          else [])) := by
  unfold render_box box_geometry
  by_cases hl : ov.label = none
  · simp [hl]
  · simp [hl, hlabel hl]

/-- C22: box rescale formula and its inputs. After the overlay stage negotiated the
display size `info` and the mailbox took the Envelope `m`, a detection that is not a
pose is drawn as the rectangle
`(originX * frameW / modelW, originY * frameH / modelH, sizeX * frameW / modelW,
sizeY * frameH / modelH)` in `gint` arithmetic, where `frameW`, `frameH` are the width
and height of `info` and `modelW`, `modelH` the width and height recorded in `m`; no
other rectangle is drawn for it; the rectangle is the same for any instance and frame
with these four dimensions; and for non-negative operands within the range of `gint`
each component is the integer quotient. -/
theorem box_rescale_formula (ov : GstSynapOverlay) (info : GstVideoInfo) (m : GstSynapMeta)
    (item : DetectorItem) (hm : m.data ≠ NULL)
    (hbox : item.landmarks.length ≠ GST_SYNAP_POSE_SIZE)
    (hlabel : ov.label ≠ none → ov.labelinfo ≠ NULL) :
    (∃ rest,
      render_item
          (gst_synap_overlay_inference_sink_chain
            (gst_synap_overlay_set_caps ov (some info)).1 (envelope_buffer m)).1
          (gst_synap_overlay_inference_sink_chain
            (gst_synap_overlay_set_caps ov (some info)).1 (envelope_buffer m)).1.videoinfo
          item
        = some (.rectangle (rescale item.bounding_box.origin.x info.width m.width)
                  (rescale item.bounding_box.origin.y info.height m.height)
                  (rescale item.bounding_box.size.x info.width m.width)
                  (rescale item.bounding_box.size.y info.height m.height) :: rest) ∧
      rest.filter CairoCall.is_rectangle = []) ∧
    (∀ (ov2 : GstSynapOverlay) (frame2 : GstVideoInfo),
      ov2.width = m.width → ov2.height = m.height →
      frame2.width = info.width → frame2.height = info.height →
      box_geometry ov2 frame2 item.bounding_box
        = (rescale item.bounding_box.origin.x info.width m.width,
           rescale item.bounding_box.origin.y info.height m.height,
           rescale item.bounding_box.size.x info.width m.width,
           rescale item.bounding_box.size.y info.height m.height)) ∧
    (∀ coord frameDim modelDim : Int, 0 ≤ coord → 0 ≤ frameDim → 0 < modelDim →
      coord * frameDim ≤ G_MAXINT →
      rescale coord frameDim modelDim = coord * frameDim / modelDim) := by
  refine ⟨?_, ?_, fun c f md hc hf hmd h => rescale_exact c f md hc hf hmd h⟩
  · rw [sink_chain_envelope _ m hm]
    simp only [render_item, gst_synap_overlay_set_caps, hbox, if_false]
    rw [render_box_calls _ _ _ (by simpa using hlabel)]
    refine ⟨_, rfl, ?_⟩
    by_cases hl : ov.label = none
    · simp [hl, List.filter_cons, CairoCall.is_rectangle]
    · simp [hl, List.filter_cons, CairoCall.is_rectangle]
  · intro ov2 frame2 h1 h2 h3 h4
    simp only [box_geometry, h1, h2, h3, h4]

/-- C22 at a concrete input: a 1920 x 1080 display stream, an Envelope from a 224 x 224
model, the box at `(56, 28)` of size `112 x 84`; the rectangle is
`(480, 135, 960, 405)`. -/
theorem box_rescale_formula_witness :
    (2 : gpointer) ≠ NULL ∧
    DetectorItem.sample_box.landmarks.length ≠ GST_SYNAP_POSE_SIZE ∧
    render_item
        (gst_synap_overlay_inference_sink_chain
          (gst_synap_overlay_set_caps gst_synap_overlay_init
            (some { format := .GST_VIDEO_FORMAT_BGRA, width := 1920, height := 1080 })).1
          (envelope_buffer { postproc_mode := GST_SYNAP_POSTPROCESSING_MODE_DETECTOR,
                             data := 2, width := 224, height := 224,
                             confthreshold := .fin (1 / 2) })).1
        { format := .GST_VIDEO_FORMAT_BGRA, width := 1920, height := 1080 }
        DetectorItem.sample_box
      = some [.rectangle 480 135 960 405, .set_source_rgb 1 0 0, .set_line_width (3 / 2),
              .stroke, .fill_preserve] ∧
    ∃ rest,
      render_item
          (gst_synap_overlay_inference_sink_chain
            (gst_synap_overlay_set_caps gst_synap_overlay_init
              (some { format := .GST_VIDEO_FORMAT_BGRA, width := 1920, height := 1080 })).1
            (envelope_buffer { postproc_mode := GST_SYNAP_POSTPROCESSING_MODE_DETECTOR,
                               data := 2, width := 224, height := 224,
                               confthreshold := .fin (1 / 2) })).1
          (gst_synap_overlay_inference_sink_chain
            (gst_synap_overlay_set_caps gst_synap_overlay_init
              (some { format := .GST_VIDEO_FORMAT_BGRA, width := 1920, height := 1080 })).1
            (envelope_buffer { postproc_mode := GST_SYNAP_POSTPROCESSING_MODE_DETECTOR,
                               data := 2, width := 224, height := 224,
                               confthreshold := .fin (1 / 2) })).1.videoinfo
          DetectorItem.sample_box
        = some (.rectangle (rescale 56 1920 224) (rescale 28 1080 224)
                  (rescale 112 1920 224) (rescale 84 1080 224) :: rest) ∧
      rest.filter CairoCall.is_rectangle = [] :=
  ⟨by decide, by decide,
    by
      simp only [render_item, render_box, box_geometry, gst_synap_overlay_inference_sink_chain,
        gst_synap_overlay_set_caps, envelope_buffer, gst_buffer_add_synap_meta,
        gst_buffer_get_synap_meta, GstBuffer.plain, gst_synap_overlay_init,
        DetectorItem.sample_box, GST_SYNAP_POSE_SIZE, NULL]
      have h1 : rescale 56 1920 224 = 480 := by decide
      have h2 : rescale 28 1080 224 = 135 := by decide
      have h3 : rescale 112 1920 224 = 960 := by decide
      have h4 : rescale 84 1080 224 = 405 := by decide
      simp [h1, h2, h3, h4],
    (box_rescale_formula gst_synap_overlay_init
      { format := .GST_VIDEO_FORMAT_BGRA, width := 1920, height := 1080 }
      { postproc_mode := GST_SYNAP_POSTPROCESSING_MODE_DETECTOR, data := 2, width := 224,
        height := 224, confthreshold := .fin (1 / 2) }
      DetectorItem.sample_box (by decide) (by decide) (by decide)).1⟩

/-- The pose lines over index pairs within the landmark list are defined, and none of
their calls is of a kind that no move, line or stroke belongs to. -/
theorem render_poselines_filter (ov : GstSynapOverlay) (frame : GstVideoInfo)
    (landmarks : List Landmark) (p : CairoCall → Bool)
    (hmove : ∀ x y, p (.move_to x y) = false) (hline : ∀ x y, p (.line_to x y) = false)
    (hstroke : p .stroke = false) (edges : List (Nat × Nat)) :
    (∀ q ∈ edges, q.1 < landmarks.length ∧ q.2 < landmarks.length) →
    ∃ lines, render_poselines ov frame landmarks edges = some lines ∧
      lines.filter p = [] := by
  induction edges with
  | nil => intro _; exact ⟨[], rfl, rfl⟩
  | cons q rest ih =>
    intro h
    obtain ⟨s, e⟩ := q
    have hq := h (s, e) (List.mem_cons_self _ _)
    obtain ⟨lines, hl, hf⟩ := ih (fun q hq => h q (List.mem_cons_of_mem _ hq))
    simp only [render_poselines, hl, gst_synap_overlay_render_poseline,
      List.getElem?_eq_getElem hq.1, List.getElem?_eq_getElem hq.2]
    by_cases h1 : landmarks[s].visibility.gt GST_SYNAP_POSE_VISIBILITY_THRESHOLD = true
    · by_cases h2 : landmarks[e].visibility.gt GST_SYNAP_POSE_VISIBILITY_THRESHOLD = true
      · simp only [h1, h2, if_true]
        refine ⟨_, rfl, ?_⟩
        rw [List.filter_append, hf, List.append_nil]
        simp [List.filter_cons, hmove, hline, hstroke]
      · simp only [h1, h2, if_true, Bool.false_eq_true, if_false]
        exact ⟨_, rfl, by rw [List.nil_append]; exact hf⟩
    · simp only [h1, Bool.false_eq_true, if_false]
      exact ⟨_, rfl, by rw [List.nil_append]; exact hf⟩

/-- None of the calls of the dot loop is of a kind that no arc and no fill belongs to. -/
theorem dots_filter (ov : GstSynapOverlay) (frame : GstVideoInfo) (ls : List Landmark)
    (p : CairoCall → Bool) (harc : ∀ x y r, p (.arc x y r) = false)
    (hfill : p .fill = false) :
    ((ls.map fun l =>
        if l.visible then
          [CairoCall.arc (rescale l.x frame.width ov.width)
             (rescale l.y frame.height ov.height) 3, CairoCall.fill]
        else []).flatten).filter p = [] := by
  induction ls with
  | nil => simp
  | cons l rest ih =>
    simp only [List.map_cons, List.flatten_cons, List.filter_append, ih, List.append_nil]
    by_cases hv : l.visible = true
    · simp [hv, List.filter_cons, harc, hfill]
    · simp [hv]

/-- The pose branch on 17 landmarks, written out: the yellow lines of the edge table,
then the green dots of the visible landmarks. -/
theorem render_pose_calls (ov : GstSynapOverlay) (frame : GstVideoInfo)
    (landmarks : List Landmark) (hlen : landmarks.length = GST_SYNAP_POSE_SIZE) :
    ∃ lines, render_poselines ov frame landmarks pose_edges = some lines ∧
      render_dots ov frame landmarks (List.range GST_SYNAP_POSE_SIZE)
        = some ((landmarks.map fun l =>
            if l.visible then
              [CairoCall.arc (rescale l.x frame.width ov.width)
                 (rescale l.y frame.height ov.height) 3, CairoCall.fill]
            else []).flatten) ∧
      render_pose ov frame landmarks
        = some ([CairoCall.set_source_rgb 1 1 0, CairoCall.set_line_width (3 / 2)] ++
            lines ++ [CairoCall.set_source_rgb 0 1 0] ++
            (landmarks.map fun l =>
              if l.visible then
                [CairoCall.arc (rescale l.x frame.width ov.width)
                   (rescale l.y frame.height ov.height) 3, CairoCall.fill]
              else []).flatten) := by
  have hdots := render_dots_segment ov frame landmarks []
  simp only [List.nil_append, List.length_nil, ← List.range_eq_range', hlen] at hdots
  obtain ⟨lines, hl, _⟩ := render_poselines_no_arc ov frame landmarks pose_edges
    (by rw [hlen]; decide)
  exact ⟨lines, hl, hdots, by simp only [render_pose, hl, hdots]⟩

/-- One round of the item loop, by shape: a detection with 17 landmarks gives the pose
calls, with no rectangle and no label; any other detection gives the box calls, with
exactly one rectangle, no line and no dot. -/
theorem render_item_shape (ov : GstSynapOverlay) (frame : GstVideoInfo)
    (item : DetectorItem) (hlabel : ov.label ≠ none → ov.labelinfo ≠ NULL) :
    ∃ calls, render_item ov frame item = some calls ∧
      (item.landmarks.length = GST_SYNAP_POSE_SIZE →
        render_pose ov frame item.landmarks = some calls ∧
        calls.filter CairoCall.is_rectangle = [] ∧
        calls.filter CairoCall.is_text = []) ∧
      (item.landmarks.length ≠ GST_SYNAP_POSE_SIZE →
        render_box ov frame item = some calls ∧
        (calls.filter CairoCall.is_rectangle).length = 1 ∧
        calls.filter CairoCall.is_line_to = [] ∧
        calls.filter CairoCall.is_arc = []) := by
  by_cases h : item.landmarks.length = GST_SYNAP_POSE_SIZE
  · obtain ⟨lines, hl, _, hpose⟩ := render_pose_calls ov frame item.landmarks h
    obtain ⟨lines1, hl1, hr⟩ := render_poselines_filter ov frame item.landmarks
      CairoCall.is_rectangle (fun _ _ => rfl) (fun _ _ => rfl) rfl pose_edges
      (by rw [h]; decide)
    obtain ⟨lines2, hl2, ht⟩ := render_poselines_filter ov frame item.landmarks
      CairoCall.is_text (fun _ _ => rfl) (fun _ _ => rfl) rfl pose_edges
      (by rw [h]; decide)
    have e1 : lines1 = lines := Option.some.inj (hl1.symm.trans hl)
    have e2 : lines2 = lines := Option.some.inj (hl2.symm.trans hl)
    subst e1
    subst e2
    refine ⟨_, by simp only [render_item, h, if_true]; exact hpose, fun _ => ⟨hpose, ?_, ?_⟩,
      fun hne => absurd h hne⟩
    · simp only [List.filter_append, hr,
        dots_filter ov frame item.landmarks CairoCall.is_rectangle (fun _ _ _ => rfl) rfl]
      rfl
    · simp only [List.filter_append, ht,
        dots_filter ov frame item.landmarks CairoCall.is_text (fun _ _ _ => rfl) rfl]
      rfl
  · have hb := render_box_calls ov frame item hlabel
    refine ⟨_, by simp only [render_item, h, if_false]; exact hb,
      fun he => absurd he h, fun _ => ⟨hb, ?_, ?_, ?_⟩⟩
    · by_cases hl : ov.label = none <;>
        simp [hl, List.filter_cons, CairoCall.is_rectangle]
    · by_cases hl : ov.label = none <;>
        simp [hl, List.filter_cons, CairoCall.is_line_to]
    · by_cases hl : ov.label = none <;>
        simp [hl, List.filter_cons, CairoCall.is_arc]

/-- C23: shape discrimination by landmark count. For every detection, the item loop of
`gst_synap_overlay_render_detection` renders it as a skeleton (the pose branch: lines
and dots, no rectangle, no label) when it has exactly 17 landmarks and as a box with
exactly one rectangle (no line, no dot) otherwise, so a detection is rendered as a
skeleton if and only if it has exactly 17 landmarks; and for every list of detections
the number of rectangles drawn is the number of detections whose landmark count is not
17. A label file that is configured is taken to be loaded. -/
theorem shape_by_landmark_count (ov : GstSynapOverlay) (frame : GstVideoInfo)
    (items : List DetectorItem) (hlabel : ov.label ≠ none → ov.labelinfo ≠ NULL) :
    (∀ item : DetectorItem, ∃ calls, render_item ov frame item = some calls ∧
      (item.landmarks.length = GST_SYNAP_POSE_SIZE →
        render_pose ov frame item.landmarks = some calls ∧
        calls.filter CairoCall.is_rectangle = [] ∧
        calls.filter CairoCall.is_text = []) ∧
      (item.landmarks.length ≠ GST_SYNAP_POSE_SIZE →
        render_box ov frame item = some calls ∧
        (calls.filter CairoCall.is_rectangle).length = 1 ∧
        calls.filter CairoCall.is_line_to = [] ∧
        calls.filter CairoCall.is_arc = [])) ∧
    ∃ calls, render_items ov frame items = some calls ∧
      (calls.filter CairoCall.is_rectangle).length
        = (items.filter fun item =>
            decide (item.landmarks.length ≠ GST_SYNAP_POSE_SIZE)).length := by
  refine ⟨fun item => render_item_shape ov frame item hlabel, ?_⟩
  induction items with
  | nil => exact ⟨[], rfl, rfl⟩
  | cons item rest ih =>
    obtain ⟨calls, hc, hn⟩ := ih
    obtain ⟨a, ha, hpose, hbox⟩ := render_item_shape ov frame item hlabel
    refine ⟨a ++ calls, by simp only [render_items, ha, hc], ?_⟩
    rw [List.filter_append, List.length_append, hn]
    by_cases h : item.landmarks.length = GST_SYNAP_POSE_SIZE
    · rw [(hpose h).2.1]
      simp [List.filter_cons, h]
    · rw [(hbox h).2.1]
      simp [List.filter_cons, h]
      omega

/-- C23 at a concrete payload: a box, a pose and a box; two rectangles are drawn. -/
theorem shape_by_landmark_count_witness :
    ∃ calls,
      render_items (GstSynapOverlay.sample GST_SYNAP_POSTPROCESSING_MODE_DETECTOR (.fin (1 / 2)))
        { format := .GST_VIDEO_FORMAT_BGRA, width := 1920, height := 1080 }
        [DetectorItem.sample_box, DetectorItem.sample_pose, DetectorItem.sample_box]
        = some calls ∧
      (calls.filter CairoCall.is_rectangle).length = 2 :=
  (shape_by_landmark_count
    (GstSynapOverlay.sample GST_SYNAP_POSTPROCESSING_MODE_DETECTOR (.fin (1 / 2)))
    { format := .GST_VIDEO_FORMAT_BGRA, width := 1920, height := 1080 }
    [DetectorItem.sample_box, DetectorItem.sample_pose, DetectorItem.sample_box]
    (by decide)).2

/-- With every landmark visible, each index pair within the landmark list gives one
line. -/
theorem render_poselines_all_visible (ov : GstSynapOverlay) (frame : GstVideoInfo)
    (landmarks : List Landmark) (hvis : ∀ l ∈ landmarks, l.visible = true)
    (edges : List (Nat × Nat)) :
    (∀ q ∈ edges, q.1 < landmarks.length ∧ q.2 < landmarks.length) →
    ∃ lines, render_poselines ov frame landmarks edges = some lines ∧
      (lines.filter CairoCall.is_line_to).length = edges.length := by
  induction edges with
  | nil => intro _; exact ⟨[], rfl, rfl⟩
  | cons q rest ih =>
    intro h
    obtain ⟨s, e⟩ := q
    have hq := h (s, e) (List.mem_cons_self _ _)
    obtain ⟨lines, hl, hn⟩ := ih (fun q hq => h q (List.mem_cons_of_mem _ hq))
    have h1 : landmarks[s].visibility.gt GST_SYNAP_POSE_VISIBILITY_THRESHOLD = true :=
      hvis _ (List.getElem_mem hq.1)
    have h2 : landmarks[e].visibility.gt GST_SYNAP_POSE_VISIBILITY_THRESHOLD = true :=
      hvis _ (List.getElem_mem hq.2)
    simp only [render_poselines, hl, gst_synap_overlay_render_poseline,
      List.getElem?_eq_getElem hq.1, List.getElem?_eq_getElem hq.2, h1, h2, if_true]
    refine ⟨_, rfl, ?_⟩
    rw [List.filter_append, List.length_append, hn]
    simp [List.filter_cons, CairoCall.is_line_to]
    omega

/-- C24: skeleton edge table. The index pairs passed to
`gst_synap_overlay_render_poseline` for a pose, in the order of the calls, are the 18
pairs (0,1), (1,3), (3,5), (5,7), (7,9), (5,11), (11,13), (13,15), (0,2), (2,4), (4,6),
(6,8), (8,10), (6,12), (12,14), (14,16), (5,6), (11,12); they are pairwise distinct; the
pose branch on 17 landmarks is the lines of exactly these pairs followed by the dots; and
when all 17 landmarks have visibility above 0.3 exactly 18 lines are drawn. -/
theorem skeleton_edge_table (ov : GstSynapOverlay) (frame : GstVideoInfo)
    (landmarks : List Landmark) (hlen : landmarks.length = GST_SYNAP_POSE_SIZE)
    (hvis : ∀ l ∈ landmarks, l.visibility.gt GST_SYNAP_POSE_VISIBILITY_THRESHOLD = true) :
    pose_edges =
      [(0, 1), (1, 3), (3, 5), (5, 7), (7, 9), (5, 11), (11, 13), (13, 15), (0, 2),
       (2, 4), (4, 6), (6, 8), (8, 10), (6, 12), (12, 14), (14, 16), (5, 6), (11, 12)] ∧
    pose_edges.Nodup ∧ pose_edges.length = 18 ∧
    ∃ lines dots,
      render_poselines ov frame landmarks
        [(0, 1), (1, 3), (3, 5), (5, 7), (7, 9), (5, 11), (11, 13), (13, 15), (0, 2),
         (2, 4), (4, 6), (6, 8), (8, 10), (6, 12), (12, 14), (14, 16), (5, 6), (11, 12)]
        = some lines ∧
      render_dots ov frame landmarks (List.range GST_SYNAP_POSE_SIZE) = some dots ∧
      render_pose ov frame landmarks
        = some ([CairoCall.set_source_rgb 1 1 0, CairoCall.set_line_width (3 / 2)] ++
            lines ++ [CairoCall.set_source_rgb 0 1 0] ++ dots) ∧
      (lines.filter CairoCall.is_line_to).length = 18 ∧
      dots.filter CairoCall.is_line_to = [] := by
  refine ⟨rfl, by decide, rfl, ?_⟩
  obtain ⟨lines, hl, hdots, hpose⟩ := render_pose_calls ov frame landmarks hlen
  obtain ⟨lines1, hl1, hn⟩ := render_poselines_all_visible ov frame landmarks hvis pose_edges
    (by rw [hlen]; decide)
  have e1 : lines1 = lines := Option.some.inj (hl1.symm.trans hl)
  subst e1
  exact ⟨lines1, _, hl, hdots, hpose, hn,
    dots_filter ov frame landmarks CairoCall.is_line_to (fun _ _ _ => rfl) rfl⟩

/-- C24 at a concrete pose: 17 landmarks of visibility 0.9. -/
theorem skeleton_edge_table_witness :
    Landmark.sample_visible_pose.length = GST_SYNAP_POSE_SIZE ∧
    (∀ l ∈ Landmark.sample_visible_pose,
      l.visibility.gt GST_SYNAP_POSE_VISIBILITY_THRESHOLD = true) ∧
    ∃ lines dots,
      render_poselines
        (GstSynapOverlay.sample GST_SYNAP_POSTPROCESSING_MODE_DETECTOR (.fin (1 / 2)))
        { format := .GST_VIDEO_FORMAT_BGRA, width := 1920, height := 1080 }
        Landmark.sample_visible_pose
        [(0, 1), (1, 3), (3, 5), (5, 7), (7, 9), (5, 11), (11, 13), (13, 15), (0, 2),
         (2, 4), (4, 6), (6, 8), (8, 10), (6, 12), (12, 14), (14, 16), (5, 6), (11, 12)]
        = some lines ∧
      render_dots
        (GstSynapOverlay.sample GST_SYNAP_POSTPROCESSING_MODE_DETECTOR (.fin (1 / 2)))
        { format := .GST_VIDEO_FORMAT_BGRA, width := 1920, height := 1080 }
        Landmark.sample_visible_pose (List.range GST_SYNAP_POSE_SIZE) = some dots ∧
      render_pose
        (GstSynapOverlay.sample GST_SYNAP_POSTPROCESSING_MODE_DETECTOR (.fin (1 / 2)))
        { format := .GST_VIDEO_FORMAT_BGRA, width := 1920, height := 1080 }
        Landmark.sample_visible_pose
        = some ([CairoCall.set_source_rgb 1 1 0, CairoCall.set_line_width (3 / 2)] ++
            lines ++ [CairoCall.set_source_rgb 0 1 0] ++ dots) ∧
      (lines.filter CairoCall.is_line_to).length = 18 ∧
      dots.filter CairoCall.is_line_to = [] :=
  have hvis : ∀ l ∈ Landmark.sample_visible_pose,
      l.visibility.gt GST_SYNAP_POSE_VISIBILITY_THRESHOLD = true := by
    intro l hl
    rw [List.eq_of_mem_replicate hl]
    norm_num [gfloat.gt, GST_SYNAP_POSE_VISIBILITY_THRESHOLD]
  ⟨by decide, hvis,
    (skeleton_edge_table
      (GstSynapOverlay.sample GST_SYNAP_POSTPROCESSING_MODE_DETECTOR (.fin (1 / 2)))
      { format := .GST_VIDEO_FORMAT_BGRA, width := 1920, height := 1080 }
      Landmark.sample_visible_pose (by decide) hvis).2.2.2⟩

/-- C30: landmark indexing is in bounds. Every start and end index of the edge table and
every index of the dot loop is less than 17; so for a detection with exactly 17
landmarks every call of `gst_synap_overlay_render_poseline`, every round of the dot loop
and the pose branch as a whole access only existing landmarks (they are defined), while
an index at or beyond the length of the list would be an access out of range; and the
box branch does not depend on the landmarks. -/
theorem landmark_indexing_in_bounds (ov : GstSynapOverlay) (frame : GstVideoInfo) :
    (∀ p ∈ pose_edges, p.1 < GST_SYNAP_POSE_SIZE ∧ p.2 < GST_SYNAP_POSE_SIZE) ∧
    (∀ j ∈ List.range GST_SYNAP_POSE_SIZE, j < GST_SYNAP_POSE_SIZE) ∧
    (∀ landmarks : List Landmark, landmarks.length = GST_SYNAP_POSE_SIZE →
      (∀ p ∈ pose_edges,
        (gst_synap_overlay_render_poseline ov frame landmarks p.1 p.2).isSome = true) ∧
      (∀ j ∈ List.range GST_SYNAP_POSE_SIZE,
        (render_dot ov frame landmarks j).isSome = true) ∧
      (render_pose ov frame landmarks).isSome = true) ∧
    (∀ (landmarks : List Landmark) (start end_ : Nat), landmarks.length ≤ start →
      gst_synap_overlay_render_poseline ov frame landmarks start end_ = none) ∧
    (∀ (landmarks : List Landmark) (j : Nat), landmarks.length ≤ j →
      render_dot ov frame landmarks j = none) ∧
    (∀ (item : DetectorItem) (landmarks : List Landmark),
      render_box ov frame { item with landmarks := landmarks } = render_box ov frame item) := by
  refine ⟨by decide, fun j hj => List.mem_range.1 hj, ?_, ?_, ?_, fun _ _ => rfl⟩
  · intro landmarks hlen
    refine ⟨?_, ?_, ?_⟩
    · intro p hp
      have hb : p.1 < landmarks.length ∧ p.2 < landmarks.length := by
        rw [hlen]
        revert p
        decide
      unfold gst_synap_overlay_render_poseline
      rw [List.getElem?_eq_getElem hb.1, List.getElem?_eq_getElem hb.2]
      simp only []
      split_ifs <;> rfl
    · intro j hj
      have hb : j < landmarks.length := by rw [hlen]; exact List.mem_range.1 hj
      rw [render_dot_of_getElem ov frame landmarks j _ (List.getElem?_eq_getElem hb)]
      rfl
    · obtain ⟨lines, _, _, hpose⟩ := render_pose_calls ov frame landmarks hlen
      rw [hpose]
      rfl
  · intro landmarks start end_ h
    unfold gst_synap_overlay_render_poseline
    rw [List.getElem?_eq_none h]
  · intro landmarks j h
    unfold render_dot
    rw [List.getElem?_eq_none h]

/-! ## Claims on the publish operation and on mode none -/

/-- C25: the disposer matches the resident kind. When a buffer that carries an Envelope
with a payload is published into an occupied mailbox, the one call made is selected by
the kind stored in the mailbox and is applied to the resident payload: the classifier
disposer for a resident classifier payload, the detector disposer for a resident
detector payload (and the error report for a resident kind none); the incoming
Envelope has no part in it, any two such buffers give the same call. -/
theorem disposer_matches_resident_kind (ov : GstSynapOverlay) (buffer : GstBuffer)
    (hresident : ov.overlaydata ≠ NULL) (hcarries : carries_envelope buffer = true) :
    (gst_synap_overlay_inference_sink_chain ov buffer).2.1 =
      (if ov.mode = GST_SYNAP_POSTPROCESSING_MODE_CLASSIFIER then
         [.delete_classifier_result ov.overlaydata]
       else if ov.mode = GST_SYNAP_POSTPROCESSING_MODE_DETECTOR then
         [.delete_detector_result ov.overlaydata]
       else [.error_invalid_mode]) ∧
    (∀ buffer2 : GstBuffer, carries_envelope buffer2 = true →
      (gst_synap_overlay_inference_sink_chain ov buffer2).2.1
        = (gst_synap_overlay_inference_sink_chain ov buffer).2.1) := by
  have key : ∀ b : GstBuffer, carries_envelope b = true →
      (gst_synap_overlay_inference_sink_chain ov b).2.1 =
        (if ov.mode = GST_SYNAP_POSTPROCESSING_MODE_CLASSIFIER then
           [.delete_classifier_result ov.overlaydata]
         else if ov.mode = GST_SYNAP_POSTPROCESSING_MODE_DETECTOR then
           [.delete_detector_result ov.overlaydata]
         else [.error_invalid_mode]) := by
    intro b hb
    unfold carries_envelope at hb
    unfold gst_synap_overlay_inference_sink_chain
    cases hmeta : gst_buffer_get_synap_meta b with
    | none => rw [hmeta] at hb; simp at hb
    | some m =>
      rw [hmeta] at hb
      simp only [decide_eq_true_eq] at hb
      simp [hb, hresident]
  exact ⟨key buffer hcarries, fun b2 h2 => (key b2 h2).trans (key buffer hcarries).symm⟩

/-- C25 at the example of the claim: a detector Envelope (payload at address 2) published
over a resident classifier Envelope (payload at address 1) calls the classifier disposer
on payload 1. -/
theorem disposer_matches_resident_kind_witness :
    (GstSynapOverlay.sample GST_SYNAP_POSTPROCESSING_MODE_CLASSIFIER (.fin 11)).overlaydata
      ≠ NULL ∧
    carries_envelope
      (envelope_buffer { postproc_mode := GST_SYNAP_POSTPROCESSING_MODE_DETECTOR,
                         data := 2, width := 640, height := 480,
                         confthreshold := .fin (1 / 2) }) = true ∧
    (gst_synap_overlay_inference_sink_chain
      (GstSynapOverlay.sample GST_SYNAP_POSTPROCESSING_MODE_CLASSIFIER (.fin 11))
      (envelope_buffer { postproc_mode := GST_SYNAP_POSTPROCESSING_MODE_DETECTOR,
                         data := 2, width := 640, height := 480,
                         confthreshold := .fin (1 / 2) })).2.1
      = [.delete_classifier_result 1] :=
  ⟨by decide, by decide,
    (disposer_matches_resident_kind
      (GstSynapOverlay.sample GST_SYNAP_POSTPROCESSING_MODE_CLASSIFIER (.fin 11))
      (envelope_buffer { postproc_mode := GST_SYNAP_POSTPROCESSING_MODE_DETECTOR,
                         data := 2, width := 640, height := 480,
                         confthreshold := .fin (1 / 2) })
      (by decide) (by decide)).1⟩

/-- On an instance whose lock is free and whose mailbox is occupied, the classification
routine, when it returns, returns the instance as it was: lock released, mailbox
untouched. -/
theorem render_classification_unlocked (ov : GstSynapOverlay) (env : RenderEnv)
    (format : cairo_format_t) (r : RenderStep) (hlock : ov.data_lock = false)
    (hdata : ov.overlaydata ≠ NULL)
    (h : gst_synap_overlay_render_classification ov env format = some r) :
    r.synapoverlay = ov := by
  have hov : ({ ov with data_lock := false } : GstSynapOverlay) = ov := by
    cases ov; simp_all
  unfold gst_synap_overlay_render_classification at h
  by_cases h1 : env.frame_map_ok = true
  · by_cases h2 : env.surface_ok = true
    · by_cases h3 : env.cr_ok = true
      · simp only [h1, h2, h3, hdata, Bool.not_true, Bool.false_eq_true, if_false] at h
        cases hi : (env.classifier_at ov.overlaydata).items.head? with
        | none => rw [hi] at h; simp at h
        | some top =>
          rw [hi] at h
          simp only [Option.map_eq_some'] at h
          obtain ⟨t, _, ht⟩ := h
          rw [← ht]
          exact hov
      · simp [h1, h2, h3] at h
        rw [← h]
    · simp [h1, h2] at h
      rw [← h]
  · simp [h1] at h
    rw [← h]

/-- On an instance whose lock is free and whose mailbox is occupied, the detection
routine, when it returns, returns the instance as it was: lock released, mailbox
untouched. -/
theorem render_detection_unlocked (ov : GstSynapOverlay) (env : RenderEnv)
    (format : cairo_format_t) (r : RenderStep) (hlock : ov.data_lock = false)
    (hdata : ov.overlaydata ≠ NULL)
    (h : gst_synap_overlay_render_detection ov env format = some r) :
    r.synapoverlay = ov := by
  have hov : ({ ov with data_lock := false } : GstSynapOverlay) = ov := by
    cases ov; simp_all
  unfold gst_synap_overlay_render_detection at h
  by_cases h1 : env.frame_map_ok = true
  · by_cases h2 : env.surface_ok = true
    · by_cases h3 : env.cr_ok = true
      · simp only [h1, h2, h3, hdata, Bool.not_true, Bool.false_eq_true, if_false,
          Option.map_eq_some'] at h
        obtain ⟨t, _, ht⟩ := h
        rw [← ht]
        exact hov
      · simp [h1, h2, h3] at h
        rw [← h]
    · simp [h1, h2] at h
      rw [← h]
  · simp [h1] at h
    rw [← h]

/-- A display frame on an instance whose lock is free: when
`gst_synap_overlay_transform_ip` returns, the instance is as it was. -/
theorem transform_ip_unlocked (ov : GstSynapOverlay) (env : RenderEnv) (r : OverlayStep)
    (hlock : ov.data_lock = false) (h : gst_synap_overlay_transform_ip ov env = some r) :
    r.synapoverlay = ov := by
  unfold gst_synap_overlay_transform_ip at h
  by_cases hdata : ov.overlaydata = NULL
  · simp [hdata] at h
    rw [← h]
  · simp only [hdata, ne_eq, not_false_eq_true, if_true, Option.map_eq_some'] at h
    obtain ⟨rr, hrr, hr⟩ := h
    rw [← hr]
    simp only []
    unfold gst_synap_overlay_render at hrr
    cases hf : cairo_format_of ov.videoinfo.format with
    | none => rw [hf] at hrr; simp at hrr; rw [← hrr]
    | some format =>
      rw [hf] at hrr
      simp only [] at hrr
      by_cases hc : ov.mode = GST_SYNAP_POSTPROCESSING_MODE_CLASSIFIER
      · simp only [hc, if_true] at hrr
        exact render_classification_unlocked ov env format rr hlock hdata hrr
      · by_cases hd : ov.mode = GST_SYNAP_POSTPROCESSING_MODE_DETECTOR
        · simp only [hc, hd, if_true, if_false] at hrr
          exact render_detection_unlocked ov env format rr hlock hdata hrr
        · simp [hc, hd] at hrr
          rw [← hrr]

/-- A publish ends with the lock released, and never empties an occupied mailbox. -/
theorem sink_chain_unlocked (ov : GstSynapOverlay) (buffer : GstBuffer)
    (hlock : ov.data_lock = false) :
    (gst_synap_overlay_inference_sink_chain ov buffer).1.data_lock = false ∧
    (ov.overlaydata ≠ NULL →
      (gst_synap_overlay_inference_sink_chain ov buffer).1.overlaydata ≠ NULL) := by
  unfold gst_synap_overlay_inference_sink_chain
  cases gst_buffer_get_synap_meta buffer with
  | none => exact ⟨hlock, fun h => h⟩
  | some m =>
    by_cases hm : m.data = NULL
    · simp [hm, hlock]
    · simp [hm]

/-- One operation on an instance whose lock is free leaves the lock free and an occupied
mailbox occupied. -/
theorem overlay_step_invariant (ov ov2 : GstSynapOverlay) (op : OverlayOp)
    (hlock : ov.data_lock = false) (h : overlay_step ov op = some ov2) :
    ov2.data_lock = false ∧ (ov.overlaydata ≠ NULL → ov2.overlaydata ≠ NULL) := by
  cases op with
  | set_property value =>
    simp only [overlay_step, Option.some.injEq] at h
    rw [← h]
    cases value <;> exact ⟨hlock, fun h => h⟩
  | set_caps info =>
    simp only [overlay_step, Option.some.injEq] at h
    rw [← h]
    cases info <;> exact ⟨hlock, fun h => h⟩
  | start labelinfo init_ok =>
    simp only [overlay_step, Option.some.injEq] at h
    rw [← h]
    unfold gst_synap_overlay_start
    cases ov.label with
    | none => exact ⟨hlock, fun h => h⟩
    | some l => simp only []; split_ifs <;> exact ⟨hlock, fun h => h⟩
  | stop =>
    simp only [overlay_step, Option.some.injEq] at h
    rw [← h]
    unfold gst_synap_overlay_stop
    split_ifs <;> exact ⟨hlock, fun h => h⟩
  | publish buffer =>
    simp only [overlay_step, Option.some.injEq] at h
    rw [← h]
    exact sink_chain_unlocked ov buffer hlock
  | transform env =>
    simp only [overlay_step, Option.map_eq_some'] at h
    obtain ⟨r, hr, hr2⟩ := h
    rw [← hr2, transform_ip_unlocked ov env r hlock hr]
    exact ⟨hlock, fun h => h⟩

/-- A sequence of operations from an instance whose lock is free ends with the lock
free. -/
theorem overlay_run_unlocked (ops : List OverlayOp) :
    ∀ ov0 ov : GstSynapOverlay, ov0.data_lock = false → overlay_run ov0 ops = some ov →
      ov.data_lock = false := by
  induction ops with
  | nil =>
    intro ov0 ov h0 h
    simp only [overlay_run, Option.some.injEq] at h
    rw [← h]; exact h0
  | cons op rest ih =>
    intro ov0 ov h0 h
    simp only [overlay_run] at h
    cases hs : overlay_step ov0 op with
    | none => rw [hs] at h; simp at h
    | some next =>
      rw [hs] at h
      exact ih next ov (overlay_step_invariant ov0 next op h0 hs).1 h

/-- The item loop is defined when a configured label file is loaded. -/
theorem render_items_defined (ov : GstSynapOverlay) (frame : GstVideoInfo)
    (hlabel : ov.label ≠ none → ov.labelinfo ≠ NULL) (items : List DetectorItem) :
    ∃ calls, render_items ov frame items = some calls := by
  induction items with
  | nil => exact ⟨[], rfl⟩
  | cons item rest ih =>
    obtain ⟨calls, hc⟩ := ih
    obtain ⟨a, ha, _⟩ := render_item_shape ov frame item hlabel
    exact ⟨a ++ calls, by simp only [render_items, ha, hc]⟩

/-- A display frame is defined (no undefined behaviour) when a configured label file is
loaded and a resident classification has at least one entry. -/
theorem transform_ip_defined (ov : GstSynapOverlay) (env : RenderEnv)
    (hlabel : ov.label ≠ none → ov.labelinfo ≠ NULL)
    (hitems : ov.mode = GST_SYNAP_POSTPROCESSING_MODE_CLASSIFIER →
      (env.classifier_at ov.overlaydata).items ≠ []) :
    ∃ r, gst_synap_overlay_transform_ip ov env = some r := by
  unfold gst_synap_overlay_transform_ip
  by_cases hdata : ov.overlaydata = NULL
  · simp [hdata]
  · simp only [hdata, ne_eq, not_false_eq_true, if_true, Option.map_eq_some']
    suffices hs : ∃ rr, gst_synap_overlay_render ov env = some rr by
      obtain ⟨rr, hrr⟩ := hs
      exact ⟨_, rr, hrr, rfl⟩
    unfold gst_synap_overlay_render
    cases cairo_format_of ov.videoinfo.format with
    | none => exact ⟨_, rfl⟩
    | some format =>
      simp only []
      by_cases hc : ov.mode = GST_SYNAP_POSTPROCESSING_MODE_CLASSIFIER
      · simp only [hc, if_true]
        unfold gst_synap_overlay_render_classification
        by_cases h1 : env.frame_map_ok = true
        · by_cases h2 : env.surface_ok = true
          · by_cases h3 : env.cr_ok = true
            · simp only [h1, h2, h3, hdata, Bool.not_true, Bool.false_eq_true, if_false]
              cases hi : (env.classifier_at ov.overlaydata).items with
              | nil => exact absurd hi (hitems hc)
              | cons top rest =>
                simp only [List.head?_cons, Option.map_eq_some']
                by_cases hg : top.confidence.gt ov.confthreshold = true
                · by_cases hl : ov.label = none
                  · simp [hg, hl]
                  · simp [hg, hl, hlabel hl]
                · simp [hg]
            · simp [h1, h2, h3]
          · simp [h1, h2]
        · simp [h1]
      · by_cases hd : ov.mode = GST_SYNAP_POSTPROCESSING_MODE_DETECTOR
        · simp only [hc, hd, if_true, if_false]
          unfold gst_synap_overlay_render_detection
          by_cases h1 : env.frame_map_ok = true
          · by_cases h2 : env.surface_ok = true
            · by_cases h3 : env.cr_ok = true
              · simp only [h1, h2, h3, hdata, Bool.not_true, Bool.false_eq_true, if_false]
                obtain ⟨calls, hcalls⟩ := render_items_defined
                  { ov with data_lock := true } ov.videoinfo hlabel
                  (env.detector_at ov.overlaydata).items
                rw [hcalls]
                exact ⟨_, rfl⟩
              · simp [h1, h2, h3]
            · simp [h1, h2]
          · simp [h1]
        · simp [hc, hd]

/-- C28: lock release on every reachable exit. In the sequential model with the
lock-held flag `data_lock`, in every state reached from `gst_synap_overlay_init` by any
sequence of operations (property write, caps, start, stop, publish, display frame) the
lock is free; from such a state every publish returns with the lock released, every
display frame that returns does so with the lock released, and it does return when a
configured label file is loaded and a resident classification has an entry; no
operation empties an occupied mailbox; and the return under the null-payload guard of
the two drawing routines, which is the one exit that keeps the lock, needs a null
payload, which `gst_synap_overlay_transform_ip` never passes on. -/
theorem lock_released_on_every_exit (ops : List OverlayOp) (ov : GstSynapOverlay)
    (hrun : overlay_run gst_synap_overlay_init ops = some ov) :
    ov.data_lock = false ∧
    (∀ buffer : GstBuffer,
      (gst_synap_overlay_inference_sink_chain ov buffer).1.data_lock = false) ∧
    (∀ (env : RenderEnv) (r : OverlayStep),
      gst_synap_overlay_transform_ip ov env = some r →
      r.synapoverlay.data_lock = false) ∧
    (∀ env : RenderEnv, (ov.label ≠ none → ov.labelinfo ≠ NULL) →
      (ov.mode = GST_SYNAP_POSTPROCESSING_MODE_CLASSIFIER →
        (env.classifier_at ov.overlaydata).items ≠ []) →
      ∃ r, gst_synap_overlay_transform_ip ov env = some r ∧
        r.synapoverlay.data_lock = false) ∧
    (∀ (op : OverlayOp) (ov2 : GstSynapOverlay), overlay_step ov op = some ov2 →
      ov.overlaydata ≠ NULL → ov2.overlaydata ≠ NULL) ∧
    (∀ (ov0 : GstSynapOverlay) (env : RenderEnv) (format : cairo_format_t)
      (r : RenderStep),
      (gst_synap_overlay_render_classification ov0 env format = some r ∨
       gst_synap_overlay_render_detection ov0 env format = some r) →
      ov0.data_lock = false → r.synapoverlay.data_lock = true →
      ov0.overlaydata = NULL) ∧
    (∀ (ov0 : GstSynapOverlay) (env : RenderEnv) (format : cairo_format_t),
      env.frame_map_ok = true → env.surface_ok = true → env.cr_ok = true →
      ov0.overlaydata = NULL →
      (gst_synap_overlay_render_classification ov0 env format).map
          (fun r => r.synapoverlay.data_lock) = some true ∧
      (gst_synap_overlay_render_detection ov0 env format).map
          (fun r => r.synapoverlay.data_lock) = some true) := by
  have hlock := overlay_run_unlocked ops gst_synap_overlay_init ov rfl hrun
  refine ⟨hlock, fun b => (sink_chain_unlocked ov b hlock).1, ?_, ?_, ?_, ?_, ?_⟩
  · intro env r hr
    rw [transform_ip_unlocked ov env r hlock hr]
    exact hlock
  · intro env hlabel hitems
    obtain ⟨r, hr⟩ := transform_ip_defined ov env hlabel hitems
    exact ⟨r, hr, by rw [transform_ip_unlocked ov env r hlock hr]; exact hlock⟩
  · intro op ov2 h hdata
    exact (overlay_step_invariant ov ov2 op hlock h).2 hdata
  · intro ov0 env format r hr h0 h1
    by_contra hdata
    rcases hr with hr | hr
    · rw [render_classification_unlocked ov0 env format r h0 hdata hr, h0] at h1
      exact absurd h1 (by decide)
    · rw [render_detection_unlocked ov0 env format r h0 hdata hr, h0] at h1
      exact absurd h1 (by decide)
  · intro ov0 env format h1 h2 h3 hdata
    simp [gst_synap_overlay_render_classification, gst_synap_overlay_render_detection,
      h1, h2, h3, hdata]

/-- C28 at a concrete sequence: caps negotiated, a detector Envelope published, a display
frame rendered, a classifier Envelope published over it; the lock is free at the end. -/
theorem lock_released_on_every_exit_witness :
    overlay_run gst_synap_overlay_init
        [.set_caps (some { format := .GST_VIDEO_FORMAT_BGRA, width := 1920, height := 1080 }),
         .publish (envelope_buffer
           { postproc_mode := GST_SYNAP_POSTPROCESSING_MODE_DETECTOR, data := 2,
             width := 640, height := 480, confthreshold := .fin 1 }),
         .transform RenderEnv.sample,
         .publish (envelope_buffer
           { postproc_mode := GST_SYNAP_POSTPROCESSING_MODE_CLASSIFIER, data := 1,
             width := 224, height := 224, confthreshold := .fin 11 })]
      = some { gst_synap_overlay_init with
               videoinfo := { format := .GST_VIDEO_FORMAT_BGRA, width := 1920, height := 1080 }
               mode := GST_SYNAP_POSTPROCESSING_MODE_CLASSIFIER
               overlaydata := 1, width := 224, height := 224, confthreshold := .fin 11 } ∧
    ({ gst_synap_overlay_init with
       videoinfo := { format := .GST_VIDEO_FORMAT_BGRA, width := 1920, height := 1080 }
       mode := GST_SYNAP_POSTPROCESSING_MODE_CLASSIFIER
       overlaydata := 1, width := 224, height := 224,
       confthreshold := .fin 11 } : GstSynapOverlay).data_lock = false :=
  ⟨by decide,
    (lock_released_on_every_exit
      [.set_caps (some { format := .GST_VIDEO_FORMAT_BGRA, width := 1920, height := 1080 }),
       .publish (envelope_buffer
         { postproc_mode := GST_SYNAP_POSTPROCESSING_MODE_DETECTOR, data := 2,
           width := 640, height := 480, confthreshold := .fin 1 }),
       .transform RenderEnv.sample,
       .publish (envelope_buffer
         { postproc_mode := GST_SYNAP_POSTPROCESSING_MODE_CLASSIFIER, data := 1,
           width := 224, height := 224, confthreshold := .fin 11 })]
      _ (by decide)).1⟩

/-- C29: the overlay flow never fails. Whatever the mailbox holds and whatever the frame
and cairo answer, every return of `gst_synap_overlay_transform_ip` is `GST_FLOW_OK`: with
an empty mailbox, with any outcome of `gst_synap_overlay_render` (its `gboolean` is not
looked at), in particular for a format without cairo format and for a frame that does
not map. `gst_synap_overlay_inference_sink_chain` returns `GST_FLOW_OK` for every
buffer, and when the buffer carries no Envelope or an Envelope with a null payload it
leaves the instance unchanged and deletes nothing. -/
theorem overlay_flow_never_fails (ov : GstSynapOverlay) (env : RenderEnv)
    (buffer : GstBuffer) :
    (∀ r : OverlayStep, gst_synap_overlay_transform_ip ov env = some r →
      r.ret = GST_FLOW_OK) ∧
    (ov.overlaydata = NULL →
      gst_synap_overlay_transform_ip ov env
        = some { synapoverlay := ov, calls := [], ret := GST_FLOW_OK }) ∧
    (∀ rr : RenderStep, ov.overlaydata ≠ NULL → gst_synap_overlay_render ov env = some rr →
      gst_synap_overlay_transform_ip ov env
        = some { synapoverlay := rr.synapoverlay, calls := rr.calls, ret := GST_FLOW_OK }) ∧
    (cairo_format_of ov.videoinfo.format = none →
      gst_synap_overlay_render ov env
        = some { synapoverlay := ov, calls := [], ret := false } ∧
      gst_synap_overlay_transform_ip ov env
        = some { synapoverlay := ov, calls := [], ret := GST_FLOW_OK }) ∧
    (env.frame_map_ok = false →
      gst_synap_overlay_transform_ip ov env
        = some { synapoverlay := ov, calls := [], ret := GST_FLOW_OK }) ∧
    (gst_synap_overlay_inference_sink_chain ov buffer).2.2 = GST_FLOW_OK ∧
    (carries_envelope buffer = false ↔
      (gst_buffer_get_synap_meta buffer = none ∨
       ∃ m, gst_buffer_get_synap_meta buffer = some m ∧ m.data = NULL)) ∧
    (carries_envelope buffer = false →
      (gst_synap_overlay_inference_sink_chain ov buffer).1 = ov ∧
      (gst_synap_overlay_inference_sink_chain ov buffer).2.1 = []) := by
  refine ⟨?_, ?_, ?_, ?_, ?_, ?_, ?_, ?_⟩
  · intro r h
    unfold gst_synap_overlay_transform_ip at h
    by_cases hdata : ov.overlaydata = NULL
    · simp [hdata] at h
      rw [← h]
    · simp only [hdata, ne_eq, not_false_eq_true, if_true, Option.map_eq_some'] at h
      obtain ⟨rr, _, hr⟩ := h
      rw [← hr]
  · intro hdata
    simp [gst_synap_overlay_transform_ip, hdata]
  · intro rr hdata hrr
    simp [gst_synap_overlay_transform_ip, hdata, hrr]
  · intro hf
    have hrender : gst_synap_overlay_render ov env
        = some { synapoverlay := ov, calls := [], ret := false } := by
      simp only [gst_synap_overlay_render, hf]
    refine ⟨hrender, ?_⟩
    by_cases hdata : ov.overlaydata = NULL
    · simp [gst_synap_overlay_transform_ip, hdata]
    · simp [gst_synap_overlay_transform_ip, hdata, hrender]
  · intro hmap
    by_cases hdata : ov.overlaydata = NULL
    · simp [gst_synap_overlay_transform_ip, hdata]
    · simp only [gst_synap_overlay_transform_ip, hdata, ne_eq, not_false_eq_true, if_true,
        gst_synap_overlay_render]
      cases cairo_format_of ov.videoinfo.format with
      | none => rfl
      | some format =>
        simp only []
        by_cases hc : ov.mode = GST_SYNAP_POSTPROCESSING_MODE_CLASSIFIER
        · simp [hc, gst_synap_overlay_render_classification, hmap]
        · by_cases hd : ov.mode = GST_SYNAP_POSTPROCESSING_MODE_DETECTOR
          · simp [hd, gst_synap_overlay_render_detection, hmap]
          · simp [hc, hd]
  · unfold gst_synap_overlay_inference_sink_chain
    cases gst_buffer_get_synap_meta buffer with
    | none => rfl
    | some m => simp only []; split_ifs <;> rfl
  · unfold carries_envelope
    cases gst_buffer_get_synap_meta buffer with
    | none => simp
    | some m => simp
  · intro h
    unfold carries_envelope at h
    unfold gst_synap_overlay_inference_sink_chain
    cases hmeta : gst_buffer_get_synap_meta buffer with
    | none => exact ⟨rfl, rfl⟩
    | some m =>
      rw [hmeta] at h
      simp only [decide_eq_false_iff_not, ne_eq, not_not] at h
      simp [h]

end Synap
